import Mathlib

/-!
Verification of the MIABIS-on-FHIR generator and batch-validation scripts.

This file is a shallow embedding, in Lean 4, of the two Python programs of the
repository:

* `generate-miabis-bundle.py` — the transaction-bundle generator.  Its single
  entry point `generate_bundle(num_donors, num_biobanks, num_collections, seed)`
  is embedded as `generate_bundle` below.  The Python `random` module is a
  single global Mersenne-Twister stream; it is modelled by an oracle
  `σ : Nat → Nat` (the sequence of raw draws) together with a position counter
  that every drawing operation advances, so that one seed corresponds to one
  oracle.  `uuid.uuid4()` reads OS entropy (`os.urandom`), not the seeded
  `random` stream, so the bundle id is modelled as a separate input `u`.
  Machine integers: all Python ints involved are small non-negative counters,
  modelled by `Nat`; Python `%` on non-negative operands agrees with `Nat.mod`,
  and `0 % 0` (which raises `ZeroDivisionError` in Python) is made explicit by
  an `Except` error.  Fallible spots of the source (`jp_ids[0]` on an empty
  list, `d % num_collections` with zero collections) return `Except.error`.

* `validate-miabis.py` — the batch-validation orchestrator.  The external
  validator subprocess is opaque; its captured console text is an input.  The
  count extraction `re.findall(r"(\d+)\s+error", text, re.IGNORECASE)` is
  embedded as a character-level scanner with the same semantics on ASCII text
  (`\d` / `\s` are modelled as ASCII digit / whitespace classes, which is what
  the validator's console output contains).

Strings are manipulated through their character lists so that every definition
evaluates inside the kernel.
-/

/-! ### Decimal rendering of naturals (Python f-string `{n:0wd}` formatting) -/

def digitChar (n : Nat) : Char :=
  match n with
  | 0 => '0' | 1 => '1' | 2 => '2' | 3 => '3' | 4 => '4'
  | 5 => '5' | 6 => '6' | 7 => '7' | 8 => '8' | _ => '9'

/-- Decimal digits of `n`, most significant first.  Fuel-based structural
recursion so that the kernel can evaluate it (`fuel > n` suffices). -/
def natDigitsAux (fuel : Nat) (n : Nat) : List Char :=
  match fuel with
  | 0 => []
  | fuel + 1 =>
    if n < 10 then [digitChar n]
    else natDigitsAux fuel (n / 10) ++ [digitChar (n % 10)]

def natDigits (n : Nat) : List Char := natDigitsAux (n + 1) n

/-- Python `f"{n:0wd}"`: decimal digits of `n` left-padded with zeros to width `w`. -/
def padNum (w n : Nat) : String :=
  ⟨List.replicate (w - (natDigits n).length) '0' ++ natDigits n⟩

/-- Numeric value of a digit string (used to invert `padNum`). -/
def charsToNat (cs : List Char) : Nat :=
  cs.foldl (fun a c => a * 10 + (c.toNat - 48)) 0

theorem digitChar_toNat {n : Nat} (h : n < 10) : (digitChar n).toNat = 48 + n := by
  interval_cases n <;> rfl

theorem digitChar_isDigit (n : Nat) : (digitChar n).isDigit = true := by
  unfold digitChar
  rcases n with _ | _ | _ | _ | _ | _ | _ | _ | _ | n <;> rfl

theorem charsToNat_aux_append (cs : List Char) (a : Nat) :
    cs.foldl (fun a c => a * 10 + (c.toNat - 48)) a =
      a * 10 ^ cs.length + charsToNat cs := by
  induction cs generalizing a with
  | nil => simp [charsToNat]
  | cons c cs ih =>
    simp only [List.foldl_cons, charsToNat, List.length_cons]
    rw [ih, ih (0 * 10 + (c.toNat - 48))]
    ring

theorem charsToNat_append (l₁ l₂ : List Char) :
    charsToNat (l₁ ++ l₂) = charsToNat l₁ * 10 ^ l₂.length + charsToNat l₂ := by
  simp only [charsToNat, List.foldl_append]
  rw [show (List.foldl (fun a c => a * 10 + (c.toNat - 48)) 0 l₁) = charsToNat l₁ from rfl,
    charsToNat_aux_append]
  rfl

theorem charsToNat_natDigitsAux {fuel n : Nat} (h : n < fuel) :
    charsToNat (natDigitsAux fuel n) = n := by
  induction fuel generalizing n with
  | zero => omega
  | succ fuel ih =>
    unfold natDigitsAux
    by_cases h10 : n < 10
    · simp only [if_pos h10, charsToNat, List.foldl_cons, List.foldl_nil]
      rw [digitChar_toNat h10]
      omega
    · simp only [if_neg h10]
      rw [charsToNat_append]
      have hdiv : n / 10 < fuel := by
        have := Nat.div_lt_self (by omega : 0 < n) (by omega : 1 < 10)
        omega
      rw [ih hdiv]
      simp only [charsToNat, List.length_cons, List.length_nil, List.foldl_cons,
        List.foldl_nil]
      rw [digitChar_toNat (Nat.mod_lt n (by omega))]
      have := Nat.div_add_mod n 10
      ring_nf
      omega

theorem charsToNat_natDigits (n : Nat) : charsToNat (natDigits n) = n :=
  charsToNat_natDigitsAux (Nat.lt_succ_self n)

theorem isDigit_natDigitsAux {fuel n : Nat} : ∀ c ∈ natDigitsAux fuel n, c.isDigit = true := by
  induction fuel generalizing n with
  | zero => intro c hc; simp [natDigitsAux] at hc
  | succ fuel ih =>
    intro c hc
    unfold natDigitsAux at hc
    by_cases h10 : n < 10
    · simp only [if_pos h10, List.mem_singleton] at hc
      exact hc ▸ digitChar_isDigit n
    · simp only [if_neg h10, List.mem_append, List.mem_singleton] at hc
      rcases hc with hc | hc
      · exact ih c hc
      · exact hc ▸ digitChar_isDigit (n % 10)

theorem charsToNat_replicate_zero (k : Nat) (cs : List Char) :
    charsToNat (List.replicate k '0' ++ cs) = charsToNat cs := by
  induction k with
  | zero => simp
  | succ k ih => simpa [List.replicate_succ, charsToNat] using ih

theorem charsToNat_padNum (w n : Nat) : charsToNat (padNum w n).data = n := by
  show charsToNat (List.replicate _ '0' ++ natDigits n) = n
  rw [charsToNat_replicate_zero, charsToNat_natDigits]

theorem padNum_inj {w a b : Nat} (h : padNum w a = padNum w b) : a = b := by
  have := congrArg (fun s : String => charsToNat s.data) h
  simpa [charsToNat_padNum] using this

theorem isDigit_padNum (w n : Nat) : ∀ c ∈ (padNum w n).data, c.isDigit = true := by
  intro c hc
  rcases List.mem_append.1 hc with hc | hc
  · rw [List.eq_of_mem_replicate hc]; rfl
  · exact isDigit_natDigitsAux c hc

theorem ne_of_isDigit {c d : Char} (h : c.isDigit = true) (hd : d.isDigit = false) :
    c ≠ d := by
  intro h'; rw [h'] at h; rw [h] at hd; cases hd

/-- Splitting at a separator character is injective when neither side
contains the separator. -/
theorem append_sep_inj {sep : Char} :
    ∀ {a₁ a₂ b₁ b₂ : List Char}, (∀ c ∈ a₁, c ≠ sep) → (∀ c ∈ a₂, c ≠ sep) →
      a₁ ++ sep :: b₁ = a₂ ++ sep :: b₂ → a₁ = a₂ ∧ b₁ = b₂ := by
  intro a₁
  induction a₁ with
  | nil =>
    intro a₂ b₁ b₂ _ h₂ h
    cases a₂ with
    | nil => simpa using h
    | cons c cs =>
      simp only [List.nil_append, List.cons_append, List.cons.injEq] at h
      exact absurd h.1.symm (h₂ c (by simp))
  | cons c cs ih =>
    intro a₂ b₁ b₂ h₁ h₂ h
    cases a₂ with
    | nil =>
      simp only [List.cons_append, List.nil_append, List.cons.injEq] at h
      exact absurd h.1 (h₁ c (by simp))
    | cons d ds =>
      simp only [List.cons_append, List.cons.injEq] at h
      obtain ⟨rfl, h⟩ := h
      obtain ⟨h3, h4⟩ := ih (fun x hx => h₁ x (by simp [hx])) (fun x hx => h₂ x (by simp [hx])) h
      exact ⟨by rw [h3], h4⟩

/-! ### The pseudo-random source (Python `random` module)

The Mersenne-Twister state after `random.seed(s)` is abstracted as an oracle
`σ : Nat → Nat` giving the successive raw draws; every drawing primitive of
the source consumes positions of the stream in program order.  All theorems
below about "every seed" quantify over every oracle `σ`. -/

/-- Python `random.choice(xs)`: one uniform pick.  All call sites in the source pass
non-empty literal lists, so the `getD` default is never selected. -/
def pyChoice {α : Type} (σ : Nat → Nat) (xs : List α) (dflt : α) (k : Nat) : α × Nat :=
  (xs.getD (σ k % xs.length) dflt, k + 1)

/-- Python `random.randint(a, b)`: uniform integer in `[a, b]` (inclusive); one draw. -/
def pyRandint (σ : Nat → Nat) (a b k : Nat) : Nat × Nat :=
  (a + σ k % (b + 1 - a), k + 1)

/-- Python `random.random() < 0.1` (the 10% deceased branch): the comparison of one
uniform float draw against 0.1, modelled as one stream draw determining the
boolean. -/
def pyRandBool10 (σ : Nat → Nat) (k : Nat) : Bool × Nat :=
  (σ k % 10 == 0, k + 1)

/-- Python `random.sample(population, k)`: `kk` distinct picks without replacement.
Modelled as repeated removal at a stream-chosen index.  Python raises
`ValueError` when `kk` exceeds the population size; every call site of the
source bounds `kk` by the population size, so that branch is modelled by
truncation. -/
def pySample (σ : Nat → Nat) : List String → Nat → Nat → List String × Nat
  | _, 0, k => ([], k)
  | xs, kk + 1, k =>
    if xs.length = 0 then ([], k)
    else
      let i := σ k % xs.length
      let x := xs.getD i ""
      let (rest, k') := pySample σ (xs.eraseIdx i) kk (k + 1)
      (x :: rest, k')

theorem pySample_length (σ : Nat → Nat) :
    ∀ (xs : List String) (kk k : Nat), ((pySample σ xs kk k).1).length = min kk xs.length := by
  intro xs kk
  induction kk generalizing xs with
  | zero => intro k; simp [pySample]
  | succ kk ih =>
    intro k
    by_cases h : xs.length = 0
    · simp [pySample, h]
    · simp only [pySample, if_neg h]
      have hi : σ k % xs.length < xs.length := Nat.mod_lt _ (by omega)
      have := ih (xs.eraseIdx (σ k % xs.length)) (k + 1)
      simp only [List.length_cons, this, List.length_eraseIdx, if_pos hi]
      omega

theorem mem_of_mem_eraseIdx {α : Type} {a : α} :
    ∀ {l : List α} {i : Nat}, a ∈ l.eraseIdx i → a ∈ l := by
  intro l
  induction l with
  | nil => intro i h; simp [List.eraseIdx] at h
  | cons x xs ih =>
    intro i h
    cases i with
    | zero => simp only [List.eraseIdx] at h; exact List.mem_cons_of_mem _ h
    | succ i =>
      simp only [List.eraseIdx] at h
      rcases List.mem_cons.1 h with h | h
      · exact h ▸ List.mem_cons_self _ _
      · exact List.mem_cons_of_mem _ (ih h)

theorem pySample_subset (σ : Nat → Nat) :
    ∀ (xs : List String) (kk k : Nat), ∀ x ∈ (pySample σ xs kk k).1, x ∈ xs := by
  intro xs kk
  induction kk generalizing xs with
  | zero => intro k x hx; simp [pySample] at hx
  | succ kk ih =>
    intro k x hx
    by_cases h : xs.length = 0
    · simp [pySample, h] at hx
    · simp only [pySample, if_neg h] at hx
      have hi : σ k % xs.length < xs.length := Nat.mod_lt _ (by omega)
      rcases List.mem_cons.1 hx with hx | hx
      · rw [hx, List.getD_eq_getElem _ _ hi]
        exact List.getElem_mem hi
      · exact mem_of_mem_eraseIdx (ih _ (k + 1) x hx)

/-- Function `random_date(start_year, end_year)` of the source: three draws,
formatted `YYYY-MM-DD`. -/
def random_date (σ : Nat → Nat) (startYear endYear k : Nat) : String × Nat :=
  let (y, k) := pyRandint σ startYear endYear k
  let (m, k) := pyRandint σ 1 12 k
  let (d, k) := pyRandint σ 1 28 k
  (padNum 4 y ++ "-" ++ padNum 2 m ++ "-" ++ padNum 2 d, k)

/-- Function `random_datetime(year_min, year_max)` of the source: four draws,
formatted `YYYY-MM-DDTHH:00:00+01:00`. -/
def random_datetime (σ : Nat → Nat) (yearMin yearMax k : Nat) : String × Nat :=
  let (y, k) := pyRandint σ yearMin yearMax k
  let (m, k) := pyRandint σ 1 12 k
  let (d, k) := pyRandint σ 1 28 k
  let (h, k) := pyRandint σ 6 18 k
  (padNum 4 y ++ "-" ++ padNum 2 m ++ "-" ++ padNum 2 d ++ "T" ++ padNum 2 h ++ ":00:00+01:00", k)

/-! ### State threading for the `for` loops of the source -/

/-- Run a stream-consuming body over a list, threading the stream position —
the shape of every `for` loop of the generator. -/
def mapState {α β : Type} (f : α → Nat → β × Nat) : List α → Nat → List β × Nat
  | [], k => ([], k)
  | a :: as, k =>
    let (b, k') := f a k
    let (bs, k'') := mapState f as k'
    (b :: bs, k'')

theorem mapState_forall₂ {α β : Type} (f : α → Nat → β × Nat) (l : List α) (k : Nat) :
    List.Forall₂ (fun a b => ∃ k', b = (f a k').1) l (mapState f l k).1 := by
  induction l generalizing k with
  | nil => simp [mapState]
  | cons a as ih =>
    simp only [mapState]
    exact List.Forall₂.cons ⟨k, rfl⟩ (ih _)

theorem mapState_length {α β : Type} (f : α → Nat → β × Nat) (l : List α) (k : Nat) :
    ((mapState f l k).1).length = l.length :=
  ((mapState_forall₂ f l k).length_eq).symm

/-- If a projection `g` of the loop body is independent of the stream
position, the projected outputs are a plain `map` of the inputs. -/
theorem mapState_map {α β γ : Type} {f : α → Nat → β × Nat} (g : β → γ) (gv : α → γ)
    (h : ∀ a k, g ((f a k).1) = gv a) (l : List α) (k : Nat) :
    ((mapState f l k).1).map g = l.map gv := by
  induction l generalizing k with
  | nil => simp [mapState]
  | cons a as ih => simp [mapState, h, ih]

theorem mapState_getElem {α β : Type} (f : α → Nat → β × Nat) (l : List α) (k : Nat)
    (i : Nat) (hi : i < l.length) (hi' : i < ((mapState f l k).1).length) :
    ∃ k', ((mapState f l k).1)[i] = (f l[i] k').1 := by
  have h := (List.forall₂_iff_get.1 (mapState_forall₂ f l k)).2 i hi hi'
  simpa using h

theorem mapState_mem {α β : Type} {f : α → Nat → β × Nat} {l : List α} {k : Nat}
    {b : β} (hb : b ∈ (mapState f l k).1) : ∃ a ∈ l, ∃ k', b = (f a k').1 := by
  induction l generalizing k with
  | nil => simp [mapState] at hb
  | cons a as ih =>
    simp only [mapState, List.mem_cons] at hb
    rcases hb with hb | hb
    · exact ⟨a, by simp, k, hb⟩
    · obtain ⟨a', ha', hk⟩ := ih hb
      exact ⟨a', by simp [ha'], hk⟩

/-! ### Reference tables of the generator (module-level constants) -/

def ICD10_CODES : List (String × String) := [
  ("C34.1", "Upper lobe, bronchus or lung"),
  ("C34.2", "Middle lobe, bronchus or lung"),
  ("C34.3", "Lower lobe, bronchus or lung"),
  ("C50.9", "Breast, unspecified"),
  ("C50.4", "Upper-outer quadrant of breast"),
  ("C18.0", "Caecum"),
  ("C18.2", "Ascending colon"),
  ("C18.7", "Sigmoid colon"),
  ("C61",   "Malignant neoplasm of prostate"),
  ("C25.0", "Head of pancreas"),
  ("C56",   "Malignant neoplasm of ovary"),
  ("C64",   "Malignant neoplasm of kidney, except renal pelvis"),
  ("C16.0", "Cardia"),
  ("C67.9", "Bladder, unspecified"),
  ("C71.9", "Brain, unspecified"),
  ("C73",   "Malignant neoplasm of thyroid gland"),
  ("C43.5", "Malignant melanoma of trunk"),
  ("C22.0", "Liver cell carcinoma"),
  ("C15.9", "Oesophagus, unspecified"),
  ("C20",   "Malignant neoplasm of rectum")]

def SAMPLE_TYPES : List (String × String) := [
  ("TissueFreshFrozen",   "Tissue (fresh frozen)"),
  ("TissueFFPE",          "Tissue (FFPE)"),
  ("Blood",               "Whole blood"),
  ("Plasma",              "Plasma"),
  ("Serum",               "Serum"),
  ("DNA",                 "DNA"),
  ("RNA",                 "RNA"),
  ("BuffyCoat",           "Buffy coat"),
  ("Urine",               "Urine"),
  ("Saliva",              "Saliva"),
  ("CellLineTumor",       "Tumor cell line")]

def COLLECTION_SAMPLE_TYPES : List String := [
  "TissueFrozen", "TissueFFPE", "Blood", "Plasma", "Serum", "DNA",
  "RNA", "BuffyCoat", "Urine", "Saliva"]

def STORAGE_TEMPERATURES : List (String × String) := [
  ("RT",           "Room temperature"),
  ("2to10",        "2 to 10 degrees Celsius"),
  ("minus18to35",  "-18 to -35 degrees Celsius"),
  ("minus60to85",  "-60 to -85 degrees Celsius"),
  ("LN",           "liquid nitrogen, -150 to -196 degrees Celsius"),
  ("Other",        "Other")]

def SAMPLE_STORAGE_MAP : List (String × String) := [
  ("TissueFreshFrozen", "LN"),
  ("TissueFFPE",        "RT"),
  ("Blood",             "minus18to35"),
  ("Plasma",            "minus60to85"),
  ("Serum",             "minus60to85"),
  ("DNA",               "minus18to35"),
  ("RNA",               "minus60to85"),
  ("BuffyCoat",         "minus60to85"),
  ("Urine",             "minus18to35"),
  ("Saliva",            "2to10"),
  ("CellLineTumor",     "LN")]

def BODY_SITES : List (String × String) := [
  ("39607008",   "Lung structure"),
  ("76752008",   "Breast structure"),
  ("71854001",   "Colon structure"),
  ("41216001",   "Prostatic structure"),
  ("15776009",   "Pancreatic structure"),
  ("15497006",   "Ovarian structure"),
  ("64033007",   "Kidney structure"),
  ("69695003",   "Stomach structure"),
  ("89837001",   "Urinary bladder structure"),
  ("12738006",   "Brain structure"),
  ("69748006",   "Thyroid structure"),
  ("14016003",   "Skin structure of trunk"),
  ("10200004",   "Liver structure"),
  ("32849002",   "Oesophageal structure"),
  ("34402009",   "Rectum structure")]

def ICD10_BODYSITE : List (String × String) := [
  ("C34", "39607008"), ("C50", "76752008"), ("C18", "71854001"), ("C20", "34402009"),
  ("C61", "41216001"), ("C25", "15776009"), ("C56", "15497006"), ("C64", "64033007"),
  ("C16", "69695003"), ("C67", "89837001"), ("C71", "12738006"), ("C73", "69748006"),
  ("C43", "14016003"), ("C22", "10200004"), ("C15", "32849002")]

def DATASET_TYPES : List String := [
  "Lifestyle", "BiologicalSamples", "SurveyData", "ImagingData",
  "MedicalRecords", "GenomicData", "PhysiologicalBiochemicalMeasurements"]

def COLLECTION_DESIGNS : List String := [
  "CaseControl", "CrossSectional", "LongitudinalCohort",
  "DiseaseSpecificCohort", "PopulationBasedCohort", "Other"]

def USE_ACCESS_CONDITIONS : List String := [
  "CommercialUse", "Collaboration", "SpecificResearchUse"]

def INCLUSION_CRITERIA : List String := [
  "HealthStatus", "HospitalPatient", "AgeRange",
  "FamiliesOfAffectedPersons", "Other"]

def INFRASTRUCTURAL_CAPABILITIES : List String := [
  "SampleStorage", "SampleProcessing", "DataStorage",
  "SampleAnalysis", "SampleShipping"]

def QUALITY_STANDARDS : List String := ["ISO 20387", "ISO 9001", "ISO 15189", "OECD Guidelines"]

def FIRST_NAMES_M : List String :=
  ["Jan", "Martin", "Petr", "Milan", "Thomas", "Hans", "Erik", "Lars", "Andrei", "Marco"]

def FIRST_NAMES_F : List String :=
  ["Eva", "Jana", "Maria", "Petra", "Anna", "Helga", "Ingrid", "Sofia", "Elena", "Lucia"]

def LAST_NAMES : List String :=
  ["Novak", "Svoboda", "Mueller", "Schmidt", "Jensen", "Larsson", "Popov", "Rossi", "Silva",
   "Patel", "Horvat", "Kowalski", "Virtanen", "Dupont", "Garcia", "Fernandez", "Bauer",
   "Fischer", "Weber", "Wagner"]

def COUNTRIES : List String :=
  ["CZ", "DE", "AT", "SE", "FI", "IT", "ES", "FR", "NL", "PL", "SI", "PT", "NO", "DK", "BE"]

def CITIES : List (String × List String) := [
  ("CZ", ["Prague", "Brno", "Ostrava"]), ("DE", ["Berlin", "Munich", "Hannover", "Hamburg"]),
  ("AT", ["Vienna", "Graz", "Innsbruck"]), ("SE", ["Stockholm", "Gothenburg", "Uppsala"]),
  ("FI", ["Helsinki", "Turku", "Tampere"]), ("IT", ["Rome", "Milan", "Florence"]),
  ("ES", ["Madrid", "Barcelona", "Valencia"]), ("FR", ["Paris", "Lyon", "Marseille"]),
  ("NL", ["Amsterdam", "Rotterdam", "Utrecht"]), ("PL", ["Warsaw", "Krakow", "Gdansk"]),
  ("SI", ["Ljubljana", "Maribor"]), ("PT", ["Lisbon", "Porto"]), ("NO", ["Oslo", "Bergen"]),
  ("DK", ["Copenhagen", "Aarhus"]), ("BE", ["Brussels", "Leuven"])]

def BIOBANK_SUFFIXES : List String := [
  "University Hospital Biobank", "Cancer Research Biobank", "National Biobank",
  "Medical Center Biobank", "Clinical Research Biobank", "Integrated Biobank",
  "Genomics & Tissue Bank", "Translational Research Biobank"]

def COLLECTION_NAMES : List String := [
  "Solid Tumors", "Hematological Malignancies", "Breast Cancer Cohort",
  "Lung Cancer Registry", "Colorectal Cancer Study", "Prostate Cancer Cohort",
  "Pancreatic Cancer Collection", "Rare Tumors Collection",
  "Population Health Study", "Metabolic Diseases Cohort",
  "Cardiovascular Sample Repository", "Neurological Disorders Collection"]

/-- Python `dict(pairs).get(key, dflt)` for string-valued tables. -/
def dictGet (m : List (String × String)) (key dflt : String) : String :=
  match m.find? (fun p => p.1 == key) with
  | some p => p.2
  | none => dflt

/-- Python `dict.get` for the city table (default `["Unknown"]`). -/
def dictGetCities (key : String) : List String :=
  match CITIES.find? (fun p => p.1 == key) with
  | some p => p.2
  | none => ["Unknown"]

/-- Python `s.upper()`. -/
def strUpper (s : String) : String := ⟨s.data.map Char.toUpper⟩

/-- Python `icd_code.split(".")[0]` (the characters before the first dot). -/
def icdStem (s : String) : String := ⟨s.data.takeWhile (fun c => c ≠ '.')⟩

/-! ### The resource record

One Lean structure stands for all FHIR resource dictionaries the source
builds.  Every data-bearing field of the source dictionaries is a field here;
parts whose value is a fixed function of these fields for the given resource
type (canonical/profile/system URLs, the narrative `text`, `request.method`,
fixed status/type/actual flags) are not modelled separately. -/

structure Resource where
  resourceType : String
  id : String
  identifierValue : Option String := none
  name : Option String := none
  aliasName : Option String := none
  country : Option String := none
  city : Option String := none
  contactFamily : Option String := none
  contactGiven : Option String := none
  subjectRef : Option String := none
  partOfRef : Option String := none
  managingEntityRef : Option String := none
  specimenRefs : List String := []
  performerRefs : List String := []
  memberRefs : List String := []
  capabilities : List String := []
  qualityStandard : Option String := none
  gender : Option String := none
  birthDate : Option String := none
  deceasedDateTime : Option String := none
  datasetTypes : List String := []
  icdCode : Option String := none
  icdDisplay : Option String := none
  sampleTypeCode : Option String := none
  sampleTypeDisplay : Option String := none
  bodySiteCode : Option String := none
  bodySiteDisplay : Option String := none
  collectedDateTime : Option String := none
  storageTempCode : Option String := none
  collectionIdentifier : Option String := none
  effectiveDateTime : Option String := none
  conclusion : Option String := none
  designCode : Option String := none
  accessCondition : Option String := none
  inclusionCriterion : Option String := none
  numSubjects : Option Nat := none
  ageHigh : Option Nat := none
  storageTempChars : List String := []
  materialTypeChars : List String := []
deriving DecidableEq, Inhabited

/-- One bundle entry: `{fullUrl, resource, request: {method: "PUT", url}}`. -/
structure Entry where
  fullUrl : String
  resource : Resource
  requestUrl : String
deriving DecidableEq, Inhabited

/-- Function `make_entry` of the source. -/
def make_entry (r : Resource) : Entry :=
  { fullUrl := r.resourceType ++ "/" ++ r.id
    resource := r
    requestUrl := r.resourceType ++ "/" ++ r.id }

/-- The outer container: `{resourceType: "Bundle", id, type: "transaction", entry}`. -/
structure Bundle where
  id : String
  entries : List Entry
deriving DecidableEq

/-! ### Resource builders (one per `build_*` function of the source).
Builders that draw from the random source take and return the stream
position; the draws appear in the order the Python expressions are
evaluated. -/

def build_juristic_person (jp_id name country city : String) : Resource :=
  { resourceType := "Organization", id := jp_id
    identifierValue := some ("bbmri-eric:ID:" ++ jp_id)
    name := some name, country := some country, city := some city }

def build_biobank (σ : Nat → Nat) (bb_id name country city jp_ref bbmri_id : String)
    (k : Nat) : Resource × Nat :=
  let (nCaps, k) := pyRandint σ 1 3 k
  let (caps, k) := pySample σ INFRASTRUCTURAL_CAPABILITIES nCaps k
  let (fam, k) := pyChoice σ LAST_NAMES "" k
  let (giv, k) := pyChoice σ (FIRST_NAMES_M ++ FIRST_NAMES_F) "" k
  let (qual, k) := pyChoice σ QUALITY_STANDARDS "" k
  ({ resourceType := "Organization", id := bb_id
     identifierValue := some ("bbmri-eric:ID:" ++ bbmri_id)
     name := some name, aliasName := some (strUpper bb_id)
     country := some country, city := some city
     contactFamily := some fam, contactGiven := some giv
     partOfRef := some jp_ref
     capabilities := caps, qualityStandard := some qual }, k)

def build_network_org (net_org_id name jp_ref : String) : Resource :=
  { resourceType := "Organization", id := net_org_id
    identifierValue := some ("bbmri-eric:ID:" ++ net_org_id)
    name := some name, partOfRef := some jp_ref }

def build_network (net_id net_org_ref : String) (biobank_refs : List String) : Resource :=
  { resourceType := "Group", id := net_id
    identifierValue := some ("bbmri-eric:ID:" ++ net_id)
    name := some "BBMRI-ERIC Network"
    managingEntityRef := some net_org_ref
    memberRefs := biobank_refs }

def build_collection_org (σ : Nat → Nat) (col_org_id name biobank_ref country : String)
    (k : Nat) : Resource × Nat :=
  let (design, k) := pyChoice σ COLLECTION_DESIGNS "" k
  let (fam, k) := pyChoice σ LAST_NAMES "" k
  let (giv, k) := pyChoice σ (FIRST_NAMES_M ++ FIRST_NAMES_F) "" k
  let (acc, k) := pyChoice σ USE_ACCESS_CONDITIONS "" k
  ({ resourceType := "Organization", id := col_org_id
     identifierValue := some ("bbmri-eric:ID:" ++ col_org_id)
     name := some name
     aliasName := some ⟨((strUpper col_org_id).data.take 10)⟩
     country := some country
     contactFamily := some fam, contactGiven := some giv
     partOfRef := some biobank_ref
     designCode := some design, accessCondition := some acc }, k)

def build_collection_group (σ : Nat → Nat) (col_id col_org_ref : String)
    (specimen_refs : List String) (num_subjects : Nat) (sample_type_codes : List String)
    (k : Nat) : Resource × Nat :=
  let (storage_temps, k) :=
    pySample σ ((STORAGE_TEMPERATURES.take 5).map (fun t => t.1))
      (min 2 STORAGE_TEMPERATURES.length) k
  let (mat_types, k) := pySample σ COLLECTION_SAMPLE_TYPES (min 2 sample_type_codes.length) k
  let (ageHi, k) := pyRandint σ 75 95 k
  let (incl, k) := pyChoice σ INCLUSION_CRITERIA "" k
  ({ resourceType := "Group", id := col_id
     identifierValue := some ("bbmri-eric:ID:" ++ col_id)
     managingEntityRef := some col_org_ref
     numSubjects := some num_subjects
     ageHigh := some ageHi
     inclusionCriterion := some incl
     storageTempChars := storage_temps
     materialTypeChars := mat_types
     memberRefs := specimen_refs.take 20 }, k)

def build_donor (σ : Nat → Nat) (donor_id gender birth_date : String)
    (deceased_date : Option String) (k : Nat) : Resource × Nat :=
  let (nDs, k) := pyRandint σ 1 3 k
  let (ds_types, k) := pySample σ DATASET_TYPES nDs k
  ({ resourceType := "Patient", id := donor_id
     identifierValue := some (strUpper donor_id)
     gender := some gender, birthDate := some birth_date
     deceasedDateTime := deceased_date
     datasetTypes := ds_types }, k)

def build_condition (cond_id donor_ref icd_code icd_display : String) : Resource :=
  { resourceType := "Condition", id := cond_id
    icdCode := some icd_code, icdDisplay := some icd_display
    subjectRef := some donor_ref }

def build_specimen (spec_id donor_ref sample_type_code sample_type_display body_site_code
    body_site_display collected_dt storage_temp_code collection_identifier : String) :
    Resource :=
  { resourceType := "Specimen", id := spec_id
    identifierValue := some (strUpper spec_id)
    sampleTypeCode := some sample_type_code, sampleTypeDisplay := some sample_type_display
    subjectRef := some donor_ref
    collectedDateTime := some collected_dt
    bodySiteCode := some body_site_code, bodySiteDisplay := some body_site_display
    storageTempCode := some storage_temp_code
    collectionIdentifier := some collection_identifier }

def build_diagnostic_report (dr_id donor_ref : String) (specimen_refs : List String)
    (icd_code icd_display effective_date conclusion_text : String) : Resource :=
  { resourceType := "DiagnosticReport", id := dr_id
    subjectRef := some donor_ref
    effectiveDateTime := some effective_date
    specimenRefs := specimen_refs
    conclusion := some conclusion_text
    icdCode := some icd_code, icdDisplay := some icd_display }

def build_observation (obs_id donor_ref specimen_ref biobank_ref icd_code icd_display
    effective_date : String) : Resource :=
  { resourceType := "Observation", id := obs_id
    subjectRef := some donor_ref
    specimenRefs := [specimen_ref]
    effectiveDateTime := some effective_date
    icdCode := some icd_code, icdDisplay := some icd_display
    performerRefs := [biobank_ref] }

/-! ### The generation pipeline (`generate_bundle` of the source)

Each `for` loop of `generate_bundle` is embedded as a per-iteration function
returning a record of what the iteration contributes, run through `mapState`.
The assembled stage values are exposed as top-level definitions so theorems
can speak about intermediate products (the specimen-to-collection assignment
in particular). -/

structure BioOut where
  jpEntry : Entry
  bbEntry : Entry
  jpId : String
  bbId : String
  bbRef : String
deriving DecidableEq, Inhabited

structure ColOut where
  colOrgEntry : Entry
  colOrgId : String
  colId : String
  colIdentifier : String
deriving DecidableEq, Inhabited

structure SpecOut where
  entry : Entry
  ref : String
  code : String
deriving DecidableEq, Inhabited

structure DonorOut where
  donorEntry : Entry
  condEntry : Entry
  specEntries : List Entry
  drEntry : Entry
  obsEntries : List Entry
  specRefs : List String
  colIdx : Nat
  sampleCodes : List String
deriving DecidableEq, Inhabited

/-- Lines 547–550 of the source: country assignment (sample without
replacement, cycled with replacement once exhausted, truncated to the
biobank count). -/
def genCountries (σ : Nat → Nat) (B k : Nat) : List String × Nat :=
  let (cs, k) := pySample σ COUNTRIES (min B COUNTRIES.length) k
  let cs2 := if cs.length < B then (List.replicate (B / cs.length + 1) cs).flatten else cs
  (cs2.take B, k)

/-- One iteration of the biobank loop (source lines 556–570). -/
def genBiobank (σ : Nat → Nat) (countries_used : List String) (i k : Nat) : BioOut × Nat :=
  let country := countries_used.getD i ""
  let (city, k) := pyChoice σ (dictGetCities country) "" k
  let jp_id := "juristic-person-" ++ country ++ "-" ++ padNum 3 (i + 1)
  let bb_id := "biobank-" ++ country ++ "-" ++ padNum 3 (i + 1)
  let bbmri_id := country ++ "_" ++ strUpper bb_id
  let (suffix, k) := pyChoice σ BIOBANK_SUFFIXES "" k
  let bb_name := city ++ " " ++ suffix
  let jp_name := city ++ " University"
  let (bbRes, k) := build_biobank σ bb_id bb_name country city ("Organization/" ++ jp_id) bbmri_id k
  ({ jpEntry := make_entry (build_juristic_person jp_id jp_name country city)
     bbEntry := make_entry bbRes
     jpId := jp_id, bbId := bb_id, bbRef := "Organization/" ++ bb_id }, k)

/-- One iteration of the collections loop (source lines 584–597).  The loop is
only reached with `num_biobanks ≥ 1` (otherwise `jp_ids[0]` already raised),
so `i % B` is well defined. -/
def genCollection (σ : Nat → Nat) (B : Nat) (bb_ids countries_used : List String)
    (i k : Nat) : ColOut × Nat :=
  let bb_idx := i % B
  let bb_id := bb_ids.getD bb_idx ""
  let country := countries_used.getD bb_idx ""
  let col_name := COLLECTION_NAMES.getD (i % COLLECTION_NAMES.length) ""
  let col_org_id := "col-org-" ++ padNum 3 (i + 1)
  let col_id := "collection-" ++ padNum 3 (i + 1)
  let col_identifier := "bbmri-eric:ID:" ++ bb_id ++ ":collection:" ++ col_id
  let (res, k) := build_collection_org σ col_org_id col_name ("Organization/" ++ bb_id) country k
  ({ colOrgEntry := make_entry res
     colOrgId := col_org_id, colId := col_id, colIdentifier := col_identifier }, k)

/-- One iteration of the specimens loop (source lines 631–646). -/
def genSpecimen (σ : Nat → Nat) (donor_id col_identifier bs_code bs_display : String)
    (d : Nat) (s k : Nat) : SpecOut × Nat :=
  let spec_id := "sample-" ++ padNum 6 (d + 1) ++ "-" ++ padNum 2 (s + 1)
  let (st, k) := pyChoice σ SAMPLE_TYPES ("", "") k
  let storage_code := dictGet SAMPLE_STORAGE_MAP st.1 "Other"
  let (collected, k) := random_datetime σ 2018 2025 k
  ({ entry := make_entry (build_specimen spec_id ("Patient/" ++ donor_id) st.1 st.2
       bs_code bs_display collected storage_code col_identifier)
     ref := "Specimen/" ++ spec_id
     code := st.1 }, k)

/-- One iteration of the donor loop (source lines 607–662). -/
def genDonor (σ : Nat → Nat) (C B : Nat) (col_identifiers bb_refs : List String)
    (d k : Nat) : DonorOut × Nat :=
  let donor_id := "donor-" ++ padNum 6 (d + 1)
  let (gender, k) := pyChoice σ ["male", "female"] "" k
  let (birth_date, k) := random_date σ 1935 2000 k
  let (deceased, k) := pyRandBool10 σ k
  let (deceased_date, k) :=
    if deceased then
      let (dd, k) := random_date σ 2020 2025 k
      (some dd, k)
    else (none, k)
  let (donorRes, k) := build_donor σ donor_id gender birth_date deceased_date k
  let (icd, k) := pyChoice σ ICD10_CODES ("", "") k
  let cond_id := "condition-" ++ padNum 6 (d + 1)
  let condRes := build_condition cond_id ("Patient/" ++ donor_id) icd.1 icd.2
  let bs_code := dictGet ICD10_BODYSITE (icdStem icd.1) "39607008"
  let bs_display := dictGet BODY_SITES bs_code "Unknown"
  let (num_specimens, k) := pyRandint σ 1 3 k
  let col_idx := d % C
  let (specOuts, k) := mapState
    (genSpecimen σ donor_id (col_identifiers.getD col_idx "") bs_code bs_display d)
    (List.range num_specimens) k
  let specRefs := specOuts.map (fun o => o.ref)
  let dr_id := "diagreport-" ++ padNum 6 (d + 1)
  let (effective_date, k) := random_date σ 2018 2025 k
  let conclusion := "Histopathological examination consistent with " ++ icd.2 ++
    " (" ++ icd.1 ++ ")."
  let drRes := build_diagnostic_report dr_id ("Patient/" ++ donor_id) specRefs icd.1 icd.2
    effective_date conclusion
  let obsEntries := specRefs.enum.map (fun p =>
    make_entry (build_observation ("obs-" ++ padNum 6 (d + 1) ++ "-" ++ padNum 2 (p.1 + 1))
      ("Patient/" ++ donor_id) p.2 (bb_refs.getD (d % B) "") icd.1 icd.2 effective_date))
  ({ donorEntry := make_entry donorRes
     condEntry := make_entry condRes
     specEntries := specOuts.map (fun o => o.entry)
     drEntry := make_entry drRes
     obsEntries := obsEntries
     specRefs := specRefs
     colIdx := col_idx
     sampleCodes := specOuts.map (fun o => o.code) }, k)

/-- Python `r.split(sep)` on character lists. -/
def splitOnChar (sep : Char) : List Char → List (List Char)
  | [] => [[]]
  | c :: rest =>
    let r := splitOnChar sep rest
    if c = sep then [] :: r
    else
      match r with
      | [] => [[c]]
      | h :: t => (c :: h) :: t

/-- Python `r.split("/")[1]` of source line 671. -/
def refResourceId (r : String) : String := ⟨(splitOnChar '/' r.data).getD 1 []⟩

/-- Source lines 668–672: number of distinct donors among the specimen
entries whose resource id occurs in `spec_refs`. -/
def numSubjCount (specimen_entries : List Entry) (spec_refs : List String) : Nat :=
  let ids := spec_refs.map refResourceId
  (((specimen_entries.filter (fun e => ids.contains e.resource.id)).map
      (fun e => e.resource.subjectRef)).dedup).length

/-- One iteration of the collection-group loop (source lines 666–675). -/
def genColGroup (σ : Nat → Nat) (colOuts : List ColOut) (colSpecMap : List (List String))
    (specimen_entries : List Entry) (allCodes : List String) (i k : Nat) : Entry × Nat :=
  let co := colOuts.getD i default
  let spec_refs := colSpecMap.getD i []
  let num_subj := numSubjCount specimen_entries spec_refs
  let (res, k) := build_collection_group σ co.colId ("Organization/" ++ co.colOrgId)
    spec_refs (max num_subj 1) allCodes k
  (make_entry res, k)

/-- Insertion into the `all_sample_type_codes` set (only its cardinality is
ever consumed). -/
def insertCode (acc : List String) (c : String) : List String :=
  if c ∈ acc then acc else acc ++ [c]

/-! ### Stage values of one generation run -/

def countriesUsedOf (σ : Nat → Nat) (B : Nat) : List String := (genCountries σ B 0).1

def kAfterCountries (σ : Nat → Nat) (B : Nat) : Nat := (genCountries σ B 0).2

def bioOutsOf (σ : Nat → Nat) (B : Nat) : List BioOut :=
  (mapState (genBiobank σ (countriesUsedOf σ B)) (List.range B) (kAfterCountries σ B)).1

def kAfterBios (σ : Nat → Nat) (B : Nat) : Nat :=
  (mapState (genBiobank σ (countriesUsedOf σ B)) (List.range B) (kAfterCountries σ B)).2

def jpIdsOf (σ : Nat → Nat) (B : Nat) : List String := (bioOutsOf σ B).map (fun o => o.jpId)

def bbIdsOf (σ : Nat → Nat) (B : Nat) : List String := (bioOutsOf σ B).map (fun o => o.bbId)

def bbRefsOf (σ : Nat → Nat) (B : Nat) : List String := (bioOutsOf σ B).map (fun o => o.bbRef)

def bioEntriesOf (σ : Nat → Nat) (B : Nat) : List Entry :=
  (bioOutsOf σ B).flatMap (fun o => [o.jpEntry, o.bbEntry])

def netOrgEntryOf (σ : Nat → Nat) (B : Nat) : Entry :=
  make_entry (build_network_org "network-org-001" "BBMRI-ERIC Network Organization"
    ("Organization/" ++ (jpIdsOf σ B).headD ""))

def netEntryOf (σ : Nat → Nat) (B : Nat) : Entry :=
  make_entry (build_network "network-001" "Organization/network-org-001" (bbRefsOf σ B))

def colOutsOf (σ : Nat → Nat) (B C : Nat) : List ColOut :=
  (mapState (genCollection σ B (bbIdsOf σ B) (countriesUsedOf σ B)) (List.range C)
    (kAfterBios σ B)).1

def kAfterCols (σ : Nat → Nat) (B C : Nat) : Nat :=
  (mapState (genCollection σ B (bbIdsOf σ B) (countriesUsedOf σ B)) (List.range C)
    (kAfterBios σ B)).2

def colIdentifiersOf (σ : Nat → Nat) (B C : Nat) : List String :=
  (colOutsOf σ B C).map (fun o => o.colIdentifier)

def colOrgEntriesOf (σ : Nat → Nat) (B C : Nat) : List Entry :=
  (colOutsOf σ B C).map (fun o => o.colOrgEntry)

def donorOutsOf (σ : Nat → Nat) (D B C : Nat) : List DonorOut :=
  (mapState (genDonor σ C B (colIdentifiersOf σ B C) (bbRefsOf σ B)) (List.range D)
    (kAfterCols σ B C)).1

def kAfterDonors (σ : Nat → Nat) (D B C : Nat) : Nat :=
  (mapState (genDonor σ C B (colIdentifiersOf σ B C) (bbRefsOf σ B)) (List.range D)
    (kAfterCols σ B C)).2

def specimenEntriesOf (σ : Nat → Nat) (D B C : Nat) : List Entry :=
  (donorOutsOf σ D B C).flatMap (fun o => o.specEntries)

def allCodesOf (σ : Nat → Nat) (D B C : Nat) : List String :=
  (donorOutsOf σ D B C).foldl (fun acc o => o.sampleCodes.foldl insertCode acc) []

/-- The `collection_specimen_map` of the source: the dict keyed by the
(pairwise distinct) collection ids, represented positionally. -/
def colSpecMapOf (σ : Nat → Nat) (D B C : Nat) : List (List String) :=
  (List.range C).map (fun i =>
    ((donorOutsOf σ D B C).filter (fun o => decide (o.colIdx = i))).flatMap
      (fun o => o.specRefs))

def colGroupEntriesOf (σ : Nat → Nat) (D B C : Nat) : List Entry :=
  (mapState (genColGroup σ (colOutsOf σ B C) (colSpecMapOf σ D B C)
    (specimenEntriesOf σ D B C) (allCodesOf σ D B C)) (List.range C)
    (kAfterDonors σ D B C)).1

/-- The entry list, concatenated in the section order of source
lines 678–683. -/
def entriesOk (σ : Nat → Nat) (D B C : Nat) : List Entry :=
  bioEntriesOf σ B ++ [netOrgEntryOf σ B, netEntryOf σ B] ++ colOrgEntriesOf σ B C
    ++ colGroupEntriesOf σ D B C ++ (donorOutsOf σ D B C).map (fun o => o.donorEntry)
    ++ (donorOutsOf σ D B C).map (fun o => o.condEntry) ++ specimenEntriesOf σ D B C
    ++ (donorOutsOf σ D B C).map (fun o => o.drEntry)
    ++ (donorOutsOf σ D B C).flatMap (fun o => o.obsEntries)

/-- The uncaught Python exceptions `generate_bundle` can raise. -/
inductive PyErr where
  | indexError
  | zeroDivisionError
deriving DecidableEq

/-- Body of `generate_bundle` up to the bundle wrapper.  `jp_ids[0]`
(source line 573) raises `IndexError` when `num_biobanks = 0`;
`d % num_collections` (source line 629) raises `ZeroDivisionError` at the
first donor iteration when `num_collections = 0` (random draws made before
an exception are discarded with it). -/
def genEntries (σ : Nat → Nat) (D B C : Nat) : Except PyErr (List Entry) :=
  match (jpIdsOf σ B).head? with
  | none => .error .indexError
  | some _ =>
    if D ≠ 0 ∧ C = 0 then .error .zeroDivisionError
    else .ok (entriesOk σ D B C)

/-- Function `generate_bundle(num_donors, num_biobanks, num_collections, seed)`
of the source.  `σ` is the seeded random stream, `u` the `uuid.uuid4()` value
drawn from OS entropy when the outer bundle dictionary is built. -/
def generate_bundle (σ : Nat → Nat) (u : String) (D B C : Nat) : Except PyErr Bundle :=
  (genEntries σ D B C).map (fun es => { id := u, entries := es })

/-! ### The batch-validation orchestrator (`validate-miabis.py`)

The external validator is opaque: what the script sees of it is the captured
console text, one string per input file.  The embedding covers the count
parser, the per-file classification, the batch summary / exit code, and the
input-collection stage of `main`. -/

/-- Case-insensitive character comparison (`re.IGNORECASE`). -/
def charLowerEq (a b : Char) : Bool := a.toLower == b.toLower

/-- Match a literal word case-insensitively at the head of `cs`, returning
the rest. -/
def matchWordCI : List Char → List Char → Option (List Char)
  | [], cs => some cs
  | _ :: _, [] => none
  | w :: ws, c :: cs => if charLowerEq w c then matchWordCI ws cs else none

/-- All matches of `re.findall(r"(\d+)\s+<word>", text, re.IGNORECASE)` in
scan order, as the numeric values of the captured digit groups.  `\d` and
`\s` are taken as ASCII digit / whitespace (the validator output is ASCII).
A failed attempt advances one position; a successful match resumes after its
end, exactly as `re.findall` does.  Fuel-based recursion (the fuel strictly
exceeds the text length, which every recursive call decreases). -/
def findAllAux (w : List Char) : Nat → List Char → List Nat
  | 0, _ => []
  | _ + 1, [] => []
  | fuel + 1, c :: rest =>
    if c.isDigit then
      let ds := (c :: rest).takeWhile Char.isDigit
      let afterD := (c :: rest).dropWhile Char.isDigit
      let ws := afterD.takeWhile Char.isWhitespace
      let afterW := afterD.dropWhile Char.isWhitespace
      if ws.isEmpty then findAllAux w fuel rest
      else
        match matchWordCI w afterW with
        | some rem => charsToNat ds :: findAllAux w fuel rem
        | none => findAllAux w fuel rest
    else findAllAux w fuel rest

def findAll (w cs : List Char) : List Nat := findAllAux w (cs.length + 1) cs

/-- Function `_parse_count(pattern, text)` of the source: the value of the
last match, `None` when there is no match. -/
def parse_count (word text : String) : Option Nat :=
  (findAll word.data text.data).getLast?

def fileErrors (output : String) : Option Nat := parse_count "error" output

def fileWarnings (output : String) : Option Nat := parse_count "warning" output

def fileNotes (output : String) : Option Nat := parse_count "note" output

inductive FileStatus where
  | pass
  | fail
  | checkLog
deriving DecidableEq

/-- Source lines 260–265: `PASS` on zero errors, `CHECK LOG` on an
unparseable count, `FAIL` otherwise (`None == 0` is false in Python). -/
def classifyCounts (errors : Option Nat) : FileStatus :=
  match errors with
  | some 0 => .pass
  | none => .checkLog
  | some (_ + 1) => .fail

def fileStatus (output : String) : FileStatus := classifyCounts (fileErrors output)

def batchStatuses (outputs : List String) : List FileStatus := outputs.map fileStatus

/-- Source line 273: `passed = sum(1 for r in results if r[4] == "PASS")`. -/
def batchPassedCount (outputs : List String) : Nat :=
  (batchStatuses outputs).countP (fun s => decide (s = .pass))

/-- Function `run_batch_validation`'s return value (source lines 274, 302):
`failed = total - passed`. -/
def run_batch_validation (outputs : List String) : Nat :=
  outputs.length - batchPassedCount outputs

/-- Source line 376: `sys.exit(1 if failed > 0 else 0)`. -/
def mainExitOfBatch (failed : Nat) : Nat := if failed > 0 then 1 else 0

/-- Abstraction of the `input` path argument as `main` observes it: a file
(with the `.suffix.lower() == ".json"` test outcome), a directory (with its
sorted `*.json` glob result), or a missing path. -/
inductive PathInfo where
  | file (name : String) (suffixIsJson : Bool)
  | dir (jsonFiles : List String)
  | missing
deriving DecidableEq

/-- Function `collect_input_files` of the source; `fail(...)` is
`sys.exit(1)`.  A file without `.json` suffix falls through the `is_dir`
test to the final `fail`. -/
def collect_input_files : PathInfo → Except Nat (List String)
  | .file n suffixIsJson => if suffixIsJson then .ok [n] else .error 1
  | .dir files => if files.isEmpty then .error 1 else .ok files
  | .missing => .error 1

/-- Observable actions of a `main` run: the setup stages (prerequisite
checks, SUSHI install, IG clone, SUSHI build, validator download) and the
per-file validator subprocess invocations. -/
inductive Event where
  | setupStage (name : String)
  | validatorRun (file : String)
deriving DecidableEq

structure MainResult where
  exitCode : Nat
  events : List Event
deriving DecidableEq

/-- Function `main` of the source, from input collection onward.  Setup
stages are modelled as succeeding (their own fatal-exit paths are not at
issue in the claims below); input collection happens first (source line 359,
"fail early if none found"), before any setup stage and before any
validator subprocess. -/
def mainRun (p : PathInfo) (skipSetup : Bool) (outputs : String → String) : MainResult :=
  match collect_input_files p with
  | .error c => { exitCode := c, events := [] }
  | .ok files =>
    let setupEvents : List Event := if skipSetup then [] else
      [.setupStage "prerequisites", .setupStage "sushi", .setupStage "ig",
       .setupStage "build", .setupStage "validator"]
    let failed := run_batch_validation (files.map outputs)
    { exitCode := mainExitOfBatch failed
      events := setupEvents ++ files.map (fun f => Event.validatorRun f) }

/-! ### Shared concrete inputs for witnesses and counterexamples -/

/-- A concrete random oracle (every raw draw 0), standing for one concrete
seeded run. -/
def cexStream : Nat → Nat := fun _ => 0

/-- The bundle of a successful run (defaulting on the error paths); used to
state closed witness properties. -/
def genBundleOk (σ : Nat → Nat) (u : String) (D B C : Nat) : Bundle :=
  (generate_bundle σ u D B C).toOption.getD { id := "", entries := [] }

/-! ### C1 — reproducibility of `generate_bundle` under a fixed seed -/

/-- C1 (amended): for a fixed random stream (seed) and fixed counts, the
entry list of `generate_bundle` is identical across runs — the run-to-run
entropy `u` influences nothing but the outer bundle id, which is set to the
freshly drawn uuid of the run. -/
theorem generate_bundle_entries_deterministic (σ : Nat → Nat) (u₁ u₂ : String)
    (D B C : Nat) :
    (generate_bundle σ u₁ D B C).map Bundle.entries =
      (generate_bundle σ u₂ D B C).map Bundle.entries ∧
    ∀ b : Bundle, generate_bundle σ u₁ D B C = Except.ok b → b.id = u₁ := by
  constructor
  · unfold generate_bundle
    cases genEntries σ D B C <;> rfl
  · intro b hb
    unfold generate_bundle at hb
    cases h : genEntries σ D B C with
    | error e => rw [h] at hb; cases hb
    | ok es =>
      rw [h] at hb
      cases hb
      rfl

/-- C1 witness: a concrete instantiation of the determinism theorem. -/
theorem generate_bundle_entries_deterministic_witness :
    (generate_bundle cexStream "9f1c" 1 1 1).map Bundle.entries =
      (generate_bundle cexStream "77ab" 1 1 1).map Bundle.entries ∧
    (genBundleOk cexStream "9f1c" 1 1 1).id = "9f1c" :=
  ⟨(generate_bundle_entries_deterministic cexStream "9f1c" "77ab" 1 1 1).1,
   (generate_bundle_entries_deterministic cexStream "9f1c" "77ab" 1 1 1).2 _ (by rfl)⟩

/-- C1 counterexample: the claim as stated (byte-identical output including
the outer bundle id) fails — two runs with the same seed and counts but
independent uuid entropy yield bundles whose id fields differ, so the
serialized outputs are not byte-identical. -/
theorem generate_bundle_same_seed_cex :
    (generate_bundle cexStream "9f1c" 1 1 1).isOk = true ∧
    (generate_bundle cexStream "77ab" 1 1 1).isOk = true ∧
    (genBundleOk cexStream "9f1c" 1 1 1).id ≠ (genBundleOk cexStream "77ab" 1 1 1).id := by
  refine ⟨rfl, rfl, ?_⟩
  intro h
  rw [show (genBundleOk cexStream "9f1c" 1 1 1).id = "9f1c" from rfl,
    show (genBundleOk cexStream "77ab" 1 1 1).id = "77ab" from rfl] at h
  exact absurd h (by decide)

/-! ### C9 — behaviour on zero counts -/

/-- C9 (amended): `generate_bundle` validates none of its count arguments.
With `num_biobanks = 0` it raises `IndexError` (at `jp_ids[0]`), not a
division/modulo-by-zero error; with `num_collections = 0` and at least one
donor (and at least one biobank, so that the earlier index error does not
pre-empt it) it raises `ZeroDivisionError` at `d % num_collections`. -/
theorem generate_bundle_invalid_counts (σ : Nat → Nat) (u : String) (D B C : Nat) :
    generate_bundle σ u D 0 C = .error .indexError ∧
    (1 ≤ D → 1 ≤ B → generate_bundle σ u D B 0 = .error .zeroDivisionError) := by
  constructor
  · rfl
  · intro hD hB
    have hlen : (jpIdsOf σ B).length = B := by
      unfold jpIdsOf bioOutsOf
      rw [List.length_map, mapState_length, List.length_range]
    have hgen : genEntries σ D B 0 = .error .zeroDivisionError := by
      cases hJ : jpIdsOf σ B with
      | nil => rw [hJ] at hlen; simp at hlen; omega
      | cons a t =>
        unfold genEntries
        rw [hJ]
        exact if_pos ⟨by omega, rfl⟩
    unfold generate_bundle
    rw [hgen]
    rfl

/-- C9 witness: concrete instantiation of the modulo-by-zero branch. -/
theorem generate_bundle_invalid_counts_witness :
    generate_bundle cexStream "u" 1 1 0 = .error .zeroDivisionError :=
  (generate_bundle_invalid_counts cexStream "u" 1 1 5).2 (by decide) (by decide)

/-- C9 counterexample: the claim as stated says `biobank_count = 0` raises a
division/modulo-by-zero error; the code instead raises `IndexError`
(`jp_ids[0]` on the empty juristic-person list, reached before any modulo). -/
theorem generate_bundle_biobank_zero_cex :
    generate_bundle cexStream "u" 1 0 1 = .error .indexError ∧
    generate_bundle cexStream "u" 1 0 1 ≠ .error .zeroDivisionError := by
  refine ⟨rfl, ?_⟩
  intro h
  rw [show generate_bundle cexStream "u" 1 0 1 = .error .indexError from rfl] at h
  cases h

/-! ### C8 — a directory with no `.json` files aborts before any work -/

/-- C8: for a directory containing zero `.json` files, `main` exits with
code 1 during input collection; the event trace is empty — no setup stage
runs and no validator subprocess is invoked. -/
theorem empty_dir_fatal_before_any_stage (skip : Bool) (outputs : String → String) :
    (mainRun (.dir []) skip outputs).exitCode = 1 ∧
    (mainRun (.dir []) skip outputs).events = [] ∧
    collect_input_files (.dir []) = .error 1 :=
  ⟨rfl, rfl, rfl⟩

/-! ### C2 — exit code of the batch run -/

def startsWithCI (w cs : List Char) : Bool := (matchWordCI w cs).isSome

/-- Case-insensitive substring occurrence. -/
def substrCI (w : List Char) : List Char → Bool
  | [] => startsWithCI w []
  | c :: rest => startsWithCI w (c :: rest) || substrCI w rest

theorem suffix_dropWhile (p : Char → Bool) (l : List Char) : l.dropWhile p <:+ l := by
  induction l with
  | nil => exact List.suffix_rfl
  | cons c rest ih =>
    by_cases h : p c
    · simp only [List.dropWhile_cons, h, if_pos]
      exact ih.trans (List.suffix_cons c rest)
    · simp only [List.dropWhile_cons, h]
      exact List.suffix_rfl

theorem substrCI_suffix_true {w t : List Char} :
    ∀ {cs : List Char}, t <:+ cs → startsWithCI w t = true → substrCI w cs = true := by
  intro cs
  induction cs with
  | nil =>
    intro hsuf hs
    rw [List.suffix_nil.1 hsuf] at hs
    simpa [substrCI] using hs
  | cons c rest ih =>
    intro hsuf hs
    rcases List.suffix_cons_iff.1 hsuf with h | h
    · rw [h] at hs
      simp [substrCI, hs]
    · simp [substrCI, ih h hs]

theorem findAllAux_eq_nil_of_no_substr {w : List Char} :
    ∀ (fuel : Nat) (cs : List Char), substrCI w cs = false → findAllAux w fuel cs = [] := by
  intro fuel
  induction fuel with
  | zero => intro cs _; rfl
  | succ fuel ih =>
    intro cs h
    cases cs with
    | nil => rfl
    | cons c rest =>
      have h2 : startsWithCI w (c :: rest) = false ∧ substrCI w rest = false := by
        simpa [substrCI, Bool.or_eq_false_iff] using h
      show findAllAux w (fuel + 1) (c :: rest) = []
      unfold findAllAux
      by_cases hd : c.isDigit
      · simp only [if_pos hd]
        by_cases hws : (((c :: rest).dropWhile Char.isDigit).takeWhile Char.isWhitespace).isEmpty
        · simp only [if_pos hws]
          exact ih rest h2.2
        · simp only [if_neg hws]
          cases hm : matchWordCI w (((c :: rest).dropWhile Char.isDigit).dropWhile Char.isWhitespace) with
          | none => exact ih rest h2.2
          | some rem =>
            exfalso
            have hsuf : ((c :: rest).dropWhile Char.isDigit).dropWhile Char.isWhitespace <:+ c :: rest :=
              (suffix_dropWhile Char.isWhitespace _).trans (suffix_dropWhile Char.isDigit _)
            have hs : startsWithCI w (((c :: rest).dropWhile Char.isDigit).dropWhile Char.isWhitespace) = true := by
              unfold startsWithCI
              rw [hm]
              rfl
            have := substrCI_suffix_true hsuf hs
            rw [h] at this
            cases this
      · simp only [if_neg hd]
        exact ih rest h2.2

theorem parse_count_none_of_no_substr (w text : String)
    (h : substrCI w.data text.data = false) : parse_count w text = none := by
  unfold parse_count findAll
  rw [findAllAux_eq_nil_of_no_substr _ _ h]
  rfl

/-- Helper: `failed = total - passed` is nonzero exactly when some file is
not classified PASS. -/
theorem batch_not_all_pass_iff (outs : List String) :
    run_batch_validation outs ≠ 0 ↔ ∃ s ∈ batchStatuses outs, s ≠ FileStatus.pass := by
  unfold run_batch_validation batchPassedCount
  have hlen : (batchStatuses outs).length = outs.length := by
    unfold batchStatuses
    exact List.length_map _ _
  have hle : (batchStatuses outs).countP (fun s => decide (s = FileStatus.pass)) ≤
      (batchStatuses outs).length := List.countP_le_length _
  constructor
  · intro h
    by_contra hall
    push_neg at hall
    have hcount : (batchStatuses outs).countP (fun s => decide (s = FileStatus.pass)) =
        (batchStatuses outs).length :=
      List.countP_eq_length.2 (fun s hs => by simpa using hall s hs)
    omega
  · rintro ⟨s, hs, hne⟩ h
    have hcount : (batchStatuses outs).countP (fun s => decide (s = FileStatus.pass)) =
        (batchStatuses outs).length := by omega
    have := List.countP_eq_length.1 hcount s hs
    simp only [decide_eq_true_eq] at this
    exact hne this

/-- C2 (amended): the process exit status is non-zero if and only if at
least one file is classified other than PASS — i.e. FAIL **or** CHECK-LOG
(`failed = total - passed` counts CHECK-LOG files too). -/
theorem main_exit_nonzero_iff_not_all_pass (p : PathInfo) (skip : Bool)
    (outputs : String → String) (files : List String)
    (hc : collect_input_files p = .ok files) :
    ((mainRun p skip outputs).exitCode ≠ 0 ↔
      ∃ f ∈ files, fileStatus (outputs f) ≠ FileStatus.pass) := by
  have h1 : (mainRun p skip outputs).exitCode =
      mainExitOfBatch (run_batch_validation (files.map outputs)) := by
    unfold mainRun
    rw [hc]
  rw [h1]
  have h2 : mainExitOfBatch (run_batch_validation (files.map outputs)) ≠ 0 ↔
      run_batch_validation (files.map outputs) ≠ 0 := by
    unfold mainExitOfBatch
    split <;> omega
  rw [h2, batch_not_all_pass_iff]
  unfold batchStatuses
  constructor
  · rintro ⟨s, hs, hne⟩
    rw [List.map_map] at hs
    obtain ⟨f, hf, rfl⟩ := List.mem_map.1 hs
    exact ⟨f, hf, hne⟩
  · rintro ⟨f, hf, hne⟩
    refine ⟨fileStatus (outputs f), ?_, hne⟩
    rw [List.map_map]
    exact List.mem_map.2 ⟨f, hf, rfl⟩

/-- C2 witness: concrete instantiation (one file whose captured output has
no parseable error count). -/
theorem main_exit_nonzero_iff_not_all_pass_witness :
    ((mainRun (.dir ["bundle.json"]) true (fun _ => "Exception during run")).exitCode ≠ 0 ↔
      ∃ f ∈ ["bundle.json"],
        fileStatus ((fun _ => "Exception during run") f) ≠ FileStatus.pass) :=
  main_exit_nonzero_iff_not_all_pass (.dir ["bundle.json"]) true
    (fun _ => "Exception during run") ["bundle.json"] (by rfl)

/-- C2 counterexample: the claim as stated (non-zero exit iff some file is
classified FAIL) is false — a batch whose single file is CHECK-LOG (no
parseable count) exits 1 although no file is FAIL. -/
theorem main_exit_claim_cex :
    ¬ (((mainRun (.dir ["bundle.json"]) true (fun _ => "Exception during run")).exitCode ≠ 0) ↔
        ∃ f ∈ ["bundle.json"],
          fileStatus ((fun _ => "Exception during run") f) = FileStatus.fail) := by
  decide

/-! ### C7 — count extraction from the captured validator output -/

/-- C7: each count is the value of the **last** match of its pattern
(`"1 error … 12 errors"` parses as 12); an output containing `"3 errors"`
and `"0 warnings"` is classified FAIL with counts errors = 3, warnings = 0;
absence of any match yields `None` (not zero), and in particular an output
with no "error" substring at all is classified CHECK-LOG with unknown
error count. -/
theorem parse_count_spec :
    (fileErrors "Validation complete: 3 errors, 0 warnings" = some 3 ∧
     fileWarnings "Validation complete: 3 errors, 0 warnings" = some 0 ∧
     fileStatus "Validation complete: 3 errors, 0 warnings" = .fail) ∧
    parse_count "error" "1 error found at first, 12 errors in total" = some 12 ∧
    (∀ text : String, substrCI "error".data text.data = false →
      fileErrors text = none ∧ fileStatus text = .checkLog) ∧
    (fileErrors "Exception in validator run" = none ∧
     fileStatus "Exception in validator run" = .checkLog) := by
  refine ⟨⟨by decide, by decide, by decide⟩, by decide, ?_, by decide, by decide⟩
  intro text h
  have hnone : fileErrors text = none := parse_count_none_of_no_substr _ _ h
  refine ⟨hnone, ?_⟩
  unfold fileStatus
  rw [hnone]
  rfl

/-- C7 witness: the no-match clause applied at a concrete output. -/
theorem parse_count_spec_witness :
    fileErrors "Exception in validator run" = none ∧
    fileStatus "Exception in validator run" = FileStatus.checkLog :=
  parse_count_spec.2.2.1 "Exception in validator run" (by decide)

/-! ### Structural lemmas about one generation run -/

theorem strCat_left_cancel {p s t : String} (h : p ++ s = p ++ t) : s = t := by
  have h2 := congrArg String.data h
  rw [String.data_append, String.data_append] at h2
  exact String.ext (List.append_cancel_left h2)

theorem id_pad_inj {p : String} {w a b : Nat}
    (h : p ++ padNum w a = p ++ padNum w b) : a = b :=
  padNum_inj (strCat_left_cancel h)

/-- Injectivity of the two-index ids `f"{stem}{d:06d}-{s:02d}"` (sample and
observation ids): the separator `'-'` occurs in neither padded numeral. -/
theorem two_index_id_inj {stem : String} {a b x y : Nat}
    (h : stem ++ padNum 6 a ++ "-" ++ padNum 2 x = stem ++ padNum 6 b ++ "-" ++ padNum 2 y) :
    a = b ∧ x = y := by
  have h2 := congrArg String.data h
  simp only [String.data_append] at h2
  rw [List.append_assoc, List.append_assoc, List.append_assoc, List.append_assoc] at h2
  have h3 := List.append_cancel_left h2
  simp only [List.singleton_append] at h3
  have h4 := append_sep_inj
    (fun c hc => ne_of_isDigit (isDigit_padNum 6 a c hc) (by decide))
    (fun c hc => ne_of_isDigit (isDigit_padNum 6 b c hc) (by decide)) h3
  exact ⟨padNum_inj (String.ext h4.1), padNum_inj (String.ext h4.2)⟩

theorem mem_bioOutsOf {σ : Nat → Nat} {B : Nat} {o : BioOut} (ho : o ∈ bioOutsOf σ B) :
    ∃ i, i < B ∧ ∃ k, o = (genBiobank σ (countriesUsedOf σ B) i k).1 := by
  obtain ⟨a, ha, kk, hk⟩ := mapState_mem ho
  exact ⟨a, List.mem_range.1 ha, kk, hk⟩

theorem mem_colOutsOf {σ : Nat → Nat} {B C : Nat} {o : ColOut} (ho : o ∈ colOutsOf σ B C) :
    ∃ i, i < C ∧ ∃ k,
      o = (genCollection σ B (bbIdsOf σ B) (countriesUsedOf σ B) i k).1 := by
  obtain ⟨a, ha, kk, hk⟩ := mapState_mem ho
  exact ⟨a, List.mem_range.1 ha, kk, hk⟩

theorem mem_donorOutsOf {σ : Nat → Nat} {D B C : Nat} {o : DonorOut}
    (ho : o ∈ donorOutsOf σ D B C) :
    ∃ d, d < D ∧ ∃ k,
      o = (genDonor σ C B (colIdentifiersOf σ B C) (bbRefsOf σ B) d k).1 := by
  obtain ⟨a, ha, kk, hk⟩ := mapState_mem ho
  exact ⟨a, List.mem_range.1 ha, kk, hk⟩

theorem mem_colGroupEntriesOf {σ : Nat → Nat} {D B C : Nat} {e : Entry}
    (he : e ∈ colGroupEntriesOf σ D B C) :
    ∃ i, i < C ∧ ∃ k,
      e = (genColGroup σ (colOutsOf σ B C) (colSpecMapOf σ D B C)
        (specimenEntriesOf σ D B C) (allCodesOf σ D B C) i k).1 := by
  obtain ⟨a, ha, kk, hk⟩ := mapState_mem he
  exact ⟨a, List.mem_range.1 ha, kk, hk⟩

/-- Shape of one donor block: the specimen outputs are a `mapState` run of
`genSpecimen` over `range ns` with `1 ≤ ns ≤ 3` (the `randint(1, 3)` draw),
and the observation entries enumerate the specimen references. -/
theorem genDonor_shape (σ : Nat → Nat) (C B : Nat) (cids brefs : List String) (d k : Nat) :
    ∃ (bs bsd ic1 ic2 eff : String) (ns kk : Nat),
      1 ≤ ns ∧ ns ≤ 3 ∧
      ((genDonor σ C B cids brefs d k).1).specEntries =
        ((mapState (genSpecimen σ ("donor-" ++ padNum 6 (d + 1))
          (cids.getD (d % C) "") bs bsd d) (List.range ns) kk).1).map (fun s => s.entry) ∧
      ((genDonor σ C B cids brefs d k).1).specRefs =
        ((mapState (genSpecimen σ ("donor-" ++ padNum 6 (d + 1))
          (cids.getD (d % C) "") bs bsd d) (List.range ns) kk).1).map (fun s => s.ref) ∧
      ((genDonor σ C B cids brefs d k).1).obsEntries =
        ((genDonor σ C B cids brefs d k).1).specRefs.enum.map (fun p =>
          make_entry (build_observation
            ("obs-" ++ padNum 6 (d + 1) ++ "-" ++ padNum 2 (p.1 + 1))
            ("Patient/" ++ ("donor-" ++ padNum 6 (d + 1))) p.2
            (brefs.getD (d % B) "") ic1 ic2 eff)) := by
  refine ⟨_, _, _, _, _, _, _, ?_, ?_, rfl, rfl, rfl⟩
  · omega
  · simp only [pyRandint]
    omega

theorem genEntries_ok {σ : Nat → Nat} {D B C : Nat} {es : List Entry}
    (h : genEntries σ D B C = .ok es) : es = entriesOk σ D B C := by
  unfold genEntries at h
  cases hJ : (jpIdsOf σ B).head? with
  | none => rw [hJ] at h; cases h
  | some j =>
    rw [hJ] at h
    by_cases hc : D ≠ 0 ∧ C = 0
    · rw [if_pos hc] at h; cases h
    · rw [if_neg hc] at h; exact (Except.ok.inj h).symm

theorem bundle_ok_entries {σ : Nat → Nat} {u : String} {D B C : Nat} {b : Bundle}
    (hb : generate_bundle σ u D B C = .ok b) :
    b.entries = entriesOk σ D B C ∧ b.id = u := by
  unfold generate_bundle at hb
  cases h : genEntries σ D B C with
  | error e => rw [h] at hb; cases hb
  | ok es =>
    rw [h] at hb
    cases hb
    exact ⟨genEntries_ok h, rfl⟩

theorem rt_bioEntries {σ : Nat → Nat} {B : Nat} {e : Entry} (he : e ∈ bioEntriesOf σ B) :
    e.resource.resourceType = "Organization" := by
  unfold bioEntriesOf at he
  obtain ⟨o, ho, he2⟩ := List.mem_flatMap.1 he
  obtain ⟨i, hi, kk, rfl⟩ := mem_bioOutsOf ho
  rcases List.mem_cons.1 he2 with h | h
  · rw [h]; rfl
  · rw [show e = ((genBiobank σ (countriesUsedOf σ B) i kk).1).bbEntry by simpa using h]; rfl

theorem rt_colOrgEntries {σ : Nat → Nat} {B C : Nat} {e : Entry}
    (he : e ∈ colOrgEntriesOf σ B C) : e.resource.resourceType = "Organization" := by
  unfold colOrgEntriesOf at he
  obtain ⟨o, ho, rfl⟩ := List.mem_map.1 he
  obtain ⟨i, hi, kk, rfl⟩ := mem_colOutsOf ho
  rfl

theorem rt_colGroupEntries {σ : Nat → Nat} {D B C : Nat} {e : Entry}
    (he : e ∈ colGroupEntriesOf σ D B C) : e.resource.resourceType = "Group" := by
  obtain ⟨i, hi, kk, rfl⟩ := mem_colGroupEntriesOf he
  rfl

theorem rt_donorSection {σ : Nat → Nat} {D B C : Nat} {e : Entry}
    (he : e ∈ (donorOutsOf σ D B C).map (fun o => o.donorEntry)) :
    e.resource.resourceType = "Patient" := by
  obtain ⟨o, ho, rfl⟩ := List.mem_map.1 he
  obtain ⟨d, hd, kk, rfl⟩ := mem_donorOutsOf ho
  rfl

theorem rt_condSection {σ : Nat → Nat} {D B C : Nat} {e : Entry}
    (he : e ∈ (donorOutsOf σ D B C).map (fun o => o.condEntry)) :
    e.resource.resourceType = "Condition" := by
  obtain ⟨o, ho, rfl⟩ := List.mem_map.1 he
  obtain ⟨d, hd, kk, rfl⟩ := mem_donorOutsOf ho
  rfl

theorem rt_drSection {σ : Nat → Nat} {D B C : Nat} {e : Entry}
    (he : e ∈ (donorOutsOf σ D B C).map (fun o => o.drEntry)) :
    e.resource.resourceType = "DiagnosticReport" := by
  obtain ⟨o, ho, rfl⟩ := List.mem_map.1 he
  obtain ⟨d, hd, kk, rfl⟩ := mem_donorOutsOf ho
  rfl

/-- Membership in one donor block's specimen entries, in `genSpecimen` form. -/
theorem mem_specEntries_shape {σ : Nat → Nat} {C B : Nat} {cids brefs : List String}
    {d k : Nat} {e : Entry} (he : e ∈ ((genDonor σ C B cids brefs d k).1).specEntries) :
    ∃ bs bsd : String, ∃ s k' : Nat,
      e = ((genSpecimen σ ("donor-" ++ padNum 6 (d + 1)) (cids.getD (d % C) "")
        bs bsd d s k').1).entry := by
  obtain ⟨bs, bsd, ic1, ic2, eff, ns, kk, h1, h3, hs, hr, ho⟩ :=
    genDonor_shape σ C B cids brefs d k
  rw [hs] at he
  obtain ⟨so, hso, rfl⟩ := List.mem_map.1 he
  obtain ⟨a, ha, k', rfl⟩ := mapState_mem hso
  exact ⟨bs, bsd, a, k', rfl⟩

theorem rt_specSection {σ : Nat → Nat} {D B C : Nat} {e : Entry}
    (he : e ∈ specimenEntriesOf σ D B C) : e.resource.resourceType = "Specimen" := by
  unfold specimenEntriesOf at he
  obtain ⟨o, ho, he2⟩ := List.mem_flatMap.1 he
  obtain ⟨d, hd, kk, rfl⟩ := mem_donorOutsOf ho
  obtain ⟨bs, bsd, s, k', rfl⟩ := mem_specEntries_shape he2
  rfl

/-- Membership in one donor block's observation entries, in builder form. -/
theorem mem_obsEntries_shape {σ : Nat → Nat} {C B : Nat} {cids brefs : List String}
    {d k : Nat} {e : Entry} (he : e ∈ ((genDonor σ C B cids brefs d k).1).obsEntries) :
    ∃ ic1 ic2 eff : String, ∃ p : Nat × String,
      p ∈ ((genDonor σ C B cids brefs d k).1).specRefs.enum ∧
      e = make_entry (build_observation
        ("obs-" ++ padNum 6 (d + 1) ++ "-" ++ padNum 2 (p.1 + 1))
        ("Patient/" ++ ("donor-" ++ padNum 6 (d + 1))) p.2
        (brefs.getD (d % B) "") ic1 ic2 eff) := by
  obtain ⟨bs, bsd, ic1, ic2, eff, ns, kk, h1, h3, hs, hr, ho⟩ :=
    genDonor_shape σ C B cids brefs d k
  rw [ho] at he
  obtain ⟨p, hp, rfl⟩ := List.mem_map.1 he
  exact ⟨ic1, ic2, eff, p, hp, rfl⟩

theorem rt_obsSection {σ : Nat → Nat} {D B C : Nat} {e : Entry}
    (he : e ∈ (donorOutsOf σ D B C).flatMap (fun o => o.obsEntries)) :
    e.resource.resourceType = "Observation" := by
  obtain ⟨o, ho, he2⟩ := List.mem_flatMap.1 he
  obtain ⟨d, hd, kk, rfl⟩ := mem_donorOutsOf ho
  obtain ⟨ic1, ic2, eff, p, hp, rfl⟩ := mem_obsEntries_shape he2
  rfl

/-- Case split over the nine sections of the assembled entry list. -/
theorem mem_entriesOk_cases {σ : Nat → Nat} {D B C : Nat} {e : Entry}
    (he : e ∈ entriesOk σ D B C) :
    e ∈ bioEntriesOf σ B ∨ (e = netOrgEntryOf σ B ∨ e = netEntryOf σ B) ∨
    e ∈ colOrgEntriesOf σ B C ∨ e ∈ colGroupEntriesOf σ D B C ∨
    e ∈ (donorOutsOf σ D B C).map (fun o => o.donorEntry) ∨
    e ∈ (donorOutsOf σ D B C).map (fun o => o.condEntry) ∨
    e ∈ specimenEntriesOf σ D B C ∨
    e ∈ (donorOutsOf σ D B C).map (fun o => o.drEntry) ∨
    e ∈ (donorOutsOf σ D B C).flatMap (fun o => o.obsEntries) := by
  unfold entriesOk at he
  simp only [List.mem_append, List.mem_cons, List.not_mem_nil, or_false] at he
  tauto

/-! ### C6 — storage temperature is the fixed lookup of the sample type -/

/-- C6: in every successfully generated bundle, the storage-temperature code
recorded on a Specimen equals the `SAMPLE_STORAGE_MAP` lookup of that
specimen's sample-type code (with the dict-default "Other"); it is a
function of the sample type, never an independent draw — the theorem holds
for every random stream. -/
theorem specimen_storage_lookup (σ : Nat → Nat) (u : String) (D B C : Nat)
    (hD : 1 ≤ D) (hB : 1 ≤ B) (hC : 1 ≤ C) (b : Bundle)
    (hb : generate_bundle σ u D B C = .ok b) :
    ∀ e ∈ b.entries, e.resource.resourceType = "Specimen" →
      ∀ tc, e.resource.sampleTypeCode = some tc →
        e.resource.storageTempCode = some (dictGet SAMPLE_STORAGE_MAP tc "Other") := by
  intro e he hrt tc htc
  rw [(bundle_ok_entries hb).1] at he
  rcases mem_entriesOk_cases he with h | ⟨h | h⟩ | h | h | h | h | h | h | h
  · exact absurd ((rt_bioEntries h).symm.trans hrt) (by decide)
  · rw [h] at hrt
    exact absurd ((show (netOrgEntryOf σ B).resource.resourceType = "Organization"
      from rfl).symm.trans hrt) (by decide)
  · rw [h] at hrt
    exact absurd ((show (netEntryOf σ B).resource.resourceType = "Group"
      from rfl).symm.trans hrt) (by decide)
  · exact absurd ((rt_colOrgEntries h).symm.trans hrt) (by decide)
  · exact absurd ((rt_colGroupEntries h).symm.trans hrt) (by decide)
  · exact absurd ((rt_donorSection h).symm.trans hrt) (by decide)
  · exact absurd ((rt_condSection h).symm.trans hrt) (by decide)
  · unfold specimenEntriesOf at h
    obtain ⟨o, ho, he2⟩ := List.mem_flatMap.1 h
    obtain ⟨d, hd, kk, rfl⟩ := mem_donorOutsOf ho
    obtain ⟨bs, bsd, s, k', rfl⟩ := mem_specEntries_shape he2
    have hcode := Option.some.inj htc
    rw [← hcode]
    rfl
  · exact absurd ((rt_drSection h).symm.trans hrt) (by decide)
  · exact absurd ((rt_obsSection h).symm.trans hrt) (by decide)

/-- C6 witness: the single specimen of a concrete run (entry index 8) has
sample type TissueFreshFrozen and storage code `SAMPLE_STORAGE_MAP`'s value
for it. -/
theorem specimen_storage_lookup_witness :
    ((genBundleOk cexStream "u" 1 1 1).entries.getD 8 default).resource.storageTempCode =
      some (dictGet SAMPLE_STORAGE_MAP "TissueFreshFrozen" "Other") :=
  specimen_storage_lookup cexStream "u" 1 1 1 (by decide) (by decide) (by decide)
    (genBundleOk cexStream "u" 1 1 1) (by rfl)
    ((genBundleOk cexStream "u" 1 1 1).entries.getD 8 default) (by decide)
    (by rfl) "TissueFreshFrozen" (by rfl)

/-! ### C10 — entry counts of the bundle -/

theorem filter_rt_of_ne {l : List Entry} {v rt : String}
    (hall : ∀ e ∈ l, e.resource.resourceType = v) (hne : ¬ v = rt) :
    l.filter (fun e => decide (e.resource.resourceType = rt)) = [] := by
  rw [List.filter_eq_nil_iff]
  intro e he
  simp only [hall e he, decide_eq_true_eq]
  exact hne

theorem filter_rt_of_all {l : List Entry} {rt : String}
    (hall : ∀ e ∈ l, e.resource.resourceType = rt) :
    l.filter (fun e => decide (e.resource.resourceType = rt)) = l :=
  List.filter_eq_self.2 (fun e he => by simp [hall e he])

theorem filter_pair_netOrg (σ : Nat → Nat) (B : Nat) (rt : String) :
    ([netOrgEntryOf σ B, netEntryOf σ B].filter
      (fun e => decide (e.resource.resourceType = rt))) =
    (if ("Organization" : String) = rt then [netOrgEntryOf σ B] else []) ++
    (if ("Group" : String) = rt then [netEntryOf σ B] else []) := by
  simp only [List.filter_cons, List.filter_nil,
    show (netOrgEntryOf σ B).resource.resourceType = "Organization" from rfl,
    show (netEntryOf σ B).resource.resourceType = "Group" from rfl]
  by_cases h1 : ("Organization" : String) = rt <;> by_cases h2 : ("Group" : String) = rt <;>
    simp [h1, h2]

theorem length_flatMap_pairs (l : List BioOut) :
    (l.flatMap (fun o => ([o.jpEntry, o.bbEntry] : List Entry))).length = 2 * l.length := by
  induction l with
  | nil => rfl
  | cons o os ih =>
    simp only [List.flatMap_cons, List.length_append, List.length_cons, List.length_nil,
      List.length_cons, ih]
    omega

theorem length_bioEntriesOf (σ : Nat → Nat) (B : Nat) :
    (bioEntriesOf σ B).length = 2 * B := by
  unfold bioEntriesOf
  rw [length_flatMap_pairs]
  have : (bioOutsOf σ B).length = B := by
    unfold bioOutsOf
    rw [mapState_length, List.length_range]
  rw [this]

theorem length_donorOutsOf (σ : Nat → Nat) (D B C : Nat) :
    (donorOutsOf σ D B C).length = D := by
  unfold donorOutsOf
  rw [mapState_length, List.length_range]

theorem length_colOrgEntriesOf (σ : Nat → Nat) (B C : Nat) :
    (colOrgEntriesOf σ B C).length = C := by
  unfold colOrgEntriesOf colOutsOf
  rw [List.length_map, mapState_length, List.length_range]

theorem length_colGroupEntriesOf (σ : Nat → Nat) (D B C : Nat) :
    (colGroupEntriesOf σ D B C).length = C := by
  unfold colGroupEntriesOf
  rw [mapState_length, List.length_range]

/-- Per-donor block lengths: 1–3 specimens, and one observation per
specimen. -/
theorem genDonor_lengths (σ : Nat → Nat) (C B : Nat) (cids brefs : List String) (d k : Nat) :
    1 ≤ ((genDonor σ C B cids brefs d k).1).specEntries.length ∧
    ((genDonor σ C B cids brefs d k).1).specEntries.length ≤ 3 ∧
    ((genDonor σ C B cids brefs d k).1).obsEntries.length =
      ((genDonor σ C B cids brefs d k).1).specEntries.length ∧
    ((genDonor σ C B cids brefs d k).1).specRefs.length =
      ((genDonor σ C B cids brefs d k).1).specEntries.length := by
  obtain ⟨bs, bsd, ic1, ic2, eff, ns, kk, h1, h3, hs, hr, ho⟩ :=
    genDonor_shape σ C B cids brefs d k
  rw [hs, ho, hr]
  simp only [List.length_map, mapState_length, List.length_range, List.enum_length]
  exact ⟨h1, h3, trivial, trivial⟩

theorem sum_bounds {l : List Nat} (h : ∀ x ∈ l, 1 ≤ x ∧ x ≤ 3) :
    l.length ≤ l.sum ∧ l.sum ≤ 3 * l.length := by
  induction l with
  | nil => simp
  | cons x xs ih =>
    have hx := h x (by simp)
    have := ih (fun y hy => h y (by simp [hy]))
    simp only [List.length_cons, List.sum_cons]
    omega

theorem length_flatMap_general {α β : Type} (l : List α) (f : α → List β) :
    (l.flatMap f).length = (l.map (fun a => (f a).length)).sum := by
  induction l with
  | nil => rfl
  | cons a as ih => simp [List.flatMap_cons, ih]

theorem filter_specimen_entriesOk (σ : Nat → Nat) (D B C : Nat) :
    (entriesOk σ D B C).filter (fun e => decide (e.resource.resourceType = "Specimen")) =
      specimenEntriesOf σ D B C := by
  unfold entriesOk
  simp only [List.filter_append]
  rw [filter_rt_of_ne (fun e he => rt_bioEntries he) (by decide),
    filter_pair_netOrg,
    filter_rt_of_ne (fun e he => rt_colOrgEntries he) (by decide),
    filter_rt_of_ne (fun e he => rt_colGroupEntries he) (by decide),
    filter_rt_of_ne (fun e he => rt_donorSection he) (by decide),
    filter_rt_of_ne (fun e he => rt_condSection he) (by decide),
    filter_rt_of_all (fun e he => rt_specSection he),
    filter_rt_of_ne (fun e he => rt_drSection he) (by decide),
    filter_rt_of_ne (fun e he => rt_obsSection he) (by decide),
    if_neg (by decide), if_neg (by decide)]
  simp

theorem filter_patient_entriesOk (σ : Nat → Nat) (D B C : Nat) :
    (entriesOk σ D B C).filter (fun e => decide (e.resource.resourceType = "Patient")) =
      (donorOutsOf σ D B C).map (fun o => o.donorEntry) := by
  unfold entriesOk
  simp only [List.filter_append]
  rw [filter_rt_of_ne (fun e he => rt_bioEntries he) (by decide),
    filter_pair_netOrg,
    filter_rt_of_ne (fun e he => rt_colOrgEntries he) (by decide),
    filter_rt_of_ne (fun e he => rt_colGroupEntries he) (by decide),
    filter_rt_of_all (fun e he => rt_donorSection he),
    filter_rt_of_ne (fun e he => rt_condSection he) (by decide),
    filter_rt_of_ne (fun e he => rt_specSection he) (by decide),
    filter_rt_of_ne (fun e he => rt_drSection he) (by decide),
    filter_rt_of_ne (fun e he => rt_obsSection he) (by decide),
    if_neg (by decide), if_neg (by decide)]
  simp

theorem filter_condition_entriesOk (σ : Nat → Nat) (D B C : Nat) :
    (entriesOk σ D B C).filter (fun e => decide (e.resource.resourceType = "Condition")) =
      (donorOutsOf σ D B C).map (fun o => o.condEntry) := by
  unfold entriesOk
  simp only [List.filter_append]
  rw [filter_rt_of_ne (fun e he => rt_bioEntries he) (by decide),
    filter_pair_netOrg,
    filter_rt_of_ne (fun e he => rt_colOrgEntries he) (by decide),
    filter_rt_of_ne (fun e he => rt_colGroupEntries he) (by decide),
    filter_rt_of_ne (fun e he => rt_donorSection he) (by decide),
    filter_rt_of_all (fun e he => rt_condSection he),
    filter_rt_of_ne (fun e he => rt_specSection he) (by decide),
    filter_rt_of_ne (fun e he => rt_drSection he) (by decide),
    filter_rt_of_ne (fun e he => rt_obsSection he) (by decide),
    if_neg (by decide), if_neg (by decide)]
  simp

theorem filter_dr_entriesOk (σ : Nat → Nat) (D B C : Nat) :
    (entriesOk σ D B C).filter
      (fun e => decide (e.resource.resourceType = "DiagnosticReport")) =
      (donorOutsOf σ D B C).map (fun o => o.drEntry) := by
  unfold entriesOk
  simp only [List.filter_append]
  rw [filter_rt_of_ne (fun e he => rt_bioEntries he) (by decide),
    filter_pair_netOrg,
    filter_rt_of_ne (fun e he => rt_colOrgEntries he) (by decide),
    filter_rt_of_ne (fun e he => rt_colGroupEntries he) (by decide),
    filter_rt_of_ne (fun e he => rt_donorSection he) (by decide),
    filter_rt_of_ne (fun e he => rt_condSection he) (by decide),
    filter_rt_of_ne (fun e he => rt_specSection he) (by decide),
    filter_rt_of_all (fun e he => rt_drSection he),
    filter_rt_of_ne (fun e he => rt_obsSection he) (by decide),
    if_neg (by decide), if_neg (by decide)]
  simp

theorem filter_obs_entriesOk (σ : Nat → Nat) (D B C : Nat) :
    (entriesOk σ D B C).filter (fun e => decide (e.resource.resourceType = "Observation")) =
      (donorOutsOf σ D B C).flatMap (fun o => o.obsEntries) := by
  unfold entriesOk
  simp only [List.filter_append]
  rw [filter_rt_of_ne (fun e he => rt_bioEntries he) (by decide),
    filter_pair_netOrg,
    filter_rt_of_ne (fun e he => rt_colOrgEntries he) (by decide),
    filter_rt_of_ne (fun e he => rt_colGroupEntries he) (by decide),
    filter_rt_of_ne (fun e he => rt_donorSection he) (by decide),
    filter_rt_of_ne (fun e he => rt_condSection he) (by decide),
    filter_rt_of_ne (fun e he => rt_specSection he) (by decide),
    filter_rt_of_ne (fun e he => rt_drSection he) (by decide),
    filter_rt_of_all (fun e he => rt_obsSection he),
    if_neg (by decide), if_neg (by decide)]
  simp

theorem filter_org_entriesOk (σ : Nat → Nat) (D B C : Nat) :
    (entriesOk σ D B C).filter (fun e => decide (e.resource.resourceType = "Organization")) =
      bioEntriesOf σ B ++ [netOrgEntryOf σ B] ++ colOrgEntriesOf σ B C := by
  unfold entriesOk
  simp only [List.filter_append]
  rw [filter_rt_of_all (fun e he => rt_bioEntries he),
    filter_pair_netOrg,
    filter_rt_of_all (fun e he => rt_colOrgEntries he),
    filter_rt_of_ne (fun e he => rt_colGroupEntries he) (by decide),
    filter_rt_of_ne (fun e he => rt_donorSection he) (by decide),
    filter_rt_of_ne (fun e he => rt_condSection he) (by decide),
    filter_rt_of_ne (fun e he => rt_specSection he) (by decide),
    filter_rt_of_ne (fun e he => rt_drSection he) (by decide),
    filter_rt_of_ne (fun e he => rt_obsSection he) (by decide),
    if_pos (by decide), if_neg (by decide)]
  simp

theorem filter_group_entriesOk (σ : Nat → Nat) (D B C : Nat) :
    (entriesOk σ D B C).filter (fun e => decide (e.resource.resourceType = "Group")) =
      netEntryOf σ B :: colGroupEntriesOf σ D B C := by
  unfold entriesOk
  simp only [List.filter_append]
  rw [filter_rt_of_ne (fun e he => rt_bioEntries he) (by decide),
    filter_pair_netOrg,
    filter_rt_of_ne (fun e he => rt_colOrgEntries he) (by decide),
    filter_rt_of_all (fun e he => rt_colGroupEntries he),
    filter_rt_of_ne (fun e he => rt_donorSection he) (by decide),
    filter_rt_of_ne (fun e he => rt_condSection he) (by decide),
    filter_rt_of_ne (fun e he => rt_specSection he) (by decide),
    filter_rt_of_ne (fun e he => rt_drSection he) (by decide),
    filter_rt_of_ne (fun e he => rt_obsSection he) (by decide),
    if_neg (by decide), if_pos (by decide)]
  simp

/-- C10: a successfully generated bundle has exactly
`2·B + 2 + 2·C + 3·D + 2·S` entries where `S` is the number of Specimen
entries with `D ≤ S ≤ 3·D`: per biobank one JuristicPerson and one Biobank
organization, one NetworkOrganization and one Network in total, per
collection one CollectionOrganization and one CollectionGroup, per donor one
Patient, one Condition and one DiagnosticReport, and per sample one Specimen
and one Observation. -/
theorem bundle_entry_counts (σ : Nat → Nat) (u : String) (D B C : Nat)
    (hD : 1 ≤ D) (hB : 1 ≤ B) (hC : 1 ≤ C) (b : Bundle)
    (hb : generate_bundle σ u D B C = .ok b) :
    b.entries.length = 2 * B + 2 + 2 * C + 3 * D +
      2 * (b.entries.filter (fun e => decide (e.resource.resourceType = "Specimen"))).length ∧
    D ≤ (b.entries.filter (fun e => decide (e.resource.resourceType = "Specimen"))).length ∧
    (b.entries.filter (fun e => decide (e.resource.resourceType = "Specimen"))).length ≤ 3 * D ∧
    (b.entries.filter (fun e => decide (e.resource.resourceType = "Organization"))).length =
      2 * B + 1 + C ∧
    (b.entries.filter (fun e => decide (e.resource.resourceType = "Group"))).length = 1 + C ∧
    (b.entries.filter (fun e => decide (e.resource.resourceType = "Patient"))).length = D ∧
    (b.entries.filter (fun e => decide (e.resource.resourceType = "Condition"))).length = D ∧
    (b.entries.filter (fun e =>
      decide (e.resource.resourceType = "DiagnosticReport"))).length = D ∧
    (b.entries.filter (fun e => decide (e.resource.resourceType = "Observation"))).length =
      (b.entries.filter (fun e => decide (e.resource.resourceType = "Specimen"))).length := by
  rw [(bundle_ok_entries hb).1]
  rw [filter_specimen_entriesOk, filter_org_entriesOk, filter_group_entriesOk,
    filter_patient_entriesOk, filter_condition_entriesOk, filter_dr_entriesOk,
    filter_obs_entriesOk]
  have hMlen : (donorOutsOf σ D B C).length = D := length_donorOutsOf σ D B C
  have hspecLen : (specimenEntriesOf σ D B C).length =
      ((donorOutsOf σ D B C).map (fun o => o.specEntries.length)).sum := by
    unfold specimenEntriesOf
    rw [length_flatMap_general]
  have hobsLen : ((donorOutsOf σ D B C).flatMap (fun o => o.obsEntries)).length =
      ((donorOutsOf σ D B C).map (fun o => o.specEntries.length)).sum := by
    rw [length_flatMap_general]
    refine congrArg List.sum (List.map_congr_left (fun o ho => ?_))
    obtain ⟨d, hd, kk, rfl⟩ := mem_donorOutsOf ho
    exact (genDonor_lengths σ C B (colIdentifiersOf σ B C) (bbRefsOf σ B) d kk).2.2.1
  have hBounds := sum_bounds (l := (donorOutsOf σ D B C).map fun o => o.specEntries.length)
    (fun x hx => by
      obtain ⟨o, ho, rfl⟩ := List.mem_map.1 hx
      obtain ⟨d, hd, kk, rfl⟩ := mem_donorOutsOf ho
      exact ⟨(genDonor_lengths σ C B (colIdentifiersOf σ B C) (bbRefsOf σ B) d kk).1,
        (genDonor_lengths σ C B (colIdentifiersOf σ B C) (bbRefsOf σ B) d kk).2.1⟩)
  rw [List.length_map, hMlen] at hBounds
  have htotal : (entriesOk σ D B C).length =
      2 * B + 2 + C + C + D + D + (specimenEntriesOf σ D B C).length + D +
        ((donorOutsOf σ D B C).flatMap (fun o => o.obsEntries)).length := by
    unfold entriesOk
    simp only [List.length_append, List.length_cons, List.length_nil, List.length_map,
      length_bioEntriesOf, length_colOrgEntriesOf, length_colGroupEntriesOf, hMlen]
  refine ⟨?_, ?_, ?_, ?_, ?_, ?_, ?_, ?_, ?_⟩
  · rw [htotal, hspecLen, hobsLen]; omega
  · rw [hspecLen]; omega
  · rw [hspecLen]; omega
  · simp only [List.length_append, List.length_cons, List.length_nil,
      length_bioEntriesOf, length_colOrgEntriesOf]
  · simp only [List.length_cons, length_colGroupEntriesOf]
    omega
  · rw [List.length_map, hMlen]
  · rw [List.length_map, hMlen]
  · rw [List.length_map, hMlen]
  · rw [hobsLen, hspecLen]

/-- C10 witness: the counts at a concrete run with one donor, one biobank,
one collection. -/
theorem bundle_entry_counts_witness :
    (genBundleOk cexStream "u" 1 1 1).entries.length = 2 * 1 + 2 + 2 * 1 + 3 * 1 +
      2 * ((genBundleOk cexStream "u" 1 1 1).entries.filter
        (fun e => decide (e.resource.resourceType = "Specimen"))).length ∧
    1 ≤ ((genBundleOk cexStream "u" 1 1 1).entries.filter
      (fun e => decide (e.resource.resourceType = "Specimen"))).length ∧
    ((genBundleOk cexStream "u" 1 1 1).entries.filter
      (fun e => decide (e.resource.resourceType = "Specimen"))).length ≤ 3 * 1 ∧
    ((genBundleOk cexStream "u" 1 1 1).entries.filter
      (fun e => decide (e.resource.resourceType = "Organization"))).length = 2 * 1 + 1 + 1 ∧
    ((genBundleOk cexStream "u" 1 1 1).entries.filter
      (fun e => decide (e.resource.resourceType = "Group"))).length = 1 + 1 ∧
    ((genBundleOk cexStream "u" 1 1 1).entries.filter
      (fun e => decide (e.resource.resourceType = "Patient"))).length = 1 ∧
    ((genBundleOk cexStream "u" 1 1 1).entries.filter
      (fun e => decide (e.resource.resourceType = "Condition"))).length = 1 ∧
    ((genBundleOk cexStream "u" 1 1 1).entries.filter
      (fun e => decide (e.resource.resourceType = "DiagnosticReport"))).length = 1 ∧
    ((genBundleOk cexStream "u" 1 1 1).entries.filter
      (fun e => decide (e.resource.resourceType = "Observation"))).length =
      ((genBundleOk cexStream "u" 1 1 1).entries.filter
        (fun e => decide (e.resource.resourceType = "Specimen"))).length :=
  bundle_entry_counts cexStream "u" 1 1 1 (by decide) (by decide) (by decide)
    (genBundleOk cexStream "u" 1 1 1) (by rfl)

/-! ### C3 — collection subject counts -/

theorem ns_bioEntries {σ : Nat → Nat} {B : Nat} {e : Entry} (he : e ∈ bioEntriesOf σ B) :
    e.resource.numSubjects = none := by
  unfold bioEntriesOf at he
  obtain ⟨o, ho, he2⟩ := List.mem_flatMap.1 he
  obtain ⟨i, hi, kk, rfl⟩ := mem_bioOutsOf ho
  rcases List.mem_cons.1 he2 with h | h
  · rw [h]; rfl
  · rw [show e = ((genBiobank σ (countriesUsedOf σ B) i kk).1).bbEntry by simpa using h]; rfl

theorem ns_colOrgEntries {σ : Nat → Nat} {B C : Nat} {e : Entry}
    (he : e ∈ colOrgEntriesOf σ B C) : e.resource.numSubjects = none := by
  unfold colOrgEntriesOf at he
  obtain ⟨o, ho, rfl⟩ := List.mem_map.1 he
  obtain ⟨i, hi, kk, rfl⟩ := mem_colOutsOf ho
  rfl

theorem ns_donorSection {σ : Nat → Nat} {D B C : Nat} {e : Entry}
    (he : e ∈ (donorOutsOf σ D B C).map (fun o => o.donorEntry)) :
    e.resource.numSubjects = none := by
  obtain ⟨o, ho, rfl⟩ := List.mem_map.1 he
  obtain ⟨d, hd, kk, rfl⟩ := mem_donorOutsOf ho
  rfl

theorem ns_condSection {σ : Nat → Nat} {D B C : Nat} {e : Entry}
    (he : e ∈ (donorOutsOf σ D B C).map (fun o => o.condEntry)) :
    e.resource.numSubjects = none := by
  obtain ⟨o, ho, rfl⟩ := List.mem_map.1 he
  obtain ⟨d, hd, kk, rfl⟩ := mem_donorOutsOf ho
  rfl

theorem ns_drSection {σ : Nat → Nat} {D B C : Nat} {e : Entry}
    (he : e ∈ (donorOutsOf σ D B C).map (fun o => o.drEntry)) :
    e.resource.numSubjects = none := by
  obtain ⟨o, ho, rfl⟩ := List.mem_map.1 he
  obtain ⟨d, hd, kk, rfl⟩ := mem_donorOutsOf ho
  rfl

theorem ns_specSection {σ : Nat → Nat} {D B C : Nat} {e : Entry}
    (he : e ∈ specimenEntriesOf σ D B C) : e.resource.numSubjects = none := by
  unfold specimenEntriesOf at he
  obtain ⟨o, ho, he2⟩ := List.mem_flatMap.1 he
  obtain ⟨d, hd, kk, rfl⟩ := mem_donorOutsOf ho
  obtain ⟨bs, bsd, s, k', rfl⟩ := mem_specEntries_shape he2
  rfl

theorem ns_obsSection {σ : Nat → Nat} {D B C : Nat} {e : Entry}
    (he : e ∈ (donorOutsOf σ D B C).flatMap (fun o => o.obsEntries)) :
    e.resource.numSubjects = none := by
  obtain ⟨o, ho, he2⟩ := List.mem_flatMap.1 he
  obtain ⟨d, hd, kk, rfl⟩ := mem_donorOutsOf ho
  obtain ⟨ic1, ic2, eff, p, hp, rfl⟩ := mem_obsEntries_shape he2
  rfl

theorem length_colOutsOf (σ : Nat → Nat) (B C : Nat) : (colOutsOf σ B C).length = C := by
  unfold colOutsOf
  rw [mapState_length, List.length_range]

theorem colOut_getD_colId {σ : Nat → Nat} {B C i : Nat} (hi : i < C) :
    ((colOutsOf σ B C).getD i default).colId = "collection-" ++ padNum 3 (i + 1) := by
  unfold colOutsOf
  have hlen : (mapState (genCollection σ B (bbIdsOf σ B) (countriesUsedOf σ B))
      (List.range C) (kAfterBios σ B)).1.length = C := by
    rw [mapState_length, List.length_range]
  have hir : i < (List.range C).length := by simpa using hi
  rw [List.getD_eq_getElem _ _ (by omega)]
  obtain ⟨k', hk⟩ := mapState_getElem (genCollection σ B (bbIdsOf σ B) (countriesUsedOf σ B))
    (List.range C) (kAfterBios σ B) i hir (by omega)
  rw [hk, List.getElem_range]
  rfl

/-- The realized subject count of collection `i` of a run (the number of
distinct donors among the specimens assigned to it by the
`collection_specimen_map`). -/
def numSubjOf (σ : Nat → Nat) (D B C i : Nat) : Nat :=
  numSubjCount (specimenEntriesOf σ D B C) ((colSpecMapOf σ D B C).getD i [])

/-- The literal C3 claim: every CollectionGroup's recorded subject count is
at least 1 and at most the number of distinct donors among the specimens
assigned to that collection. -/
def C3ClaimHolds (σ : Nat → Nat) (u : String) (D B C : Nat) : Prop :=
  ∀ b ∈ (generate_bundle σ u D B C).toOption.toList, ∀ e ∈ b.entries,
    ∀ i ∈ List.range C, e.resource.id = "collection-" ++ padNum 3 (i + 1) →
    ∀ n ∈ e.resource.numSubjects.toList, 1 ≤ n ∧ n ≤ numSubjOf σ D B C i

/-- C3 (amended): every CollectionGroup's recorded subject count equals
`max(realized distinct-donor count, 1)`; it is always ≥ 1 and at most
`max 1 (realized count)` — the bound by the realized count alone fails only
for collections with no assigned specimens, which record 1. -/
theorem collection_subject_count (σ : Nat → Nat) (u : String) (D B C : Nat)
    (hD : 1 ≤ D) (hB : 1 ≤ B) (hC : 1 ≤ C) (b : Bundle)
    (hb : generate_bundle σ u D B C = .ok b) :
    ∀ e ∈ b.entries, ∀ i ∈ List.range C,
      e.resource.id = "collection-" ++ padNum 3 (i + 1) →
      ∀ n ∈ e.resource.numSubjects.toList,
        n = max (numSubjOf σ D B C i) 1 ∧ 1 ≤ n ∧ n ≤ max 1 (numSubjOf σ D B C i) := by
  intro e he i hi hid n hn
  rw [(bundle_ok_entries hb).1] at he
  rcases mem_entriesOk_cases he with h | ⟨h | h⟩ | h | h | h | h | h | h | h
  · rw [ns_bioEntries h] at hn; simp at hn
  · rw [h] at hn
    rw [show (netOrgEntryOf σ B).resource.numSubjects = none from rfl] at hn
    simp at hn
  · rw [h] at hn
    rw [show (netEntryOf σ B).resource.numSubjects = none from rfl] at hn
    simp at hn
  · rw [ns_colOrgEntries h] at hn; simp at hn
  · obtain ⟨j, hj, kk, rfl⟩ := mem_colGroupEntriesOf h
    have hidj : ((genColGroup σ (colOutsOf σ B C) (colSpecMapOf σ D B C)
        (specimenEntriesOf σ D B C) (allCodesOf σ D B C) j kk).1).resource.id =
        ((colOutsOf σ B C).getD j default).colId := rfl
    rw [hidj, colOut_getD_colId hj] at hid
    have hij : j = i := by
      have := id_pad_inj hid
      omega
    subst hij
    have hnv : ((genColGroup σ (colOutsOf σ B C) (colSpecMapOf σ D B C)
        (specimenEntriesOf σ D B C) (allCodesOf σ D B C) j kk).1).resource.numSubjects =
        some (max (numSubjOf σ D B C j) 1) := rfl
    rw [hnv] at hn
    simp only [Option.toList_some, List.mem_singleton] at hn
    subst hn
    refine ⟨rfl, le_max_right _ _, ?_⟩
    rw [Nat.max_comm]
  · rw [ns_donorSection h] at hn; simp at hn
  · rw [ns_condSection h] at hn; simp at hn
  · rw [ns_specSection h] at hn; simp at hn
  · rw [ns_drSection h] at hn; simp at hn
  · rw [ns_obsSection h] at hn; simp at hn

set_option maxHeartbeats 1000000 in
/-- C3 witness: the single collection of a concrete run records subject
count 1 = max(realized count, 1). -/
theorem collection_subject_count_witness :
    (1 : Nat) = max (numSubjOf cexStream 1 1 1 0) 1 ∧ 1 ≤ 1 ∧
    1 ≤ max 1 (numSubjOf cexStream 1 1 1 0) :=
  collection_subject_count cexStream "u" 1 1 1 (by decide) (by decide) (by decide)
    (genBundleOk cexStream "u" 1 1 1) (by rfl)
    ((genBundleOk cexStream "u" 1 1 1).entries.getD 5 default) (by decide)
    0 (by decide) (by rfl) 1 (by decide)

set_option maxHeartbeats 1000000 in
/-- C3 counterexample: with one donor, one biobank and two collections, the
second collection gets no specimens; its recorded subject count is 1 while
the number of distinct donors among its assigned specimens is 0, so the
claim as stated fails. -/
theorem collection_subject_count_cex : ¬ C3ClaimHolds cexStream "u" 1 1 2 := by
  unfold C3ClaimHolds
  decide

/-! ### C5 — per-donor cardinalities -/

theorem filter_flatMap {α β : Type} (l : List α) (g : α → List β) (p : β → Bool) :
    (l.flatMap g).filter p = l.flatMap (fun a => (g a).filter p) := by
  induction l with
  | nil => rfl
  | cons a as ih => simp only [List.flatMap_cons, List.filter_append, ih]

theorem flatMap_congr_mem {α β : Type} {l : List α} {g h : α → List β}
    (hgh : ∀ a ∈ l, g a = h a) : l.flatMap g = l.flatMap h := by
  induction l with
  | nil => rfl
  | cons a as ih =>
    simp only [List.flatMap_cons]
    rw [hgh a (by simp), ih (fun a ha => hgh a (by simp [ha]))]

theorem flatMap_of_filter {α β : Type} (l : List α) (q : α → Bool) (g : α → List β) :
    (l.filter q).flatMap g = l.flatMap (fun a => if q a then g a else []) := by
  induction l with
  | nil => rfl
  | cons a as ih =>
    by_cases hq : q a
    · simp only [List.filter_cons, hq, if_pos, List.flatMap_cons, ih]
    · simp only [List.filter_cons, List.flatMap_cons, hq, if_neg, Bool.false_eq_true,
        if_false, List.nil_append, ih]

theorem filter_over_map {α β : Type} (l : List α) (f : α → β) (p : β → Bool) :
    (l.map f).filter p = (l.filter (fun a => p (f a))).map f := by
  induction l with
  | nil => rfl
  | cons a as ih =>
    by_cases hp : p (f a)
    · simp only [List.map_cons, List.filter_cons, hp, if_pos, ih, List.map_cons]
    · simp only [List.map_cons, List.filter_cons, hp, Bool.false_eq_true, if_false, ih]

/-- Running a state-threaded loop body over a duplicate-free index list,
the elements whose output satisfies an index-determined predicate reduce to
the single block of the matching index. -/
theorem mapState_filter_single {β : Type} (f : Nat → Nat → β × Nat) (p : β → Bool) :
    ∀ (l : List Nat) (k d0 : Nat), l.count d0 = 1 →
      (∀ d ∈ l, d ≠ d0 → ∀ k', p ((f d k').1) = false) →
      (∀ k', p ((f d0 k').1) = true) →
      ∃ k', ((mapState f l k).1).filter p = [(f d0 k').1] := by
  intro l
  induction l with
  | nil => intro k d0 h; simp [List.count_nil] at h
  | cons a as ih =>
    intro k d0 hcount hnil hyes
    by_cases ha : a = d0
    · subst ha
      have hcas : as.count a = 0 := by
        have := List.count_cons_self a as
        omega
      refine ⟨k, ?_⟩
      show ((f a k).1 :: (mapState f as (f a k).2).1).filter p = _
      rw [List.filter_cons, if_pos (by simp [hyes k])]
      have hrest : ((mapState f as (f a k).2).1).filter p = [] := by
        rw [List.filter_eq_nil_iff]
        intro b hb
        obtain ⟨d, hd, k', rfl⟩ := mapState_mem hb
        have hda : d ≠ a := by
          intro hda
          subst hda
          exact absurd hcas (by simp [List.count_eq_zero, hd])
        simp [hnil d (by simp [hd]) hda k']
      rw [hrest]
    · have hcount' : as.count d0 = 1 := by
        have := List.count_cons d0 a as
        simp only [this] at hcount
        simpa [ha] using hcount
      obtain ⟨k', hk⟩ := ih (f a k).2 d0 hcount' (fun d hd hne k'' => hnil d (by simp [hd]) hne k'') hyes
      refine ⟨k', ?_⟩
      show ((f a k).1 :: (mapState f as (f a k).2).1).filter p = _
      rw [List.filter_cons, if_neg (by simp [hnil a (by simp) ha k]), hk]

theorem donor_id_ne {d d0 : Nat} (h : d ≠ d0) :
    ("donor-" ++ padNum 6 (d + 1)) ≠ ("donor-" ++ padNum 6 (d0 + 1)) := by
  intro he
  have := id_pad_inj he
  omega

theorem patient_ref_ne {d d0 : Nat} (h : d ≠ d0) :
    ("Patient/" ++ ("donor-" ++ padNum 6 (d + 1))) ≠
      ("Patient/" ++ ("donor-" ++ padNum 6 (d0 + 1))) := by
  intro he
  exact donor_id_ne h (strCat_left_cancel he)

theorem sample_ref_inj {a b x y : Nat}
    (h : ("Specimen/" ++ ("sample-" ++ padNum 6 (a + 1) ++ "-" ++ padNum 2 (x + 1))) =
      ("Specimen/" ++ ("sample-" ++ padNum 6 (b + 1) ++ "-" ++ padNum 2 (y + 1)))) :
    a = b ∧ x = y := by
  have h2 := two_index_id_inj (strCat_left_cancel h)
  omega

/-- Extraction of the single donor block with a given donor id. -/
theorem donorOuts_filter_id (σ : Nat → Nat) (D B C d0 : Nat) (hd0 : d0 < D) :
    ∃ k', (donorOutsOf σ D B C).filter
        (fun o => decide (o.donorEntry.resource.id = "donor-" ++ padNum 6 (d0 + 1))) =
      [(genDonor σ C B (colIdentifiersOf σ B C) (bbRefsOf σ B) d0 k').1] := by
  apply mapState_filter_single
  · exact List.count_eq_one_of_mem (List.nodup_range D) (List.mem_range.2 hd0)
  · intro d hd hne k'
    exact decide_eq_false (donor_id_ne hne)
  · intro k'
    exact decide_eq_true rfl

theorem p_false_of_rt {p : Entry → Bool} {R : String}
    (hforce : ∀ e, p e = true → e.resource.resourceType = R) {e : Entry} {v : String}
    (hv : e.resource.resourceType = v) (hne : v ≠ R) : p e = false := by
  cases hc : p e
  · rfl
  · exact absurd (hv ▸ hforce e hc) hne

theorem filter_nil_of_rt_section {p : Entry → Bool} {R : String} {l : List Entry} {v : String}
    (hforce : ∀ e, p e = true → e.resource.resourceType = R)
    (hall : ∀ e ∈ l, e.resource.resourceType = v) (hne : v ≠ R) : l.filter p = [] := by
  rw [List.filter_eq_nil_iff]
  intro e he
  simp [p_false_of_rt hforce (hall e he) hne]

/-- A predicate that forces resource type Condition selects only from the
condition section. -/
theorem filter_entriesOk_cond (σ : Nat → Nat) (D B C : Nat) (p : Entry → Bool)
    (hforce : ∀ e, p e = true → e.resource.resourceType = "Condition") :
    (entriesOk σ D B C).filter p =
      ((donorOutsOf σ D B C).map (fun o => o.condEntry)).filter p := by
  unfold entriesOk
  simp only [List.filter_append]
  rw [filter_nil_of_rt_section hforce (fun e he => rt_bioEntries he) (by decide),
    filter_nil_of_rt_section hforce (fun e he => rt_colOrgEntries he) (by decide),
    filter_nil_of_rt_section hforce (fun e he => rt_colGroupEntries he) (by decide),
    filter_nil_of_rt_section hforce (fun e he => rt_donorSection he) (by decide),
    filter_nil_of_rt_section hforce (fun e he => rt_specSection he) (by decide),
    filter_nil_of_rt_section hforce (fun e he => rt_drSection he) (by decide),
    filter_nil_of_rt_section hforce (fun e he => rt_obsSection he) (by decide)]
  have h1 : p (netOrgEntryOf σ B) = false := p_false_of_rt hforce
    (show (netOrgEntryOf σ B).resource.resourceType = "Organization" from rfl) (by decide)
  have h2 : p (netEntryOf σ B) = false := p_false_of_rt hforce
    (show (netEntryOf σ B).resource.resourceType = "Group" from rfl) (by decide)
  simp [List.filter_cons, h1, h2]

theorem filter_entriesOk_spec (σ : Nat → Nat) (D B C : Nat) (p : Entry → Bool)
    (hforce : ∀ e, p e = true → e.resource.resourceType = "Specimen") :
    (entriesOk σ D B C).filter p = (specimenEntriesOf σ D B C).filter p := by
  unfold entriesOk
  simp only [List.filter_append]
  rw [filter_nil_of_rt_section hforce (fun e he => rt_bioEntries he) (by decide),
    filter_nil_of_rt_section hforce (fun e he => rt_colOrgEntries he) (by decide),
    filter_nil_of_rt_section hforce (fun e he => rt_colGroupEntries he) (by decide),
    filter_nil_of_rt_section hforce (fun e he => rt_donorSection he) (by decide),
    filter_nil_of_rt_section hforce (fun e he => rt_condSection he) (by decide),
    filter_nil_of_rt_section hforce (fun e he => rt_drSection he) (by decide),
    filter_nil_of_rt_section hforce (fun e he => rt_obsSection he) (by decide)]
  have h1 : p (netOrgEntryOf σ B) = false := p_false_of_rt hforce
    (show (netOrgEntryOf σ B).resource.resourceType = "Organization" from rfl) (by decide)
  have h2 : p (netEntryOf σ B) = false := p_false_of_rt hforce
    (show (netEntryOf σ B).resource.resourceType = "Group" from rfl) (by decide)
  simp [List.filter_cons, h1, h2]

theorem filter_entriesOk_dr (σ : Nat → Nat) (D B C : Nat) (p : Entry → Bool)
    (hforce : ∀ e, p e = true → e.resource.resourceType = "DiagnosticReport") :
    (entriesOk σ D B C).filter p =
      ((donorOutsOf σ D B C).map (fun o => o.drEntry)).filter p := by
  unfold entriesOk
  simp only [List.filter_append]
  rw [filter_nil_of_rt_section hforce (fun e he => rt_bioEntries he) (by decide),
    filter_nil_of_rt_section hforce (fun e he => rt_colOrgEntries he) (by decide),
    filter_nil_of_rt_section hforce (fun e he => rt_colGroupEntries he) (by decide),
    filter_nil_of_rt_section hforce (fun e he => rt_donorSection he) (by decide),
    filter_nil_of_rt_section hforce (fun e he => rt_condSection he) (by decide),
    filter_nil_of_rt_section hforce (fun e he => rt_specSection he) (by decide),
    filter_nil_of_rt_section hforce (fun e he => rt_obsSection he) (by decide)]
  have h1 : p (netOrgEntryOf σ B) = false := p_false_of_rt hforce
    (show (netOrgEntryOf σ B).resource.resourceType = "Organization" from rfl) (by decide)
  have h2 : p (netEntryOf σ B) = false := p_false_of_rt hforce
    (show (netEntryOf σ B).resource.resourceType = "Group" from rfl) (by decide)
  simp [List.filter_cons, h1, h2]

theorem filter_entriesOk_obs (σ : Nat → Nat) (D B C : Nat) (p : Entry → Bool)
    (hforce : ∀ e, p e = true → e.resource.resourceType = "Observation") :
    (entriesOk σ D B C).filter p =
      ((donorOutsOf σ D B C).flatMap (fun o => o.obsEntries)).filter p := by
  unfold entriesOk
  simp only [List.filter_append]
  rw [filter_nil_of_rt_section hforce (fun e he => rt_bioEntries he) (by decide),
    filter_nil_of_rt_section hforce (fun e he => rt_colOrgEntries he) (by decide),
    filter_nil_of_rt_section hforce (fun e he => rt_colGroupEntries he) (by decide),
    filter_nil_of_rt_section hforce (fun e he => rt_donorSection he) (by decide),
    filter_nil_of_rt_section hforce (fun e he => rt_condSection he) (by decide),
    filter_nil_of_rt_section hforce (fun e he => rt_specSection he) (by decide),
    filter_nil_of_rt_section hforce (fun e he => rt_drSection he) (by decide)]
  have h1 : p (netOrgEntryOf σ B) = false := p_false_of_rt hforce
    (show (netOrgEntryOf σ B).resource.resourceType = "Organization" from rfl) (by decide)
  have h2 : p (netEntryOf σ B) = false := p_false_of_rt hforce
    (show (netEntryOf σ B).resource.resourceType = "Group" from rfl) (by decide)
  simp [List.filter_cons, h1, h2]

theorem flatMap_filter_reduce {α β : Type} (l : List α) (q : α → Bool) (g : α → List β)
    (p : β → Bool) (h : ∀ a ∈ l, q a = false → (g a).filter p = []) :
    (l.flatMap g).filter p = (l.filter q).flatMap (fun a => (g a).filter p) := by
  rw [filter_flatMap, flatMap_of_filter]
  apply flatMap_congr_mem
  intro a ha
  cases hq : q a
  · simp [h a ha hq]
  · simp

theorem countP_range_eq_one {n a : Nat} (ha : a < n) :
    (List.range n).countP (fun j => decide (j = a)) = 1 := by
  induction n with
  | zero => omega
  | succ n ih =>
    rw [List.range_succ, List.countP_append]
    by_cases han : a = n
    · subst han
      have h0 : (List.range a).countP (fun j => decide (j = a)) = 0 := by
        rw [List.countP_eq_zero]
        intro j hj
        have := List.mem_range.1 hj
        simp
        omega
      rw [h0]
      simp
    · rw [ih (by omega)]
      have h0 : ([n] : List Nat).countP (fun j => decide (j = a)) = 0 := by
        rw [List.countP_eq_zero]
        intro j hj
        simp only [List.mem_singleton] at hj
        subst hj
        simp
        omega
      rw [h0]

theorem genDonor_specRefs_map (σ : Nat → Nat) (C B : Nat) (cids brefs : List String)
    (d k : Nat) :
    ((genDonor σ C B cids brefs d k).1).specRefs =
      ((genDonor σ C B cids brefs d k).1).specEntries.map
        (fun s => "Specimen/" ++ s.resource.id) := by
  obtain ⟨bs, bsd, ic1, ic2, eff, ns, kk, h1, h3, hs, hr, ho⟩ :=
    genDonor_shape σ C B cids brefs d k
  rw [hs, hr, List.map_map]
  apply List.map_congr_left
  intro so hso
  obtain ⟨a, ha, ks, rfl⟩ := mapState_mem hso
  rfl

/-- C5: each Patient has exactly one Condition referencing it, between one
and three Specimens, exactly one DiagnosticReport whose specimen list is
exactly that donor's specimens, and exactly one Observation per such
Specimen. -/
theorem donor_cardinalities (σ : Nat → Nat) (u : String) (D B C : Nat)
    (hD : 1 ≤ D) (hB : 1 ≤ B) (hC : 1 ≤ C) (b : Bundle)
    (hb : generate_bundle σ u D B C = .ok b) :
    ∀ e ∈ b.entries, e.resource.resourceType = "Patient" →
      (b.entries.filter (fun x => decide (x.resource.resourceType = "Condition" ∧
        x.resource.subjectRef = some ("Patient/" ++ e.resource.id)))).length = 1 ∧
      1 ≤ (b.entries.filter (fun x => decide (x.resource.resourceType = "Specimen" ∧
        x.resource.subjectRef = some ("Patient/" ++ e.resource.id)))).length ∧
      (b.entries.filter (fun x => decide (x.resource.resourceType = "Specimen" ∧
        x.resource.subjectRef = some ("Patient/" ++ e.resource.id)))).length ≤ 3 ∧
      (b.entries.filter (fun x => decide (x.resource.resourceType = "DiagnosticReport" ∧
        x.resource.subjectRef = some ("Patient/" ++ e.resource.id)))).length = 1 ∧
      (∀ dr ∈ b.entries.filter (fun x =>
          decide (x.resource.resourceType = "DiagnosticReport" ∧
            x.resource.subjectRef = some ("Patient/" ++ e.resource.id))),
        dr.resource.specimenRefs =
          (b.entries.filter (fun x => decide (x.resource.resourceType = "Specimen" ∧
            x.resource.subjectRef = some ("Patient/" ++ e.resource.id)))).map
            (fun s => "Specimen/" ++ s.resource.id)) ∧
      (∀ s ∈ b.entries.filter (fun x => decide (x.resource.resourceType = "Specimen" ∧
          x.resource.subjectRef = some ("Patient/" ++ e.resource.id))),
        (b.entries.filter (fun x => decide (x.resource.resourceType = "Observation" ∧
          x.resource.specimenRefs = ["Specimen/" ++ s.resource.id]))).length = 1) := by
  intro e he hrt
  rw [(bundle_ok_entries hb).1] at he ⊢
  rcases mem_entriesOk_cases he with h | ⟨h | h⟩ | h | h | h | h | h | h | h
  · exact absurd ((rt_bioEntries h).symm.trans hrt) (by decide)
  · rw [h] at hrt
    exact absurd ((show (netOrgEntryOf σ B).resource.resourceType = "Organization"
      from rfl).symm.trans hrt) (by decide)
  · rw [h] at hrt
    exact absurd ((show (netEntryOf σ B).resource.resourceType = "Group"
      from rfl).symm.trans hrt) (by decide)
  · exact absurd ((rt_colOrgEntries h).symm.trans hrt) (by decide)
  · exact absurd ((rt_colGroupEntries h).symm.trans hrt) (by decide)
  case inr.inr.inr.inr.inl =>
    obtain ⟨o_e, ho_e, rfl⟩ := List.mem_map.1 h
    obtain ⟨d0, hd0, k0, rfl⟩ := mem_donorOutsOf ho_e
    rw [show (DonorOut.donorEntry ((genDonor σ C B (colIdentifiersOf σ B C)
      (bbRefsOf σ B) d0 k0).1)).resource.id = "donor-" ++ padNum 6 (d0 + 1) from rfl]
    obtain ⟨k', hfil⟩ := donorOuts_filter_id σ D B C d0 hd0
    have hqt : ∀ k'', (fun o : DonorOut =>
        decide (o.donorEntry.resource.id = "donor-" ++ padNum 6 (d0 + 1)))
          ((genDonor σ C B (colIdentifiersOf σ B C) (bbRefsOf σ B) d0 k'').1) = true :=
      fun _ => decide_eq_true rfl
    -- Condition filter reduces to the single condition of donor d0
    have hcond : (entriesOk σ D B C).filter (fun x =>
        decide (x.resource.resourceType = "Condition" ∧ x.resource.subjectRef =
          some ("Patient/" ++ ("donor-" ++ padNum 6 (d0 + 1))))) =
        [((genDonor σ C B (colIdentifiersOf σ B C) (bbRefsOf σ B) d0 k').1).condEntry] := by
      rw [filter_entriesOk_cond σ D B C _ (fun x hx => (of_decide_eq_true hx).1)]
      rw [filter_over_map]
      have hcongr : (donorOutsOf σ D B C).filter (fun o =>
          decide (o.condEntry.resource.resourceType = "Condition" ∧
            o.condEntry.resource.subjectRef =
              some ("Patient/" ++ ("donor-" ++ padNum 6 (d0 + 1))))) =
          (donorOutsOf σ D B C).filter (fun o =>
            decide (o.donorEntry.resource.id = "donor-" ++ padNum 6 (d0 + 1))) := by
        apply List.filter_congr
        intro o ho
        obtain ⟨d, hd, kd, rfl⟩ := mem_donorOutsOf ho
        by_cases hdd : d = d0
        · subst hdd
          exact decide_eq_decide.2 ⟨fun _ => rfl, fun _ => ⟨rfl, rfl⟩⟩
        · exact decide_eq_decide.2
            ⟨fun hand => absurd (Option.some.inj hand.2) (patient_ref_ne hdd),
             fun hid' => absurd hid' (donor_id_ne hdd)⟩
      rw [hcongr, hfil]
      rfl
    -- Specimen filter reduces to the specimen list of donor d0
    have hspecnil : ∀ o ∈ donorOutsOf σ D B C,
        (fun o : DonorOut => decide (o.donorEntry.resource.id =
          "donor-" ++ padNum 6 (d0 + 1))) o = false →
        (o.specEntries.filter (fun x => decide (x.resource.resourceType = "Specimen" ∧
          x.resource.subjectRef =
            some ("Patient/" ++ ("donor-" ++ padNum 6 (d0 + 1)))))) = [] := by
      intro o ho hqo
      obtain ⟨d, hd, kd, rfl⟩ := mem_donorOutsOf ho
      have hdd : d ≠ d0 := by
        intro h'
        subst h'
        rw [hqt kd] at hqo
        cases hqo
      rw [List.filter_eq_nil_iff]
      intro x hx
      obtain ⟨bs, bsd, s, ks, rfl⟩ := mem_specEntries_shape hx
      simp only [decide_eq_true_eq, not_and]
      intro _ hsub
      exact patient_ref_ne hdd (Option.some.inj hsub)
    have hspec : (entriesOk σ D B C).filter (fun x =>
        decide (x.resource.resourceType = "Specimen" ∧ x.resource.subjectRef =
          some ("Patient/" ++ ("donor-" ++ padNum 6 (d0 + 1))))) =
        ((genDonor σ C B (colIdentifiersOf σ B C) (bbRefsOf σ B) d0 k').1).specEntries := by
      rw [filter_entriesOk_spec σ D B C _ (fun x hx => (of_decide_eq_true hx).1)]
      unfold specimenEntriesOf
      rw [flatMap_filter_reduce _ (fun o => decide (o.donorEntry.resource.id =
        "donor-" ++ padNum 6 (d0 + 1))) _ _ hspecnil, hfil]
      simp only [List.flatMap_cons, List.flatMap_nil, List.append_nil]
      apply List.filter_eq_self.2
      intro x hx
      obtain ⟨bs, bsd, s, ks, rfl⟩ := mem_specEntries_shape hx
      exact decide_eq_true ⟨rfl, rfl⟩
    -- DiagnosticReport filter reduces to the single report of donor d0
    have hdr : (entriesOk σ D B C).filter (fun x =>
        decide (x.resource.resourceType = "DiagnosticReport" ∧ x.resource.subjectRef =
          some ("Patient/" ++ ("donor-" ++ padNum 6 (d0 + 1))))) =
        [((genDonor σ C B (colIdentifiersOf σ B C) (bbRefsOf σ B) d0 k').1).drEntry] := by
      rw [filter_entriesOk_dr σ D B C _ (fun x hx => (of_decide_eq_true hx).1)]
      rw [filter_over_map]
      have hcongr : (donorOutsOf σ D B C).filter (fun o =>
          decide (o.drEntry.resource.resourceType = "DiagnosticReport" ∧
            o.drEntry.resource.subjectRef =
              some ("Patient/" ++ ("donor-" ++ padNum 6 (d0 + 1))))) =
          (donorOutsOf σ D B C).filter (fun o =>
            decide (o.donorEntry.resource.id = "donor-" ++ padNum 6 (d0 + 1))) := by
        apply List.filter_congr
        intro o ho
        obtain ⟨d, hd, kd, rfl⟩ := mem_donorOutsOf ho
        by_cases hdd : d = d0
        · subst hdd
          exact decide_eq_decide.2 ⟨fun _ => rfl, fun _ => ⟨rfl, rfl⟩⟩
        · exact decide_eq_decide.2
            ⟨fun hand => absurd (Option.some.inj hand.2) (patient_ref_ne hdd),
             fun hid' => absurd hid' (donor_id_ne hdd)⟩
      rw [hcongr, hfil]
      rfl
    have hlen := genDonor_lengths σ C B (colIdentifiersOf σ B C) (bbRefsOf σ B) d0 k'
    refine ⟨by rw [hcond]; rfl, by rw [hspec]; exact hlen.1, by rw [hspec]; exact hlen.2.1,
      by rw [hdr]; rfl, ?_, ?_⟩
    · intro dr hdr2
      rw [hdr] at hdr2
      rw [List.mem_singleton] at hdr2
      subst hdr2
      rw [hspec]
      rw [show (DonorOut.drEntry ((genDonor σ C B (colIdentifiersOf σ B C)
        (bbRefsOf σ B) d0 k').1)).resource.specimenRefs =
        ((genDonor σ C B (colIdentifiersOf σ B C) (bbRefsOf σ B) d0 k').1).specRefs from rfl]
      exact genDonor_specRefs_map σ C B (colIdentifiersOf σ B C) (bbRefsOf σ B) d0 k'
    · intro s hs2
      rw [hspec] at hs2
      obtain ⟨bs0, bsd0, ic1, ic2, eff, ns0, kk0, hn1, hn3, hs0, hr0, ho0⟩ :=
        genDonor_shape σ C B (colIdentifiersOf σ B C) (bbRefsOf σ B) d0 k'
      rw [hs0] at hs2
      obtain ⟨so, hso, rfl⟩ := List.mem_map.1 hs2
      obtain ⟨sidx, hsidx, ks, rfl⟩ := mapState_mem hso
      have hsidx' : sidx < ns0 := List.mem_range.1 hsidx
      rw [show (SpecOut.entry ((genSpecimen σ ("donor-" ++ padNum 6 (d0 + 1))
        ((colIdentifiersOf σ B C).getD (d0 % C) "") bs0 bsd0 d0 sidx ks).1)).resource.id =
        "sample-" ++ padNum 6 (d0 + 1) ++ "-" ++ padNum 2 (sidx + 1) from rfl]
      -- observation filter reduces to the observations of donor d0
      have hobsnil : ∀ o ∈ donorOutsOf σ D B C,
          (fun o : DonorOut => decide (o.donorEntry.resource.id =
            "donor-" ++ padNum 6 (d0 + 1))) o = false →
          (o.obsEntries.filter (fun x =>
            decide (x.resource.resourceType = "Observation" ∧
              x.resource.specimenRefs = ["Specimen/" ++ ("sample-" ++ padNum 6 (d0 + 1)
                ++ "-" ++ padNum 2 (sidx + 1))]))) = [] := by
        intro o ho hqo
        obtain ⟨d, hd, kd, rfl⟩ := mem_donorOutsOf ho
        have hdd : d ≠ d0 := by
          intro h'
          subst h'
          rw [hqt kd] at hqo
          cases hqo
        rw [List.filter_eq_nil_iff]
        intro x hx
        obtain ⟨j1, j2, j3, p, hp, rfl⟩ := mem_obsEntries_shape hx
        simp only [decide_eq_true_eq, not_and]
        intro _ habs
        have hsnd : p.2 ∈ ((genDonor σ C B (colIdentifiersOf σ B C) (bbRefsOf σ B)
            d kd).1).specRefs := by
          have := List.mem_map_of_mem Prod.snd hp
          rwa [List.enum_map_snd] at this
        obtain ⟨bs1, bsd1, jc1, jc2, jeff, ns1, kk1, _, _, _, hr1, _⟩ :=
          genDonor_shape σ C B (colIdentifiersOf σ B C) (bbRefsOf σ B) d kd
        rw [hr1] at hsnd
        obtain ⟨so1, hso1, hps⟩ := List.mem_map.1 hsnd
        obtain ⟨j, hj, kj, rfl⟩ := mapState_mem hso1
        have h22 : p.2 =
            "Specimen/" ++ ("sample-" ++ padNum 6 (d0 + 1) ++ "-" ++ padNum 2 (sidx + 1)) := by
          have := congrArg (fun l : List String => l.headD "") habs
          simpa using this
        have h23 := hps.symm ▸ h22
        rw [show ((genSpecimen σ ("donor-" ++ padNum 6 (d + 1))
            ((colIdentifiersOf σ B C).getD (d % C) "") bs1 bsd1 d j kj).1).ref =
            "Specimen/" ++ ("sample-" ++ padNum 6 (d + 1) ++ "-" ++ padNum 2 (j + 1))
          from rfl] at h23
        exact hdd (sample_ref_inj h23).1
      have hobs : (entriesOk σ D B C).filter (fun x =>
          decide (x.resource.resourceType = "Observation" ∧
            x.resource.specimenRefs = ["Specimen/" ++ ("sample-" ++ padNum 6 (d0 + 1)
              ++ "-" ++ padNum 2 (sidx + 1))])) =
          (DonorOut.obsEntries ((genDonor σ C B (colIdentifiersOf σ B C)
            (bbRefsOf σ B) d0 k').1)).filter (fun x =>
            decide (x.resource.resourceType = "Observation" ∧
              x.resource.specimenRefs = ["Specimen/" ++ ("sample-" ++ padNum 6 (d0 + 1)
                ++ "-" ++ padNum 2 (sidx + 1))])) := by
        rw [filter_entriesOk_obs σ D B C _ (fun x hx => (of_decide_eq_true hx).1)]
        rw [flatMap_filter_reduce _ (fun o => decide (o.donorEntry.resource.id =
          "donor-" ++ padNum 6 (d0 + 1))) _ _ hobsnil, hfil]
        simp [List.flatMap_cons]
      rw [hobs, ho0, filter_over_map, List.length_map, ← List.countP_eq_length_filter]
      have hrefs : DonorOut.specRefs ((genDonor σ C B (colIdentifiersOf σ B C)
          (bbRefsOf σ B) d0 k').1) = (List.range ns0).map (fun j =>
            "Specimen/" ++ ("sample-" ++ padNum 6 (d0 + 1) ++ "-" ++ padNum 2 (j + 1))) := by
        rw [hr0]
        exact mapState_map (fun s : SpecOut => s.ref)
          (fun j => "Specimen/" ++ ("sample-" ++ padNum 6 (d0 + 1) ++ "-" ++ padNum 2 (j + 1)))
          (fun a kx => rfl) (List.range ns0) kk0
      have hstep1 : ∀ p ∈ ((genDonor σ C B (colIdentifiersOf σ B C) (bbRefsOf σ B)
          d0 k').1).specRefs.enum,
          (decide ((Resource.resourceType (Entry.resource (make_entry (build_observation
            ("obs-" ++ padNum 6 (d0 + 1) ++ "-" ++ padNum 2 (p.1 + 1))
            ("Patient/" ++ ("donor-" ++ padNum 6 (d0 + 1))) p.2
            ((bbRefsOf σ B).getD (d0 % B) "") ic1 ic2 eff)))) = "Observation" ∧
            (make_entry (build_observation
            ("obs-" ++ padNum 6 (d0 + 1) ++ "-" ++ padNum 2 (p.1 + 1))
            ("Patient/" ++ ("donor-" ++ padNum 6 (d0 + 1))) p.2
            ((bbRefsOf σ B).getD (d0 % B) "") ic1 ic2 eff)).resource.specimenRefs =
              ["Specimen/" ++ ("sample-" ++ padNum 6 (d0 + 1) ++ "-" ++
                padNum 2 (sidx + 1))])) =
          decide (p.2 = "Specimen/" ++ ("sample-" ++ padNum 6 (d0 + 1) ++ "-" ++
            padNum 2 (sidx + 1))) := by
        intro p hp
        by_cases hpt : p.2 = "Specimen/" ++ ("sample-" ++ padNum 6 (d0 + 1) ++ "-" ++
            padNum 2 (sidx + 1))
        · exact decide_eq_decide.2 ⟨fun _ => hpt, fun _ => ⟨rfl,
            congrArg (fun r : String => ([r] : List String)) hpt⟩⟩
        · exact decide_eq_decide.2 ⟨fun hand => (List.cons.inj hand.2).1,
            fun hb => absurd hb hpt⟩
      rw [List.countP_congr (fun x hx => by rw [hstep1 x hx])]
      have hsnd2 : ((genDonor σ C B (colIdentifiersOf σ B C) (bbRefsOf σ B)
          d0 k').1).specRefs.enum.countP (fun p =>
            decide (p.2 = "Specimen/" ++ ("sample-" ++ padNum 6 (d0 + 1) ++ "-" ++
              padNum 2 (sidx + 1)))) =
          ((genDonor σ C B (colIdentifiersOf σ B C) (bbRefsOf σ B)
          d0 k').1).specRefs.countP (fun r =>
            decide (r = "Specimen/" ++ ("sample-" ++ padNum 6 (d0 + 1) ++ "-" ++
              padNum 2 (sidx + 1)))) := by
        conv_rhs => rw [← List.enum_map_snd (((genDonor σ C B (colIdentifiersOf σ B C)
          (bbRefsOf σ B) d0 k').1).specRefs)]
        rw [List.countP_map]
        rfl
      rw [hsnd2, hrefs, List.countP_map]
      have hstep2 : ∀ j ∈ List.range ns0,
          (decide (("Specimen/" ++ ("sample-" ++ padNum 6 (d0 + 1) ++ "-" ++
            padNum 2 (j + 1))) = ("Specimen/" ++ ("sample-" ++ padNum 6 (d0 + 1) ++ "-" ++
            padNum 2 (sidx + 1))))) = decide (j = sidx) := by
        intro j hj
        by_cases hjs : j = sidx
        · subst hjs
          exact decide_eq_decide.2 ⟨fun _ => rfl, fun _ => rfl⟩
        · exact decide_eq_decide.2 ⟨fun hand => (sample_ref_inj hand).2,
            fun hb => absurd hb hjs⟩
      rw [List.countP_congr (fun x hx => by
        simp only [Function.comp_apply]
        rw [hstep2 x hx])]
      exact countP_range_eq_one hsidx'
  · exact absurd ((rt_condSection h).symm.trans hrt) (by decide)
  · exact absurd ((rt_specSection h).symm.trans hrt) (by decide)
  · exact absurd ((rt_drSection h).symm.trans hrt) (by decide)
  · exact absurd ((rt_obsSection h).symm.trans hrt) (by decide)

set_option maxHeartbeats 1000000 in
/-- C5 witness: the donor of a concrete run (Patient entry at index 6). -/
theorem donor_cardinalities_witness :
    ((genBundleOk cexStream "u" 1 1 1).entries.filter (fun x =>
      decide (x.resource.resourceType = "Condition" ∧
        x.resource.subjectRef = some ("Patient/" ++
          ((genBundleOk cexStream "u" 1 1 1).entries.getD 6 default).resource.id)))).length
      = 1 ∧
    1 ≤ ((genBundleOk cexStream "u" 1 1 1).entries.filter (fun x =>
      decide (x.resource.resourceType = "Specimen" ∧
        x.resource.subjectRef = some ("Patient/" ++
          ((genBundleOk cexStream "u" 1 1 1).entries.getD 6 default).resource.id)))).length ∧
    ((genBundleOk cexStream "u" 1 1 1).entries.filter (fun x =>
      decide (x.resource.resourceType = "Specimen" ∧
        x.resource.subjectRef = some ("Patient/" ++
          ((genBundleOk cexStream "u" 1 1 1).entries.getD 6 default).resource.id)))).length
      ≤ 3 ∧
    ((genBundleOk cexStream "u" 1 1 1).entries.filter (fun x =>
      decide (x.resource.resourceType = "DiagnosticReport" ∧
        x.resource.subjectRef = some ("Patient/" ++
          ((genBundleOk cexStream "u" 1 1 1).entries.getD 6 default).resource.id)))).length
      = 1 ∧
    (∀ dr ∈ (genBundleOk cexStream "u" 1 1 1).entries.filter (fun x =>
        decide (x.resource.resourceType = "DiagnosticReport" ∧
          x.resource.subjectRef = some ("Patient/" ++
            ((genBundleOk cexStream "u" 1 1 1).entries.getD 6 default).resource.id))),
      dr.resource.specimenRefs =
        ((genBundleOk cexStream "u" 1 1 1).entries.filter (fun x =>
          decide (x.resource.resourceType = "Specimen" ∧
            x.resource.subjectRef = some ("Patient/" ++
              ((genBundleOk cexStream "u" 1 1 1).entries.getD 6 default).resource.id)))).map
          (fun s => "Specimen/" ++ s.resource.id)) ∧
    (∀ s ∈ (genBundleOk cexStream "u" 1 1 1).entries.filter (fun x =>
        decide (x.resource.resourceType = "Specimen" ∧
          x.resource.subjectRef = some ("Patient/" ++
            ((genBundleOk cexStream "u" 1 1 1).entries.getD 6 default).resource.id))),
      ((genBundleOk cexStream "u" 1 1 1).entries.filter (fun x =>
        decide (x.resource.resourceType = "Observation" ∧
          x.resource.specimenRefs = ["Specimen/" ++ s.resource.id]))).length = 1) :=
  donor_cardinalities cexStream "u" 1 1 1 (by decide) (by decide) (by decide)
    (genBundleOk cexStream "u" 1 1 1) (by rfl)
    ((genBundleOk cexStream "u" 1 1 1).entries.getD 6 default) (by decide) (by rfl)

/-! ### C4 — referential integrity of the generated bundle

The references a resource dictionary of the source carries (subject, partOf,
managingEntity, the specimen list, performers, and the group-member extension
references) are collected by `refsOf`.  Distinctness of all `fullUrl`s is
proved through a decoding key: the literal head of the url classifies the
section that built it, and the values of its maximal digit runs recover the
loop indices. -/

/-- Collects the resource references of one resource dictionary, in field
order: subject, partOf, managingEntity, specimen, performer, member. -/
def refsOf (r : Resource) : List String :=
  r.subjectRef.toList ++ r.partOfRef.toList ++ r.managingEntityRef.toList ++
    r.specimenRefs ++ r.performerRefs ++ r.memberRefs

theorem mem_optToList {o : Option String} {x : String} : x ∈ o.toList ↔ o = some x := by
  cases o <;> simp [eq_comm]

theorem mem_refsOf {r : Resource} {x : String} :
    x ∈ refsOf r ↔ (r.subjectRef = some x ∨ r.partOfRef = some x ∨
      r.managingEntityRef = some x ∨ x ∈ r.specimenRefs ∨ x ∈ r.performerRefs ∨
      x ∈ r.memberRefs) := by
  simp only [refsOf, List.mem_append, mem_optToList]
  tauto

/-- Literal head test on character lists. -/
def startsWith : List Char → List Char → Bool
  | [], _ => true
  | _ :: _, [] => false
  | p :: ps, c :: cs => p == c && startsWith ps cs

theorem startsWith_append_split (p q r : List Char) :
    startsWith p (q ++ r) =
      (startsWith (p.take q.length) q && startsWith (p.drop q.length) r) := by
  induction p generalizing q with
  | nil => simp [startsWith]
  | cons c ps ih =>
    cases q with
    | nil => simp [startsWith]
    | cons d ds =>
      simp only [List.cons_append, List.length_cons, List.take_succ_cons,
        List.drop_succ_cons, startsWith, Bool.and_assoc]
      exact congrArg (fun b => c == d && b) (ih ds)

theorem startsWith_append_congr (p L r : List Char)
    (h : startsWith (p.take L.length) L = true → p.length ≤ L.length) :
    startsWith p (L ++ r) = startsWith p L := by
  have hsplit0 := startsWith_append_split p L []
  rw [List.append_nil] at hsplit0
  rw [startsWith_append_split, hsplit0]
  cases hsw : startsWith (p.take L.length) L with
  | false => rfl
  | true =>
    have hd : p.drop L.length = [] := by
      have := h hsw
      simp [List.drop_eq_nil_iff, this]
    rw [hd]
    rfl

theorem startsWith_pos_extend (p q r : List Char) (h : startsWith p q = true) :
    startsWith p (q ++ r) = true := by
  induction p generalizing q with
  | nil => rfl
  | cons c ps ih =>
    cases q with
    | nil => exact absurd h (by simp [startsWith])
    | cons d ds =>
      simp only [startsWith, Bool.and_eq_true] at h
      simp only [List.cons_append, startsWith, Bool.and_eq_true]
      exact ⟨h.1, ih ds h.2⟩

/-- Classification of a fullUrl by the literal head its id family starts
with; the eleven families of the generator get pairwise distinct tags. -/
def tagOf (s : List Char) : Nat :=
  if startsWith "Organization/juristic-person-".data s then 0
  else if startsWith "Organization/biobank-".data s then 1
  else if startsWith "Organization/network-org-".data s then 2
  else if startsWith "Organization/col-org-".data s then 3
  else if startsWith "Group/network-".data s then 4
  else if startsWith "Group/collection-".data s then 5
  else if startsWith "Patient/".data s then 6
  else if startsWith "Condition/".data s then 7
  else if startsWith "Specimen/".data s then 8
  else if startsWith "DiagnosticReport/".data s then 9
  else 10

theorem tagOf_append (L r : List Char)
    (h : ∀ p ∈ ["Organization/juristic-person-".data, "Organization/biobank-".data,
      "Organization/network-org-".data, "Organization/col-org-".data,
      "Group/network-".data, "Group/collection-".data, "Patient/".data,
      "Condition/".data, "Specimen/".data, "DiagnosticReport/".data],
      startsWith (p.take L.length) L = true → p.length ≤ L.length) :
    tagOf (L ++ r) = tagOf L := by
  unfold tagOf
  rw [startsWith_append_congr "Organization/juristic-person-".data L r
      (h "Organization/juristic-person-".data (by decide)),
    startsWith_append_congr "Organization/biobank-".data L r
      (h "Organization/biobank-".data (by decide)),
    startsWith_append_congr "Organization/network-org-".data L r
      (h "Organization/network-org-".data (by decide)),
    startsWith_append_congr "Organization/col-org-".data L r
      (h "Organization/col-org-".data (by decide)),
    startsWith_append_congr "Group/network-".data L r
      (h "Group/network-".data (by decide)),
    startsWith_append_congr "Group/collection-".data L r
      (h "Group/collection-".data (by decide)),
    startsWith_append_congr "Patient/".data L r
      (h "Patient/".data (by decide)),
    startsWith_append_congr "Condition/".data L r
      (h "Condition/".data (by decide)),
    startsWith_append_congr "Specimen/".data L r
      (h "Specimen/".data (by decide)),
    startsWith_append_congr "DiagnosticReport/".data L r
      (h "DiagnosticReport/".data (by decide))]

/-- Values of the maximal decimal-digit runs of a string, in order.
Fuel-based recursion (fuel beyond the length suffices). -/
def digitRunsAux : Nat → List Char → List Nat
  | 0, _ => []
  | _ + 1, [] => []
  | fuel + 1, c :: cs =>
    if c.isDigit then
      charsToNat ((c :: cs).takeWhile Char.isDigit) ::
        digitRunsAux fuel ((c :: cs).dropWhile Char.isDigit)
    else digitRunsAux fuel cs

def digitRuns (s : List Char) : List Nat := digitRunsAux (s.length + 1) s

/-- The decoding key of a fullUrl: section tag and digit-run values. -/
def keyS (s : String) : Nat × List Nat := (tagOf s.data, digitRuns s.data)

theorem digitRunsAux_congr (a b : Nat) (s : List Char) (h₁ : s.length < a)
    (h₂ : s.length < b) : digitRunsAux a s = digitRunsAux b s := by
  induction a generalizing b s with
  | zero => omega
  | succ g ih =>
    cases b with
    | zero => omega
    | succ g₂ =>
      cases s with
      | nil => rfl
      | cons c cs =>
        simp only [digitRunsAux]
        by_cases hc : c.isDigit = true
        · rw [if_pos hc, if_pos hc]
          have hd : ((c :: cs).dropWhile Char.isDigit).length ≤ cs.length := by
            rw [List.dropWhile_cons_of_pos hc]
            exact (suffix_dropWhile Char.isDigit cs).length_le
          simp only [List.length_cons] at h₁ h₂
          exact congrArg _ (ih _ _ (by omega) (by omega))
        · rw [if_neg hc, if_neg hc]
          simp only [List.length_cons] at h₁ h₂
          exact ih _ _ (by omega) (by omega)

theorem digitRuns_cons_of_neg {c : Char} (cs : List Char) (hc : c.isDigit = false) :
    digitRuns (c :: cs) = digitRuns cs := by
  unfold digitRuns
  simp only [List.length_cons, digitRunsAux]
  rw [if_neg (by simp [hc])]

theorem digitRuns_append_of_neg (a b : List Char) (h : ∀ c ∈ a, c.isDigit = false) :
    digitRuns (a ++ b) = digitRuns b := by
  induction a with
  | nil => rfl
  | cons c cs ih =>
    rw [List.cons_append, digitRuns_cons_of_neg _ (h c (by simp))]
    exact ih (fun x hx => h x (by simp [hx]))

theorem takeWhile_append_sep {p : Char → Bool} {sep : Char} (hs : p sep = false) :
    ∀ {ds : List Char}, (∀ c ∈ ds, p c = true) →
      ∀ r, (ds ++ sep :: r).takeWhile p = ds := by
  intro ds
  induction ds with
  | nil =>
    intro _ r
    rw [List.nil_append]
    exact List.takeWhile_cons_of_neg (by simp [hs])
  | cons c cs ih =>
    intro h r
    rw [List.cons_append, List.takeWhile_cons_of_pos (h c (by simp))]
    rw [ih (fun x hx => h x (by simp [hx])) r]

theorem dropWhile_append_sep {p : Char → Bool} {sep : Char} (hs : p sep = false) :
    ∀ {ds : List Char}, (∀ c ∈ ds, p c = true) →
      ∀ r, (ds ++ sep :: r).dropWhile p = sep :: r := by
  intro ds
  induction ds with
  | nil =>
    intro _ r
    rw [List.nil_append]
    exact List.dropWhile_cons_of_neg (by simp [hs])
  | cons c cs ih =>
    intro h r
    rw [List.cons_append, List.dropWhile_cons_of_pos (h c (by simp))]
    exact ih (fun x hx => h x (by simp [hx])) r

theorem takeWhile_of_all {p : Char → Bool} : ∀ {ds : List Char},
    (∀ c ∈ ds, p c = true) → ds.takeWhile p = ds := by
  intro ds
  induction ds with
  | nil => intro _; rfl
  | cons c cs ih =>
    intro h
    rw [List.takeWhile_cons_of_pos (h c (by simp)), ih (fun x hx => h x (by simp [hx]))]

theorem dropWhile_of_all {p : Char → Bool} : ∀ {ds : List Char},
    (∀ c ∈ ds, p c = true) → ds.dropWhile p = [] := by
  intro ds
  induction ds with
  | nil => intro _; rfl
  | cons c cs ih =>
    intro h
    rw [List.dropWhile_cons_of_pos (h c (by simp))]
    exact ih (fun x hx => h x (by simp [hx]))

theorem digitRuns_runs_sep {ds : List Char} (hne : ds ≠ [])
    (hd : ∀ c ∈ ds, c.isDigit = true) {sep : Char} (hs : sep.isDigit = false)
    (r : List Char) : digitRuns (ds ++ sep :: r) = charsToNat ds :: digitRuns r := by
  cases ds with
  | nil => exact absurd rfl hne
  | cons c cs =>
    have ht : (c :: (cs ++ sep :: r)).takeWhile Char.isDigit = c :: cs := by
      rw [← List.cons_append]
      exact takeWhile_append_sep hs hd r
    have hdrop : (c :: (cs ++ sep :: r)).dropWhile Char.isDigit = sep :: r := by
      rw [← List.cons_append]
      exact dropWhile_append_sep hs hd r
    unfold digitRuns
    rw [List.cons_append]
    show digitRunsAux ((c :: (cs ++ sep :: r)).length + 1) (c :: (cs ++ sep :: r)) = _
    simp only [digitRunsAux]
    rw [if_pos (by simp [hd c (by simp)]), ht, hdrop]
    have hlen : (sep :: r).length < (c :: (cs ++ sep :: r)).length := by
      simp only [List.length_cons, List.length_append]
      omega
    rw [digitRunsAux_congr _ ((sep :: r).length + 1) _ hlen (by omega)]
    show charsToNat (c :: cs) :: digitRuns (sep :: r) = _
    rw [digitRuns_cons_of_neg _ hs]
    rfl

theorem digitRuns_of_all {ds : List Char} (hne : ds ≠ [])
    (hd : ∀ c ∈ ds, c.isDigit = true) : digitRuns ds = [charsToNat ds] := by
  cases ds with
  | nil => exact absurd rfl hne
  | cons c cs =>
    unfold digitRuns
    simp only [digitRunsAux]
    rw [if_pos (by simp [hd c (by simp)]), takeWhile_of_all hd, dropWhile_of_all hd]
    simp [digitRunsAux]

theorem natDigits_ne_nil (n : Nat) : natDigits n ≠ [] := by
  unfold natDigits natDigitsAux
  by_cases h : n < 10 <;> simp [h]

theorem padNum_data_ne_nil (w n : Nat) : (padNum w n).data ≠ [] := by
  show List.replicate _ '0' ++ natDigits n ≠ []
  simp [natDigits_ne_nil n]

theorem keyS_jp (c : String) (hc : ∀ ch ∈ c.data, ch.isDigit = false) (n : Nat) :
    keyS ("Organization" ++ "/" ++ ("juristic-person-" ++ c ++ "-" ++ padNum 3 n))
      = (0, [n]) := by
  have hd : ("Organization" ++ "/" ++ ("juristic-person-" ++ c ++ "-" ++ padNum 3 n)).data
      = "Organization/juristic-person-".data ++ (c.data ++ ("-".data ++ (padNum 3 n).data)) := by
    simp only [String.data_append, List.append_assoc]
    simp only [List.cons_append, List.nil_append]
  unfold keyS
  rw [hd, tagOf_append "Organization/juristic-person-".data
    (c.data ++ ("-".data ++ (padNum 3 n).data)) (by decide)]
  rw [digitRuns_append_of_neg _ _ (by decide), digitRuns_append_of_neg _ _ hc,
    digitRuns_append_of_neg _ _ (by decide),
    digitRuns_of_all (padNum_data_ne_nil 3 n) (isDigit_padNum 3 n), charsToNat_padNum]
  rfl

theorem keyS_bb (c : String) (hc : ∀ ch ∈ c.data, ch.isDigit = false) (n : Nat) :
    keyS ("Organization" ++ "/" ++ ("biobank-" ++ c ++ "-" ++ padNum 3 n)) = (1, [n]) := by
  have hd : ("Organization" ++ "/" ++ ("biobank-" ++ c ++ "-" ++ padNum 3 n)).data
      = "Organization/biobank-".data ++ (c.data ++ ("-".data ++ (padNum 3 n).data)) := by
    simp only [String.data_append, List.append_assoc]
    simp only [List.cons_append, List.nil_append]
  unfold keyS
  rw [hd, tagOf_append "Organization/biobank-".data
    (c.data ++ ("-".data ++ (padNum 3 n).data)) (by decide)]
  rw [digitRuns_append_of_neg _ _ (by decide), digitRuns_append_of_neg _ _ hc,
    digitRuns_append_of_neg _ _ (by decide),
    digitRuns_of_all (padNum_data_ne_nil 3 n) (isDigit_padNum 3 n), charsToNat_padNum]
  rfl

theorem keyS_colOrg (n : Nat) :
    keyS ("Organization" ++ "/" ++ ("col-org-" ++ padNum 3 n)) = (3, [n]) := by
  have hd : ("Organization" ++ "/" ++ ("col-org-" ++ padNum 3 n)).data
      = "Organization/col-org-".data ++ (padNum 3 n).data := by
    simp only [String.data_append, List.append_assoc]
    simp only [List.cons_append, List.nil_append]
  unfold keyS
  rw [hd, tagOf_append "Organization/col-org-".data ((padNum 3 n).data) (by decide)]
  rw [digitRuns_append_of_neg _ _ (by decide),
    digitRuns_of_all (padNum_data_ne_nil 3 n) (isDigit_padNum 3 n), charsToNat_padNum]
  rfl

theorem keyS_colGrp (n : Nat) :
    keyS ("Group" ++ "/" ++ ("collection-" ++ padNum 3 n)) = (5, [n]) := by
  have hd : ("Group" ++ "/" ++ ("collection-" ++ padNum 3 n)).data
      = "Group/collection-".data ++ (padNum 3 n).data := by
    simp only [String.data_append, List.append_assoc]
    simp only [List.cons_append, List.nil_append]
  unfold keyS
  rw [hd, tagOf_append "Group/collection-".data ((padNum 3 n).data) (by decide)]
  rw [digitRuns_append_of_neg _ _ (by decide),
    digitRuns_of_all (padNum_data_ne_nil 3 n) (isDigit_padNum 3 n), charsToNat_padNum]
  rfl

theorem keyS_patient (n : Nat) :
    keyS ("Patient" ++ "/" ++ ("donor-" ++ padNum 6 n)) = (6, [n]) := by
  have hd : ("Patient" ++ "/" ++ ("donor-" ++ padNum 6 n)).data
      = "Patient/donor-".data ++ (padNum 6 n).data := by
    simp only [String.data_append, List.append_assoc]
    simp only [List.cons_append, List.nil_append]
  unfold keyS
  rw [hd, tagOf_append "Patient/donor-".data ((padNum 6 n).data) (by decide)]
  rw [digitRuns_append_of_neg _ _ (by decide),
    digitRuns_of_all (padNum_data_ne_nil 6 n) (isDigit_padNum 6 n), charsToNat_padNum]
  rfl

theorem keyS_cond (n : Nat) :
    keyS ("Condition" ++ "/" ++ ("condition-" ++ padNum 6 n)) = (7, [n]) := by
  have hd : ("Condition" ++ "/" ++ ("condition-" ++ padNum 6 n)).data
      = "Condition/condition-".data ++ (padNum 6 n).data := by
    simp only [String.data_append, List.append_assoc]
    simp only [List.cons_append, List.nil_append]
  unfold keyS
  rw [hd, tagOf_append "Condition/condition-".data ((padNum 6 n).data) (by decide)]
  rw [digitRuns_append_of_neg _ _ (by decide),
    digitRuns_of_all (padNum_data_ne_nil 6 n) (isDigit_padNum 6 n), charsToNat_padNum]
  rfl

theorem keyS_dr (n : Nat) :
    keyS ("DiagnosticReport" ++ "/" ++ ("diagreport-" ++ padNum 6 n)) = (9, [n]) := by
  have hd : ("DiagnosticReport" ++ "/" ++ ("diagreport-" ++ padNum 6 n)).data
      = "DiagnosticReport/diagreport-".data ++ (padNum 6 n).data := by
    simp only [String.data_append, List.append_assoc]
    simp only [List.cons_append, List.nil_append]
  unfold keyS
  rw [hd, tagOf_append "DiagnosticReport/diagreport-".data ((padNum 6 n).data) (by decide)]
  rw [digitRuns_append_of_neg _ _ (by decide),
    digitRuns_of_all (padNum_data_ne_nil 6 n) (isDigit_padNum 6 n), charsToNat_padNum]
  rfl

theorem keyS_spec (n m : Nat) :
    keyS ("Specimen" ++ "/" ++ ("sample-" ++ padNum 6 n ++ "-" ++ padNum 2 m))
      = (8, [n, m]) := by
  have hd : ("Specimen" ++ "/" ++ ("sample-" ++ padNum 6 n ++ "-" ++ padNum 2 m)).data
      = "Specimen/sample-".data ++ ((padNum 6 n).data ++ ('-' :: (padNum 2 m).data)) := by
    simp only [String.data_append, List.append_assoc]
    simp only [List.cons_append, List.nil_append]
  unfold keyS
  rw [hd, tagOf_append "Specimen/sample-".data
    ((padNum 6 n).data ++ ('-' :: (padNum 2 m).data)) (by decide)]
  rw [digitRuns_append_of_neg _ _ (by decide),
    digitRuns_runs_sep (padNum_data_ne_nil 6 n) (isDigit_padNum 6 n) (by decide),
    digitRuns_of_all (padNum_data_ne_nil 2 m) (isDigit_padNum 2 m),
    charsToNat_padNum, charsToNat_padNum]
  rfl

theorem keyS_obs (n m : Nat) :
    keyS ("Observation" ++ "/" ++ ("obs-" ++ padNum 6 n ++ "-" ++ padNum 2 m))
      = (10, [n, m]) := by
  have hd : ("Observation" ++ "/" ++ ("obs-" ++ padNum 6 n ++ "-" ++ padNum 2 m)).data
      = "Observation/obs-".data ++ ((padNum 6 n).data ++ ('-' :: (padNum 2 m).data)) := by
    simp only [String.data_append, List.append_assoc]
    simp only [List.cons_append, List.nil_append]
  unfold keyS
  rw [hd, tagOf_append "Observation/obs-".data
    ((padNum 6 n).data ++ ('-' :: (padNum 2 m).data)) (by decide)]
  rw [digitRuns_append_of_neg _ _ (by decide),
    digitRuns_runs_sep (padNum_data_ne_nil 6 n) (isDigit_padNum 6 n) (by decide),
    digitRuns_of_all (padNum_data_ne_nil 2 m) (isDigit_padNum 2 m),
    charsToNat_padNum, charsToNat_padNum]
  rfl

theorem map_flatMap_general {α β γ : Type} (l : List α) (f : α → List β) (g : β → γ) :
    (l.flatMap f).map g = l.flatMap (fun a => (f a).map g) := by
  induction l with
  | nil => rfl
  | cons a t ih => simp only [List.flatMap_cons, List.map_append, ih]

/-- Loop-body outputs of a stream-threaded `flatMap` whose projection is
independent of the stream position. -/
theorem mapState_flatMap {α β γ : Type} {f : α → Nat → β × Nat} (g : β → List γ)
    (gv : α → List γ) (h : ∀ a k, g ((f a k).1) = gv a) (l : List α) (k : Nat) :
    ((mapState f l k).1).flatMap g = l.flatMap gv := by
  induction l generalizing k with
  | nil => simp [mapState]
  | cons a as ih => simp [mapState, h, ih]

/-- Variant of `mapState_map` whose pointwise hypothesis is only required on
members of the input list. -/
theorem mapState_map_mem {α β γ : Type} {f : α → Nat → β × Nat} (g : β → γ) (gv : α → γ)
    (l : List α) (k : Nat) (h : ∀ a ∈ l, ∀ k', g ((f a k').1) = gv a) :
    ((mapState f l k).1).map g = l.map gv := by
  induction l generalizing k with
  | nil => simp [mapState]
  | cons a as ih =>
    simp only [mapState, List.map_cons, h a (by simp) k]
    rw [ih _ (fun x hx k' => h x (by simp [hx]) k')]

theorem nodup_flatMap_aux {α κ : Type} (l : List α) (f : α → List κ)
    (h1 : ∀ a ∈ l, (f a).Nodup)
    (h2 : List.Pairwise (fun a b => ∀ x ∈ f a, ∀ y ∈ f b, x ≠ y) l) :
    (l.flatMap f).Nodup := by
  induction l with
  | nil => simp
  | cons a t ih =>
    rw [List.flatMap_cons, List.nodup_append]
    obtain ⟨hhead, htail⟩ := List.pairwise_cons.1 h2
    refine ⟨h1 a (by simp), ih (fun b hb => h1 b (by simp [hb])) htail, ?_⟩
    intro x hx hx'
    obtain ⟨b, hb, hxb⟩ := List.mem_flatMap.1 hx'
    exact hhead b hb x hx x hxb rfl

/-- Pairwise relation between outputs of a stream-threaded loop over
`range n`, from a relation on the loop indices that is insensitive to the
stream position. -/
theorem pairwise_mapState_range {β : Type} (f : Nat → Nat → β × Nat) (n k : Nat)
    (R : β → β → Prop)
    (h : ∀ i j k₁ k₂, i < j → j < n → R ((f i k₁).1) ((f j k₂).1)) :
    ((mapState f (List.range n) k).1).Pairwise R := by
  rw [List.pairwise_iff_get]
  intro i j hij
  have hlen : ((mapState f (List.range n) k).1).length = n := by
    rw [mapState_length, List.length_range]
  have hi : (i : Nat) < (List.range n).length := by simp; omega
  have hj : (j : Nat) < (List.range n).length := by
    have := j.isLt
    simp
    omega
  simp only [List.get_eq_getElem]
  obtain ⟨k₁, h₁⟩ := mapState_getElem f (List.range n) k i hi i.isLt
  obtain ⟨k₂, h₂⟩ := mapState_getElem f (List.range n) k j hj j.isLt
  rw [h₁, h₂, List.getElem_range, List.getElem_range]
  exact h i j k₁ k₂ hij (by omega)

theorem disjoint_of_tags {S T : List (Nat × List Nat)} {P Q : Nat → Prop}
    (hS : ∀ x ∈ S, P x.1) (hT : ∀ x ∈ T, Q x.1)
    (h : ∀ t, P t → Q t → False) : S.Disjoint T :=
  fun _ hx hy => h _ (hS _ hx) (hT _ hy)

theorem append_congr_left {a b : String} (x : String) (h : a = b) : a ++ x = b ++ x := by
  rw [h]

theorem countriesUsed_mem (σ : Nat → Nat) (B : Nat) :
    ∀ s ∈ countriesUsedOf σ B, s ∈ COUNTRIES := by
  intro s hs
  have heq : countriesUsedOf σ B =
      (if ((pySample σ COUNTRIES (min B COUNTRIES.length) 0).1).length < B then
        (List.replicate (B / ((pySample σ COUNTRIES (min B COUNTRIES.length) 0).1).length + 1)
          ((pySample σ COUNTRIES (min B COUNTRIES.length) 0).1)).flatten
      else (pySample σ COUNTRIES (min B COUNTRIES.length) 0).1).take B := rfl
  rw [heq] at hs
  have hs2 := List.mem_of_mem_take hs
  by_cases hlt : ((pySample σ COUNTRIES (min B COUNTRIES.length) 0).1).length < B
  · rw [if_pos hlt] at hs2
    obtain ⟨l, hl, hsl⟩ := List.mem_flatten.1 hs2
    have hlcs := List.eq_of_mem_replicate hl
    subst hlcs
    exact pySample_subset σ _ _ _ _ hsl
  · rw [if_neg hlt] at hs2
    exact pySample_subset σ _ _ _ _ hs2

theorem countriesUsed_dfree (σ : Nat → Nat) (B i : Nat) :
    ∀ ch ∈ ((countriesUsedOf σ B).getD i "").data, ch.isDigit = false := by
  intro ch hch
  by_cases hi : i < (countriesUsedOf σ B).length
  · rw [List.getD_eq_getElem _ _ hi] at hch
    have hC := countriesUsed_mem σ B _ (List.getElem_mem hi)
    exact (by decide : ∀ s ∈ COUNTRIES, ∀ ch ∈ s.data, ch.isDigit = false) _ hC ch hch
  · rw [List.getD_eq_default _ _ (by omega)] at hch
    simp at hch

theorem keyS_netOrg (σ : Nat → Nat) (B : Nat) : keyS (netOrgEntryOf σ B).fullUrl = (2, [1]) := by
  rw [show (netOrgEntryOf σ B).fullUrl = "Organization" ++ "/" ++ "network-org-001" from rfl]
  decide

theorem keyS_net (σ : Nat → Nat) (B : Nat) : keyS (netEntryOf σ B).fullUrl = (4, [1]) := by
  rw [show (netEntryOf σ B).fullUrl = "Group" ++ "/" ++ "network-001" from rfl]
  decide

theorem bioKeys (σ : Nat → Nat) (B : Nat) :
    (bioEntriesOf σ B).map (fun e => keyS e.fullUrl)
      = (List.range B).flatMap (fun i => [((0:Nat), [i + 1]), ((1:Nat), [i + 1])]) := by
  unfold bioEntriesOf bioOutsOf
  rw [map_flatMap_general]
  refine mapState_flatMap _ (fun i => [((0:Nat), [i + 1]), ((1:Nat), [i + 1])])
    (fun i k => ?_) _ _
  simp only [List.map_cons, List.map_nil]
  rw [show ((genBiobank σ (countriesUsedOf σ B) i k).1).jpEntry.fullUrl
    = "Organization" ++ "/" ++ ("juristic-person-" ++ (countriesUsedOf σ B).getD i ""
      ++ "-" ++ padNum 3 (i + 1)) from rfl]
  rw [show ((genBiobank σ (countriesUsedOf σ B) i k).1).bbEntry.fullUrl
    = "Organization" ++ "/" ++ ("biobank-" ++ (countriesUsedOf σ B).getD i ""
      ++ "-" ++ padNum 3 (i + 1)) from rfl]
  rw [keyS_jp _ (countriesUsed_dfree σ B i) (i + 1),
    keyS_bb _ (countriesUsed_dfree σ B i) (i + 1)]

theorem colOrgKeys (σ : Nat → Nat) (B C : Nat) :
    (colOrgEntriesOf σ B C).map (fun e => keyS e.fullUrl)
      = (List.range C).map (fun i => ((3:Nat), [i + 1])) := by
  unfold colOrgEntriesOf colOutsOf
  rw [List.map_map]
  refine mapState_map _ (fun i => ((3:Nat), [i + 1])) (fun i k => ?_) _ _
  show keyS ((genCollection σ B (bbIdsOf σ B) (countriesUsedOf σ B) i k).1).colOrgEntry.fullUrl = _
  rw [show ((genCollection σ B (bbIdsOf σ B) (countriesUsedOf σ B) i k).1).colOrgEntry.fullUrl
    = "Organization" ++ "/" ++ ("col-org-" ++ padNum 3 (i + 1)) from rfl]
  exact keyS_colOrg (i + 1)

theorem colGrpKeys (σ : Nat → Nat) (D B C : Nat) :
    (colGroupEntriesOf σ D B C).map (fun e => keyS e.fullUrl)
      = (List.range C).map (fun i => ((5:Nat), [i + 1])) := by
  unfold colGroupEntriesOf
  refine mapState_map_mem _ (fun i => ((5:Nat), [i + 1])) _ _ (fun i hi k => ?_)
  have hiC : i < C := List.mem_range.1 hi
  show keyS ((genColGroup σ (colOutsOf σ B C) (colSpecMapOf σ D B C)
    (specimenEntriesOf σ D B C) (allCodesOf σ D B C) i k).1).fullUrl = _
  rw [show ((genColGroup σ (colOutsOf σ B C) (colSpecMapOf σ D B C)
    (specimenEntriesOf σ D B C) (allCodesOf σ D B C) i k).1).fullUrl
    = "Group" ++ "/" ++ ((colOutsOf σ B C).getD i default).colId from rfl]
  rw [colOut_getD_colId hiC]
  exact keyS_colGrp (i + 1)

theorem donorKeys (σ : Nat → Nat) (D B C : Nat) :
    ((donorOutsOf σ D B C).map (fun o => o.donorEntry)).map (fun e => keyS e.fullUrl)
      = (List.range D).map (fun d => ((6:Nat), [d + 1])) := by
  unfold donorOutsOf
  rw [List.map_map]
  refine mapState_map _ (fun d => ((6:Nat), [d + 1])) (fun d k => ?_) _ _
  show keyS ((genDonor σ C B (colIdentifiersOf σ B C) (bbRefsOf σ B) d k).1).donorEntry.fullUrl = _
  rw [show ((genDonor σ C B (colIdentifiersOf σ B C) (bbRefsOf σ B) d k).1).donorEntry.fullUrl
    = "Patient" ++ "/" ++ ("donor-" ++ padNum 6 (d + 1)) from rfl]
  exact keyS_patient (d + 1)

theorem condKeys (σ : Nat → Nat) (D B C : Nat) :
    ((donorOutsOf σ D B C).map (fun o => o.condEntry)).map (fun e => keyS e.fullUrl)
      = (List.range D).map (fun d => ((7:Nat), [d + 1])) := by
  unfold donorOutsOf
  rw [List.map_map]
  refine mapState_map _ (fun d => ((7:Nat), [d + 1])) (fun d k => ?_) _ _
  show keyS ((genDonor σ C B (colIdentifiersOf σ B C) (bbRefsOf σ B) d k).1).condEntry.fullUrl = _
  rw [show ((genDonor σ C B (colIdentifiersOf σ B C) (bbRefsOf σ B) d k).1).condEntry.fullUrl
    = "Condition" ++ "/" ++ ("condition-" ++ padNum 6 (d + 1)) from rfl]
  exact keyS_cond (d + 1)

theorem drKeys (σ : Nat → Nat) (D B C : Nat) :
    ((donorOutsOf σ D B C).map (fun o => o.drEntry)).map (fun e => keyS e.fullUrl)
      = (List.range D).map (fun d => ((9:Nat), [d + 1])) := by
  unfold donorOutsOf
  rw [List.map_map]
  refine mapState_map _ (fun d => ((9:Nat), [d + 1])) (fun d k => ?_) _ _
  show keyS ((genDonor σ C B (colIdentifiersOf σ B C) (bbRefsOf σ B) d k).1).drEntry.fullUrl = _
  rw [show ((genDonor σ C B (colIdentifiersOf σ B C) (bbRefsOf σ B) d k).1).drEntry.fullUrl
    = "DiagnosticReport" ++ "/" ++ ("diagreport-" ++ padNum 6 (d + 1)) from rfl]
  exact keyS_dr (d + 1)

theorem donorSpecKeys (σ : Nat → Nat) (B C : Nat) (d k : Nat) :
    ∃ m, (((genDonor σ C B (colIdentifiersOf σ B C) (bbRefsOf σ B) d k).1).specEntries).map
      (fun e => keyS e.fullUrl) = (List.range m).map (fun s => ((8:Nat), [d + 1, s + 1])) := by
  obtain ⟨bs, bsd, ic1, ic2, eff, ns, kk, h1, h3, hs, hr, ho⟩ :=
    genDonor_shape σ C B (colIdentifiersOf σ B C) (bbRefsOf σ B) d k
  refine ⟨ns, ?_⟩
  rw [hs, List.map_map]
  refine mapState_map _ (fun s => ((8:Nat), [d + 1, s + 1])) (fun s k' => ?_) _ _
  show keyS ((genSpecimen σ ("donor-" ++ padNum 6 (d + 1))
    ((colIdentifiersOf σ B C).getD (d % C) "") bs bsd d s k').1).entry.fullUrl = _
  rw [show ((genSpecimen σ ("donor-" ++ padNum 6 (d + 1))
    ((colIdentifiersOf σ B C).getD (d % C) "") bs bsd d s k').1).entry.fullUrl
    = "Specimen" ++ "/" ++ ("sample-" ++ padNum 6 (d + 1) ++ "-" ++ padNum 2 (s + 1)) from rfl]
  exact keyS_spec (d + 1) (s + 1)

theorem donorObsKeys (σ : Nat → Nat) (B C : Nat) (d k : Nat) :
    ∃ m, (((genDonor σ C B (colIdentifiersOf σ B C) (bbRefsOf σ B) d k).1).obsEntries).map
      (fun e => keyS e.fullUrl) = (List.range m).map (fun j => ((10:Nat), [d + 1, j + 1])) := by
  obtain ⟨bs, bsd, ic1, ic2, eff, ns, kk, h1, h3, hs, hr, ho⟩ :=
    genDonor_shape σ C B (colIdentifiersOf σ B C) (bbRefsOf σ B) d k
  refine ⟨((genDonor σ C B (colIdentifiersOf σ B C) (bbRefsOf σ B) d k).1).specRefs.length, ?_⟩
  rw [ho, List.map_map]
  have hfe : ∀ p : Nat × String,
      ((fun e => keyS e.fullUrl) ∘ (fun p : Nat × String => make_entry (build_observation
        ("obs-" ++ padNum 6 (d + 1) ++ "-" ++ padNum 2 (p.1 + 1))
        ("Patient/" ++ ("donor-" ++ padNum 6 (d + 1))) p.2
        ((bbRefsOf σ B).getD (d % B) "") ic1 ic2 eff))) p
      = ((10:Nat), [d + 1, p.1 + 1]) := by
    intro p
    show keyS (make_entry (build_observation
      ("obs-" ++ padNum 6 (d + 1) ++ "-" ++ padNum 2 (p.1 + 1))
      ("Patient/" ++ ("donor-" ++ padNum 6 (d + 1))) p.2
      ((bbRefsOf σ B).getD (d % B) "") ic1 ic2 eff)).fullUrl = _
    rw [show (make_entry (build_observation
      ("obs-" ++ padNum 6 (d + 1) ++ "-" ++ padNum 2 (p.1 + 1))
      ("Patient/" ++ ("donor-" ++ padNum 6 (d + 1))) p.2
      ((bbRefsOf σ B).getD (d % B) "") ic1 ic2 eff)).fullUrl
      = "Observation" ++ "/" ++ ("obs-" ++ padNum 6 (d + 1) ++ "-" ++ padNum 2 (p.1 + 1))
      from rfl]
    exact keyS_obs (d + 1) (p.1 + 1)
  rw [List.map_congr_left (fun p _ => hfe p)]
  rw [show (fun p : Nat × String => ((10:Nat), [d + 1, p.1 + 1]))
    = ((fun j => ((10:Nat), [d + 1, j + 1])) ∘ Prod.fst) from rfl]
  rw [← List.map_map]
  congr 1
  exact List.enum_map_fst _

theorem tag_rangePairs {n t : Nat} {g : Nat → List Nat} :
    ∀ x ∈ (List.range n).map (fun i => (t, g i)), x.1 = t := by
  intro x hx
  obtain ⟨i, _, rfl⟩ := List.mem_map.1 hx
  rfl

theorem tag_bioKeysList {B : Nat} :
    ∀ x ∈ (List.range B).flatMap (fun i => [((0:Nat), [i + 1]), ((1:Nat), [i + 1])]),
      x.1 = 0 ∨ x.1 = 1 := by
  intro x hx
  obtain ⟨i, _, hxi⟩ := List.mem_flatMap.1 hx
  simp only [List.mem_cons, List.not_mem_nil, or_false] at hxi
  rcases hxi with rfl | rfl
  · exact Or.inl rfl
  · exact Or.inr rfl

theorem tag_specKeys (σ : Nat → Nat) (D B C : Nat) :
    ∀ x ∈ (donorOutsOf σ D B C).flatMap
      (fun o => o.specEntries.map (fun e => keyS e.fullUrl)), x.1 = 8 := by
  intro x hx
  obtain ⟨o, ho, hxo⟩ := List.mem_flatMap.1 hx
  obtain ⟨d, hd, kk, rfl⟩ := mem_donorOutsOf ho
  obtain ⟨m, hm⟩ := donorSpecKeys σ B C d kk
  rw [hm] at hxo
  obtain ⟨s, _, rfl⟩ := List.mem_map.1 hxo
  rfl

theorem tag_obsKeys (σ : Nat → Nat) (D B C : Nat) :
    ∀ x ∈ (donorOutsOf σ D B C).flatMap
      (fun o => o.obsEntries.map (fun e => keyS e.fullUrl)), x.1 = 10 := by
  intro x hx
  obtain ⟨o, ho, hxo⟩ := List.mem_flatMap.1 hx
  obtain ⟨d, hd, kk, rfl⟩ := mem_donorOutsOf ho
  obtain ⟨m, hm⟩ := donorObsKeys σ B C d kk
  rw [hm] at hxo
  obtain ⟨j, _, rfl⟩ := List.mem_map.1 hxo
  rfl

theorem nodup_rangePairs (n t : Nat) :
    ((List.range n).map (fun i => (t, [i + 1]))).Nodup := by
  refine List.Nodup.map ?_ (List.nodup_range n)
  intro a b hab
  injection hab with h1 h2
  injection h2 with h3 h4
  omega

theorem nodup_bioKeysList (B : Nat) :
    ((List.range B).flatMap (fun i => [((0:Nat), [i + 1]), ((1:Nat), [i + 1])])).Nodup := by
  refine nodup_flatMap_aux _ _ (fun i _ => by simp) ?_
  have hpw : List.Pairwise (fun a b => a ≠ b) (List.range B) := List.nodup_range B
  refine hpw.imp ?_
  intro a b hab x hx y hy
  simp only [List.mem_cons, List.not_mem_nil, or_false] at hx hy
  intro hxy
  rcases hx with rfl | rfl <;> rcases hy with rfl | rfl <;>
    (injection hxy with h1 h2; injection h2 with h3 h4; omega)

theorem nodup_specKeys (σ : Nat → Nat) (D B C : Nat) :
    ((donorOutsOf σ D B C).flatMap
      (fun o => o.specEntries.map (fun e => keyS e.fullUrl))).Nodup := by
  refine nodup_flatMap_aux _ _ ?_ ?_
  · intro o ho
    obtain ⟨d, hd, kk, rfl⟩ := mem_donorOutsOf ho
    obtain ⟨m, hm⟩ := donorSpecKeys σ B C d kk
    rw [hm]
    refine List.Nodup.map ?_ (List.nodup_range m)
    intro a b hab
    injection hab with h1 h2
    injection h2 with h3 h4
    injection h4 with h5 h6
    omega
  · unfold donorOutsOf
    refine pairwise_mapState_range _ _ _ _ ?_
    intro i j k₁ k₂ hij hjD x hx y hy
    obtain ⟨m₁, hm₁⟩ := donorSpecKeys σ B C i k₁
    obtain ⟨m₂, hm₂⟩ := donorSpecKeys σ B C j k₂
    rw [hm₁] at hx
    rw [hm₂] at hy
    obtain ⟨s₁, _, rfl⟩ := List.mem_map.1 hx
    obtain ⟨s₂, _, rfl⟩ := List.mem_map.1 hy
    intro hxy
    injection hxy with h1 h2
    injection h2 with h3 h4
    omega

theorem nodup_obsKeys (σ : Nat → Nat) (D B C : Nat) :
    ((donorOutsOf σ D B C).flatMap
      (fun o => o.obsEntries.map (fun e => keyS e.fullUrl))).Nodup := by
  refine nodup_flatMap_aux _ _ ?_ ?_
  · intro o ho
    obtain ⟨d, hd, kk, rfl⟩ := mem_donorOutsOf ho
    obtain ⟨m, hm⟩ := donorObsKeys σ B C d kk
    rw [hm]
    refine List.Nodup.map ?_ (List.nodup_range m)
    intro a b hab
    injection hab with h1 h2
    injection h2 with h3 h4
    injection h4 with h5 h6
    omega
  · unfold donorOutsOf
    refine pairwise_mapState_range _ _ _ _ ?_
    intro i j k₁ k₂ hij hjD x hx y hy
    obtain ⟨m₁, hm₁⟩ := donorObsKeys σ B C i k₁
    obtain ⟨m₂, hm₂⟩ := donorObsKeys σ B C j k₂
    rw [hm₁] at hx
    rw [hm₂] at hy
    obtain ⟨j₁, _, rfl⟩ := List.mem_map.1 hx
    obtain ⟨j₂, _, rfl⟩ := List.mem_map.1 hy
    intro hxy
    injection hxy with h1 h2
    injection h2 with h3 h4
    omega

/-- Distinctness of all fullUrls of one generated entry list, for every
stream and all counts: the decoded keys (section tag, digit-run values) are
pairwise distinct. -/
theorem entriesOk_urls_nodup (σ : Nat → Nat) (D B C : Nat) :
    ((entriesOk σ D B C).map (fun e => e.fullUrl)).Nodup := by
  apply List.Nodup.of_map keyS
  rw [List.map_map]
  show ((entriesOk σ D B C).map (fun e => keyS e.fullUrl)).Nodup
  have hSpecEq : (specimenEntriesOf σ D B C).map (fun e => keyS e.fullUrl)
      = (donorOutsOf σ D B C).flatMap
        (fun o => o.specEntries.map (fun e => keyS e.fullUrl)) := by
    unfold specimenEntriesOf
    exact map_flatMap_general _ _ _
  have hObsEq : ((donorOutsOf σ D B C).flatMap (fun o => o.obsEntries)).map
      (fun e => keyS e.fullUrl)
      = (donorOutsOf σ D B C).flatMap
        (fun o => o.obsEntries.map (fun e => keyS e.fullUrl)) :=
    map_flatMap_general _ _ _
  unfold entriesOk
  simp only [List.map_append, List.map_cons, List.map_nil]
  rw [bioKeys, colOrgKeys, colGrpKeys, donorKeys, condKeys, drKeys,
    keyS_netOrg, keyS_net, hSpecEq, hObsEq]
  simp only [List.append_assoc]
  refine List.nodup_append.2 ⟨nodup_bioKeysList B, ?_, disjoint_of_tags
    (P := fun t => t = 0 ∨ t = 1) (Q := fun t => 2 ≤ t) tag_bioKeysList
    (fun x hx => by
      simp only [List.mem_append] at hx
      rcases hx with h | h | h | h | h | h | h | h
      · simp only [List.mem_cons, List.not_mem_nil, or_false] at h
        rcases h with rfl | rfl <;> decide
      · have := tag_rangePairs x h; omega
      · have := tag_rangePairs x h; omega
      · have := tag_rangePairs x h; omega
      · have := tag_rangePairs x h; omega
      · have := tag_specKeys σ D B C x h; omega
      · have := tag_rangePairs x h; omega
      · have := tag_obsKeys σ D B C x h; omega)
    (fun t h1 h2 => by omega)⟩
  refine List.nodup_append.2 ⟨by decide, ?_, disjoint_of_tags
    (P := fun t => t = 2 ∨ t = 4) (Q := fun t => t = 3 ∨ 5 ≤ t)
    (fun x hx => by
      simp only [List.mem_cons, List.not_mem_nil, or_false] at hx
      rcases hx with rfl | rfl <;> decide)
    (fun x hx => by
      simp only [List.mem_append] at hx
      rcases hx with h | h | h | h | h | h | h
      · have := tag_rangePairs x h; omega
      · have := tag_rangePairs x h; omega
      · have := tag_rangePairs x h; omega
      · have := tag_rangePairs x h; omega
      · have := tag_specKeys σ D B C x h; omega
      · have := tag_rangePairs x h; omega
      · have := tag_obsKeys σ D B C x h; omega)
    (fun t h1 h2 => by omega)⟩
  refine List.nodup_append.2 ⟨nodup_rangePairs C 3, ?_, disjoint_of_tags
    (P := fun t => t = 3) (Q := fun t => 5 ≤ t) tag_rangePairs
    (fun x hx => by
      simp only [List.mem_append] at hx
      rcases hx with h | h | h | h | h | h
      · have := tag_rangePairs x h; omega
      · have := tag_rangePairs x h; omega
      · have := tag_rangePairs x h; omega
      · have := tag_specKeys σ D B C x h; omega
      · have := tag_rangePairs x h; omega
      · have := tag_obsKeys σ D B C x h; omega)
    (fun t h1 h2 => by omega)⟩
  refine List.nodup_append.2 ⟨nodup_rangePairs C 5, ?_, disjoint_of_tags
    (P := fun t => t = 5) (Q := fun t => 6 ≤ t) tag_rangePairs
    (fun x hx => by
      simp only [List.mem_append] at hx
      rcases hx with h | h | h | h | h
      · have := tag_rangePairs x h; omega
      · have := tag_rangePairs x h; omega
      · have := tag_specKeys σ D B C x h; omega
      · have := tag_rangePairs x h; omega
      · have := tag_obsKeys σ D B C x h; omega)
    (fun t h1 h2 => by omega)⟩
  refine List.nodup_append.2 ⟨nodup_rangePairs D 6, ?_, disjoint_of_tags
    (P := fun t => t = 6) (Q := fun t => 7 ≤ t) tag_rangePairs
    (fun x hx => by
      simp only [List.mem_append] at hx
      rcases hx with h | h | h | h
      · have := tag_rangePairs x h; omega
      · have := tag_specKeys σ D B C x h; omega
      · have := tag_rangePairs x h; omega
      · have := tag_obsKeys σ D B C x h; omega)
    (fun t h1 h2 => by omega)⟩
  refine List.nodup_append.2 ⟨nodup_rangePairs D 7, ?_, disjoint_of_tags
    (P := fun t => t = 7) (Q := fun t => 8 ≤ t) tag_rangePairs
    (fun x hx => by
      simp only [List.mem_append] at hx
      rcases hx with h | h | h
      · have := tag_specKeys σ D B C x h; omega
      · have := tag_rangePairs x h; omega
      · have := tag_obsKeys σ D B C x h; omega)
    (fun t h1 h2 => by omega)⟩
  refine List.nodup_append.2 ⟨nodup_specKeys σ D B C, ?_, disjoint_of_tags
    (P := fun t => t = 8) (Q := fun t => 9 ≤ t) (tag_specKeys σ D B C)
    (fun x hx => by
      simp only [List.mem_append] at hx
      rcases hx with h | h
      · have := tag_rangePairs x h; omega
      · have := tag_obsKeys σ D B C x h; omega)
    (fun t h1 h2 => by omega)⟩
  refine List.nodup_append.2 ⟨nodup_rangePairs D 9, nodup_obsKeys σ D B C, disjoint_of_tags
    (P := fun t => t = 9) (Q := fun t => t = 10) tag_rangePairs (tag_obsKeys σ D B C)
    (fun t h1 h2 => by omega)⟩

theorem mem_entriesOk_sec {σ : Nat → Nat} {D B C : Nat} {e : Entry}
    (h : e ∈ bioEntriesOf σ B ∨ (e = netOrgEntryOf σ B ∨ e = netEntryOf σ B) ∨
      e ∈ colOrgEntriesOf σ B C ∨ e ∈ colGroupEntriesOf σ D B C ∨
      e ∈ (donorOutsOf σ D B C).map (fun o => o.donorEntry) ∨
      e ∈ (donorOutsOf σ D B C).map (fun o => o.condEntry) ∨
      e ∈ specimenEntriesOf σ D B C ∨
      e ∈ (donorOutsOf σ D B C).map (fun o => o.drEntry) ∨
      e ∈ (donorOutsOf σ D B C).flatMap (fun o => o.obsEntries)) :
    e ∈ entriesOk σ D B C := by
  unfold entriesOk
  simp only [List.mem_append, List.mem_cons, List.not_mem_nil, or_false]
  tauto

theorem jp_mem_entriesOk {σ : Nat → Nat} {B : Nat} (D C : Nat) {o : BioOut}
    (ho : o ∈ bioOutsOf σ B) : o.jpEntry ∈ entriesOk σ D B C := by
  refine mem_entriesOk_sec (Or.inl ?_)
  unfold bioEntriesOf
  exact List.mem_flatMap.2 ⟨o, ho, by simp⟩

theorem bb_mem_entriesOk {σ : Nat → Nat} {B : Nat} (D C : Nat) {o : BioOut}
    (ho : o ∈ bioOutsOf σ B) : o.bbEntry ∈ entriesOk σ D B C := by
  refine mem_entriesOk_sec (Or.inl ?_)
  unfold bioEntriesOf
  exact List.mem_flatMap.2 ⟨o, ho, by simp⟩

theorem colOrg_mem_entriesOk {σ : Nat → Nat} {B C : Nat} (D : Nat) {o : ColOut}
    (ho : o ∈ colOutsOf σ B C) : o.colOrgEntry ∈ entriesOk σ D B C := by
  refine mem_entriesOk_sec (Or.inr (Or.inr (Or.inl ?_)))
  unfold colOrgEntriesOf
  exact List.mem_map.2 ⟨o, ho, rfl⟩

theorem donorE_mem_entriesOk {σ : Nat → Nat} {D B C : Nat} {o : DonorOut}
    (ho : o ∈ donorOutsOf σ D B C) : o.donorEntry ∈ entriesOk σ D B C :=
  mem_entriesOk_sec (Or.inr (Or.inr (Or.inr (Or.inr (Or.inl
    (List.mem_map.2 ⟨o, ho, rfl⟩))))))

theorem spec_mem_entriesOk {σ : Nat → Nat} {D B C : Nat} {o : DonorOut} {se : Entry}
    (ho : o ∈ donorOutsOf σ D B C) (hse : se ∈ o.specEntries) :
    se ∈ entriesOk σ D B C := by
  refine mem_entriesOk_sec (Or.inr (Or.inr (Or.inr (Or.inr (Or.inr (Or.inr (Or.inl ?_)))))))
  unfold specimenEntriesOf
  exact List.mem_flatMap.2 ⟨o, ho, hse⟩

theorem headD_eq_getD {α : Type} (l : List α) (d : α) : l.headD d = l.getD 0 d := by
  cases l <;> rfl

theorem bioOut_at (σ : Nat → Nat) (B m : Nat) (hm : m < B) :
    ∃ o ∈ bioOutsOf σ B, (bbIdsOf σ B).getD m "" = o.bbId ∧
      (bbRefsOf σ B).getD m "" = o.bbRef ∧ (jpIdsOf σ B).getD m "" = o.jpId := by
  have hlen : (bioOutsOf σ B).length = B := by
    unfold bioOutsOf
    rw [mapState_length, List.length_range]
  have hm' : m < (bioOutsOf σ B).length := by omega
  refine ⟨(bioOutsOf σ B)[m], List.getElem_mem hm', ?_, ?_, ?_⟩
  · unfold bbIdsOf
    rw [List.getD_eq_getElem _ _ (by rw [List.length_map]; omega), List.getElem_map]
  · unfold bbRefsOf
    rw [List.getD_eq_getElem _ _ (by rw [List.length_map]; omega), List.getElem_map]
  · unfold jpIdsOf
    rw [List.getD_eq_getElem _ _ (by rw [List.length_map]; omega), List.getElem_map]

theorem bioOut_urls {σ : Nat → Nat} {B : Nat} {o : BioOut} (ho : o ∈ bioOutsOf σ B) :
    o.jpEntry.fullUrl = "Organization/" ++ o.jpId ∧
    o.bbEntry.fullUrl = "Organization/" ++ o.bbId ∧
    o.bbRef = "Organization/" ++ o.bbId := by
  obtain ⟨i, hi, kk, rfl⟩ := mem_bioOutsOf ho
  refine ⟨?_, ?_, rfl⟩
  · show "Organization" ++ "/" ++ ("juristic-person-" ++ (countriesUsedOf σ B).getD i ""
      ++ "-" ++ padNum 3 (i + 1)) = _
    exact append_congr_left _ (by decide)
  · show "Organization" ++ "/" ++ ("biobank-" ++ (countriesUsedOf σ B).getD i ""
      ++ "-" ++ padNum 3 (i + 1)) = _
    exact append_congr_left _ (by decide)

theorem colOut_url {σ : Nat → Nat} {B C : Nat} {o : ColOut} (ho : o ∈ colOutsOf σ B C) :
    o.colOrgEntry.fullUrl = "Organization/" ++ o.colOrgId := by
  obtain ⟨i, hi, kk, rfl⟩ := mem_colOutsOf ho
  show "Organization" ++ "/" ++ ("col-org-" ++ padNum 3 (i + 1)) = _
  exact append_congr_left _ (by decide)

theorem colOut_getD_mem (σ : Nat → Nat) (B : Nat) {C i : Nat} (hi : i < C) :
    (colOutsOf σ B C).getD i default ∈ colOutsOf σ B C := by
  rw [List.getD_eq_getElem _ _ (by rw [length_colOutsOf]; omega)]
  exact List.getElem_mem _

theorem colSpecMap_getD {σ : Nat → Nat} {D B C i : Nat} (hi : i < C) :
    (colSpecMapOf σ D B C).getD i []
      = ((donorOutsOf σ D B C).filter (fun o => decide (o.colIdx = i))).flatMap
        (fun o => o.specRefs) := by
  unfold colSpecMapOf
  rw [List.getD_eq_getElem _ _ (by rw [List.length_map, List.length_range]; omega)]
  rw [List.getElem_map, List.getElem_range]

theorem donor_url_form (σ : Nat → Nat) (C B : Nat) (cids brefs : List String) (d k : Nat) :
    ((genDonor σ C B cids brefs d k).1).donorEntry.fullUrl
      = "Patient/" ++ ("donor-" ++ padNum 6 (d + 1)) := by
  show "Patient" ++ "/" ++ ("donor-" ++ padNum 6 (d + 1)) = _
  exact append_congr_left _ (by decide)

theorem specRef_resolves {σ : Nat → Nat} {D B C : Nat} {o : DonorOut}
    (ho : o ∈ donorOutsOf σ D B C) :
    ∀ ref ∈ o.specRefs, ∃ se ∈ o.specEntries, se.fullUrl = ref := by
  obtain ⟨d, hd, kk, rfl⟩ := mem_donorOutsOf ho
  intro ref href
  rw [genDonor_specRefs_map] at href
  obtain ⟨se, hse, hid⟩ := List.mem_map.1 href
  refine ⟨se, hse, ?_⟩
  have hu : se.fullUrl = "Specimen/" ++ se.resource.id := by
    obtain ⟨bs, bsd, s, k', rfl⟩ := mem_specEntries_shape hse
    show "Specimen" ++ "/" ++ ("sample-" ++ padNum 6 (d + 1) ++ "-" ++ padNum 2 (s + 1)) = _
    exact append_congr_left _ (by decide)
  exact hu.trans hid

theorem filter_count_one {l : List Entry} (hn : (l.map (fun e => e.fullUrl)).Nodup)
    {r : String} (hr : r ∈ l.map (fun e => e.fullUrl)) :
    (l.filter (fun x => decide (x.fullUrl = r))).length = 1 := by
  induction l with
  | nil => simp at hr
  | cons a t ih =>
    simp only [List.map_cons, List.nodup_cons] at hn
    rw [List.filter_cons]
    by_cases ha : a.fullUrl = r
    · rw [if_pos (by simp [ha])]
      have ht0 : t.filter (fun x => decide (x.fullUrl = r)) = [] := by
        refine List.filter_eq_nil_iff.2 ?_
        intro x hx
        simp only [decide_eq_true_eq]
        intro hdx
        exact hn.1 (List.mem_map.2 ⟨x, hx, hdx.trans ha.symm⟩)
      rw [ht0]
      rfl
    · rw [if_neg (by simp [ha])]
      apply ih hn.2
      rcases List.mem_map.1 hr with ⟨x, hx, hxr⟩
      rcases List.mem_cons.1 hx with rfl | hx2
      · exact absurd hxr ha
      · exact List.mem_map.2 ⟨x, hx2, hxr⟩

/-- Every reference of every generated entry occurs among the fullUrls of the
same entry list. -/
theorem entriesOk_refs_mem (σ : Nat → Nat) (D B C : Nat) (hB : 1 ≤ B) :
    ∀ e ∈ entriesOk σ D B C, ∀ r ∈ refsOf e.resource,
      r ∈ (entriesOk σ D B C).map (fun x => x.fullUrl) := by
  intro e he r hr
  rcases mem_entriesOk_cases he with hbio | hnet | hco | hcg | hdn | hcd | hsp | hdr | hob
  · unfold bioEntriesOf at hbio
    obtain ⟨o, ho, he2⟩ := List.mem_flatMap.1 hbio
    obtain ⟨i, hi, kk, rfl⟩ := mem_bioOutsOf ho
    simp only [List.mem_cons, List.not_mem_nil, or_false] at he2
    rcases he2 with rfl | rfl
    · rw [show refsOf ((genBiobank σ (countriesUsedOf σ B) i kk).1).jpEntry.resource
        = ([] : List String) from rfl] at hr
      exact absurd hr (List.not_mem_nil r)
    · rw [show refsOf ((genBiobank σ (countriesUsedOf σ B) i kk).1).bbEntry.resource
        = ["Organization/" ++ ("juristic-person-" ++ (countriesUsedOf σ B).getD i ""
          ++ "-" ++ padNum 3 (i + 1))] from rfl] at hr
      have hrX := List.mem_singleton.1 hr
      subst hrX
      refine List.mem_map.2 ⟨((genBiobank σ (countriesUsedOf σ B) i kk).1).jpEntry,
        jp_mem_entriesOk D C ho, ?_⟩
      show "Organization" ++ "/" ++ ("juristic-person-" ++ (countriesUsedOf σ B).getD i ""
        ++ "-" ++ padNum 3 (i + 1)) = _
      exact append_congr_left _ (by decide)
  · rcases hnet with rfl | rfl
    · rw [show refsOf (netOrgEntryOf σ B).resource
        = ["Organization/" ++ (jpIdsOf σ B).headD ""] from rfl] at hr
      have hrX := List.mem_singleton.1 hr
      subst hrX
      obtain ⟨o, ho, hbb, hbr, hjp⟩ := bioOut_at σ B 0 (by omega)
      refine List.mem_map.2 ⟨o.jpEntry, jp_mem_entriesOk D C ho, ?_⟩
      rw [(bioOut_urls ho).1, headD_eq_getD, hjp]
    · rw [show refsOf (netEntryOf σ B).resource
        = "Organization/network-org-001" :: bbRefsOf σ B from rfl] at hr
      rcases List.mem_cons.1 hr with rfl | hrb
      · refine List.mem_map.2 ⟨netOrgEntryOf σ B,
          mem_entriesOk_sec (Or.inr (Or.inl (Or.inl rfl))), ?_⟩
        exact (by decide :
          ("Organization" ++ "/" ++ "network-org-001" : String) = "Organization/network-org-001")
      · unfold bbRefsOf at hrb
        obtain ⟨o, ho, hor⟩ := List.mem_map.1 hrb
        refine List.mem_map.2 ⟨o.bbEntry, bb_mem_entriesOk D C ho, ?_⟩
        rw [(bioOut_urls ho).2.1, ← (bioOut_urls ho).2.2]
        exact hor
  · unfold colOrgEntriesOf at hco
    obtain ⟨o, ho, rfl⟩ := List.mem_map.1 hco
    obtain ⟨i, hi, kk, rfl⟩ := mem_colOutsOf ho
    rw [show refsOf ((genCollection σ B (bbIdsOf σ B) (countriesUsedOf σ B)
        i kk).1).colOrgEntry.resource
      = ["Organization/" ++ (bbIdsOf σ B).getD (i % B) ""] from rfl] at hr
    have hrX := List.mem_singleton.1 hr
    subst hrX
    obtain ⟨o2, ho2, hbb, hbr, hjp⟩ := bioOut_at σ B (i % B) (Nat.mod_lt _ (by omega))
    refine List.mem_map.2 ⟨o2.bbEntry, bb_mem_entriesOk D C ho2, ?_⟩
    rw [(bioOut_urls ho2).2.1, hbb]
  · obtain ⟨i, hi, kk, rfl⟩ := mem_colGroupEntriesOf hcg
    rw [show refsOf ((genColGroup σ (colOutsOf σ B C) (colSpecMapOf σ D B C)
        (specimenEntriesOf σ D B C) (allCodesOf σ D B C) i kk).1).resource
      = ("Organization/" ++ ((colOutsOf σ B C).getD i default).colOrgId)
        :: ((colSpecMapOf σ D B C).getD i []).take 20 from rfl] at hr
    rcases List.mem_cons.1 hr with rfl | hrm
    · have hmem := colOut_getD_mem σ B hi
      refine List.mem_map.2 ⟨((colOutsOf σ B C).getD i default).colOrgEntry,
        colOrg_mem_entriesOk D hmem, ?_⟩
      exact colOut_url hmem
    · have hrm2 := List.mem_of_mem_take hrm
      rw [colSpecMap_getD hi] at hrm2
      obtain ⟨o2, ho2f, hro⟩ := List.mem_flatMap.1 hrm2
      have ho2 : o2 ∈ donorOutsOf σ D B C := List.mem_of_mem_filter ho2f
      obtain ⟨se, hse, hurl⟩ := specRef_resolves ho2 r hro
      exact List.mem_map.2 ⟨se, spec_mem_entriesOk ho2 hse, hurl⟩
  · obtain ⟨o, ho, rfl⟩ := List.mem_map.1 hdn
    obtain ⟨d, hd, kk, rfl⟩ := mem_donorOutsOf ho
    rw [show refsOf ((genDonor σ C B (colIdentifiersOf σ B C) (bbRefsOf σ B)
        d kk).1).donorEntry.resource = ([] : List String) from rfl] at hr
    exact absurd hr (List.not_mem_nil r)
  · obtain ⟨o, ho, rfl⟩ := List.mem_map.1 hcd
    obtain ⟨d, hd, kk, rfl⟩ := mem_donorOutsOf ho
    rw [show refsOf ((genDonor σ C B (colIdentifiersOf σ B C) (bbRefsOf σ B)
        d kk).1).condEntry.resource
      = ["Patient/" ++ ("donor-" ++ padNum 6 (d + 1))] from rfl] at hr
    have hrX := List.mem_singleton.1 hr
    subst hrX
    refine List.mem_map.2 ⟨((genDonor σ C B (colIdentifiersOf σ B C) (bbRefsOf σ B)
      d kk).1).donorEntry, donorE_mem_entriesOk ho, ?_⟩
    exact donor_url_form σ C B _ _ d kk
  · unfold specimenEntriesOf at hsp
    obtain ⟨o, ho, hse⟩ := List.mem_flatMap.1 hsp
    obtain ⟨d, hd, kk, rfl⟩ := mem_donorOutsOf ho
    obtain ⟨bs, bsd, s, k', rfl⟩ := mem_specEntries_shape hse
    rw [show refsOf ((genSpecimen σ ("donor-" ++ padNum 6 (d + 1))
        ((colIdentifiersOf σ B C).getD (d % C) "") bs bsd d s k').1).entry.resource
      = ["Patient/" ++ ("donor-" ++ padNum 6 (d + 1))] from rfl] at hr
    have hrX := List.mem_singleton.1 hr
    subst hrX
    refine List.mem_map.2 ⟨((genDonor σ C B (colIdentifiersOf σ B C) (bbRefsOf σ B)
      d kk).1).donorEntry, donorE_mem_entriesOk ho, ?_⟩
    exact donor_url_form σ C B _ _ d kk
  · obtain ⟨o, ho, rfl⟩ := List.mem_map.1 hdr
    obtain ⟨d, hd, kk, rfl⟩ := mem_donorOutsOf ho
    rw [mem_refsOf] at hr
    rcases hr with h | h | h | h | h | h
    · rw [show ((genDonor σ C B (colIdentifiersOf σ B C) (bbRefsOf σ B)
        d kk).1).drEntry.resource.subjectRef
        = some ("Patient/" ++ ("donor-" ++ padNum 6 (d + 1))) from rfl] at h
      have hrX := (Option.some.inj h).symm
      subst hrX
      refine List.mem_map.2 ⟨((genDonor σ C B (colIdentifiersOf σ B C) (bbRefsOf σ B)
        d kk).1).donorEntry, donorE_mem_entriesOk ho, ?_⟩
      exact donor_url_form σ C B _ _ d kk
    · rw [show ((genDonor σ C B (colIdentifiersOf σ B C) (bbRefsOf σ B)
        d kk).1).drEntry.resource.partOfRef = (none : Option String) from rfl] at h
      exact Option.noConfusion h
    · rw [show ((genDonor σ C B (colIdentifiersOf σ B C) (bbRefsOf σ B)
        d kk).1).drEntry.resource.managingEntityRef = (none : Option String) from rfl] at h
      exact Option.noConfusion h
    · rw [show ((genDonor σ C B (colIdentifiersOf σ B C) (bbRefsOf σ B)
        d kk).1).drEntry.resource.specimenRefs
        = ((genDonor σ C B (colIdentifiersOf σ B C) (bbRefsOf σ B) d kk).1).specRefs
        from rfl] at h
      obtain ⟨se, hse, hurl⟩ := specRef_resolves ho r h
      exact List.mem_map.2 ⟨se, spec_mem_entriesOk ho hse, hurl⟩
    · rw [show ((genDonor σ C B (colIdentifiersOf σ B C) (bbRefsOf σ B)
        d kk).1).drEntry.resource.performerRefs = ([] : List String) from rfl] at h
      exact absurd h (List.not_mem_nil r)
    · rw [show ((genDonor σ C B (colIdentifiersOf σ B C) (bbRefsOf σ B)
        d kk).1).drEntry.resource.memberRefs = ([] : List String) from rfl] at h
      exact absurd h (List.not_mem_nil r)
  · obtain ⟨o, ho, he2⟩ := List.mem_flatMap.1 hob
    obtain ⟨d, hd, kk, rfl⟩ := mem_donorOutsOf ho
    obtain ⟨ic1, ic2, eff, p, hp, rfl⟩ := mem_obsEntries_shape he2
    rw [show refsOf (make_entry (build_observation
        ("obs-" ++ padNum 6 (d + 1) ++ "-" ++ padNum 2 (p.1 + 1))
        ("Patient/" ++ ("donor-" ++ padNum 6 (d + 1))) p.2
        ((bbRefsOf σ B).getD (d % B) "") ic1 ic2 eff)).resource
      = ["Patient/" ++ ("donor-" ++ padNum 6 (d + 1)), p.2,
        (bbRefsOf σ B).getD (d % B) ""] from rfl] at hr
    simp only [List.mem_cons, List.not_mem_nil, or_false] at hr
    rcases hr with rfl | rfl | rfl
    · refine List.mem_map.2 ⟨((genDonor σ C B (colIdentifiersOf σ B C) (bbRefsOf σ B)
        d kk).1).donorEntry, donorE_mem_entriesOk ho, ?_⟩
      exact donor_url_form σ C B _ _ d kk
    · have hp2 : p.2 ∈ ((genDonor σ C B (colIdentifiersOf σ B C) (bbRefsOf σ B)
          d kk).1).specRefs := by
        rw [List.enum_eq_zip_range] at hp
        exact (List.of_mem_zip hp).2
      obtain ⟨se, hse, hurl⟩ := specRef_resolves ho p.2 hp2
      exact List.mem_map.2 ⟨se, spec_mem_entriesOk ho hse, hurl⟩
    · obtain ⟨o2, ho2, hbb, hbr, hjp⟩ := bioOut_at σ B (d % B) (Nat.mod_lt _ (by omega))
      refine List.mem_map.2 ⟨o2.bbEntry, bb_mem_entriesOk D C ho2, ?_⟩
      rw [(bioOut_urls ho2).2.1, ← (bioOut_urls ho2).2.2, hbr]

/-- C4: in every successfully generated bundle (donor, biobank and collection
counts all at least 1, any seed), the fullUrls of the entries are pairwise
distinct, and every resource reference occurring in any entry (subject,
partOf, managingEntity, specimen, performer, group-member) equals the fullUrl
of exactly one entry of the same bundle. -/
theorem bundle_references_resolve (σ : Nat → Nat) (u : String) (D B C : Nat)
    (hD : 1 ≤ D) (hB : 1 ≤ B) (hC : 1 ≤ C) (b : Bundle)
    (hb : generate_bundle σ u D B C = .ok b) :
    (b.entries.map (fun e => e.fullUrl)).Nodup ∧
    ∀ e ∈ b.entries, ∀ r ∈ refsOf e.resource,
      (b.entries.filter (fun x => decide (x.fullUrl = r))).length = 1 := by
  obtain ⟨hbe, _⟩ := bundle_ok_entries hb
  rw [hbe]
  refine ⟨entriesOk_urls_nodup σ D B C, ?_⟩
  intro e he r hr
  exact filter_count_one (entriesOk_urls_nodup σ D B C)
    (entriesOk_refs_mem σ D B C hB e he r hr)

set_option maxHeartbeats 1000000 in
/-- C4 witness: a concrete run with one donor, one biobank, one collection. -/
theorem bundle_references_resolve_witness :
    ((genBundleOk cexStream "u" 1 1 1).entries.map (fun e => e.fullUrl)).Nodup ∧
    ∀ e ∈ (genBundleOk cexStream "u" 1 1 1).entries, ∀ r ∈ refsOf e.resource,
      ((genBundleOk cexStream "u" 1 1 1).entries.filter
        (fun x => decide (x.fullUrl = r))).length = 1 :=
  bundle_references_resolve cexStream "u" 1 1 1 (by decide) (by decide) (by decide)
    (genBundleOk cexStream "u" 1 1 1) (by rfl)
